import Mathlib

/-!
Verification development for the solana-tx-parser decode-and-reconcile
pipeline.  The Rust sources under `src/` are shallowly embedded: pure
functions become Lean functions, the stateful map constructions become
explicit folds over association lists, machine integers become `Nat`/`Int`
with explicit `% 2 ^ w` where the Rust code could wrap, and fallible
operations return `Option`/`Except`.  `f64` user-interface amounts are
modelled exactly as rationals in normal form (`UiAmt`, an executable
numerator/denominator pair): every claim settled here compares values
produced by the same conversion function, so exact arithmetic is a
faithful refinement of the floating-point computation for those claims.

Rust `HashMap`s are modelled as association lists in insertion order
(`lookup`/`insert`-compatible); wherever the Rust code *iterates* a
`HashMap` (the instruction classifier's program-id map), the iteration
order is passed explicitly as a parameter, since Rust's `std::HashMap`
iteration order is unspecified and varies between invocations.
-/

set_option linter.unusedVariables false
set_option maxRecDepth 100000

namespace SolTx

/-! ## Association-list maps (model of `std::collections::HashMap`) -/

/-- Lookup in an association-list map (`HashMap::get`). -/
def lookupM {β : Type} (m : List (String × β)) (k : String) : Option β :=
  match m with
  | [] => none
  | (k', v) :: rest => if k' = k then some v else lookupM rest k

/-- Insert-or-overwrite (`HashMap::insert`); keeps the position of an
existing key, appends new keys (insertion order). -/
def insertM {β : Type} (m : List (String × β)) (k : String) (v : β) :
    List (String × β) :=
  match m with
  | [] => [(k, v)]
  | (k', v') :: rest =>
      if k' = k then (k', v) :: rest else (k', v') :: insertM rest k v

/-- Remove a key (`HashMap::remove`).  A `HashMap` holds each key at most
once, so removal is modelled as filtering the key out. -/
def removeM {β : Type} (m : List (String × β)) (k : String) :
    List (String × β) :=
  match m with
  | [] => []
  | (k', v') :: rest =>
      if k' = k then removeM rest k else (k', v') :: removeM rest k

/-- `HashMap::contains_key`. -/
def containsM {β : Type} (m : List (String × β)) (k : String) : Bool :=
  (lookupM m k).isSome

/-- `map.entry(k).or_default().push(v)` for map-of-lists. -/
def pushEntryM {γ : Type} (m : List (String × List γ)) (k : String) (v : γ) :
    List (String × List γ) :=
  match m with
  | [] => [(k, [v])]
  | (k', vs) :: rest =>
      if k' = k then (k', vs ++ [v]) :: rest else (k', vs) :: pushEntryM rest k v

/-- The bucket of a map-of-lists at a key, `[]` when the key is absent. -/
def bucketM {γ : Type} (m : List (String × List γ)) (k : String) : List γ :=
  (lookupM m k).getD []

/-- Keys of a map in insertion order. -/
def keysM {β : Type} (m : List (String × β)) : List String := m.map Prod.fst

/-! ## Bytes and little-endian decoding

Bytes of the Rust `&[u8]` slices are modelled as `Nat` values `< 256`. -/

/-- Big-endian byte-list to natural number (used by base58). -/
def bytesToNat (bs : List Nat) : Nat :=
  bs.foldl (fun acc b => acc * 256 + b) 0

/-- `u64::from_le_bytes` / little-endian accumulation of a byte list. -/
def leNat (bs : List Nat) : Nat :=
  bs.foldr (fun b acc => b + 256 * acc) 0

/-- `i64::from_le_bytes`: two's-complement interpretation of 8 LE bytes. -/
def leI64 (bs : List Nat) : Int :=
  let n := leNat bs
  if n < 2 ^ 63 then (n : Int) else (n : Int) - 2 ^ 64

/-! ## Base58 (the external `bs58::encode` primitive) -/

/-- The Bitcoin base58 alphabet used by `bs58`. -/
def base58Alphabet : List Char :=
  "123456789ABCDEFGHJKLMNPQRSTUVWXYZabcdefghijkmnopqrstuvwxyz".toList

/-- One base58 digit. -/
def base58Char (d : Nat) : Char := base58Alphabet.getD d '1'

/-- Base-58 digit expansion (most significant first); fuel-based so the
kernel can evaluate it. -/
def base58DigitsAux : Nat → Nat → List Nat → List Nat
  | 0, _, acc => acc
  | _ + 1, 0, acc => acc
  | fuel + 1, n, acc => base58DigitsAux fuel (n / 58) (n % 58 :: acc)

/-- `bs58::encode(bs).into_string()`: leading zero bytes become `'1'`s,
the rest is the base-58 expansion of the big-endian value. -/
def bs58Encode (bs : List Nat) : String :=
  let zeros := (bs.takeWhile (· = 0)).length
  let digits := base58DigitsAux (2 * bs.length) (bytesToNat bs) []
  String.mk (List.replicate zeros '1' ++ digits.map base58Char)

/-! ## Decimal-string parsing (Rust `str::parse` + `unwrap_or(0)`) -/

/-- Digits of a decimal string interpreted as a number, `none` when some
character is not a digit. -/
def decDigits? (cs : List Char) : Option Nat :=
  cs.foldl
    (fun acc c =>
      match acc with
      | none => none
      | some n => if c.isDigit then some (n * 10 + (c.toNat - '0'.toNat)) else none)
    (some 0)

/-- Rust `s.parse::<uN>()`: optional leading `'+'`, at least one digit, all
digits, value below the width bound. -/
def parseUInt? (width : Nat) (s : String) : Option Nat :=
  let cs := s.toList
  let cs := match cs with
    | '+' :: rest => rest
    | _ => cs
  if cs.isEmpty then none
  else match decDigits? cs with
    | none => none
    | some n => if n < 2 ^ width then some n else none

/-- `s.parse::<u128>().unwrap_or(0)`. -/
def parseU128OrZero (s : String) : Nat := (parseUInt? 128 s).getD 0

/-- `s.parse::<u32>().ok().unwrap_or(0)` (idx segment parsing). -/
def parseU32OrZero (s : String) : Nat := (parseUInt? 32 s).getD 0

/-! ## Exact rationals in normal form (the model of `f64` amounts) -/

/-- An exact rational in lowest terms with positive denominator; the
embedding's model of `f64` user-interface amounts. -/
structure UiAmt where
  num : Int
  den : Nat
deriving DecidableEq, Repr

instance : OfNat UiAmt 0 := ⟨⟨0, 1⟩⟩

/-- Normalize a fraction to lowest terms. -/
def UiAmt.norm (n : Int) (d : Nat) : UiAmt :=
  let g := Nat.gcd n.natAbs d
  if g = 0 then ⟨0, 1⟩ else ⟨n / (g : Int), d / g⟩

def UiAmt.ofNat (n : Nat) : UiAmt := ⟨(n : Int), 1⟩

/-- `a / 10 ^ d` as an exact rational. -/
def UiAmt.divPow10 (a : Nat) (d : Nat) : UiAmt := UiAmt.norm (a : Int) (10 ^ d)

/-- Exact rational subtraction (the `f64` subtractions of the balance
reports). -/
def UiAmt.sub (x y : UiAmt) : UiAmt :=
  UiAmt.norm (x.num * (y.den : Int) - y.num * (x.den : Int))
    (x.den * y.den)

end SolTx

namespace SolTx

/-! ## Constants (src/constants.rs) -/

def TOKEN_PROGRAM_ID : String := "TokenkegQfeZyiNwAJbNbGKPFXCWuBvf9Ss623VQ5DA"

def TOKEN_2022_PROGRAM_ID : String := "TokenzQdBNbLqP5VEhdkAS6EPFLC1PHnBqCXEpPxuEb"

def ASSOCIATED_TOKEN_PROGRAM_ID : String := "ATokenGPvbdGVxr1b2hvZbsiqW5xWH25efTNsLJA8knL"

namespace tokens

def NATIVE : String := "11111111111111111111111111111111"

def SOL : String := "So11111111111111111111111111111111111111112"

def USDC : String := "EPjFWdd5AufqSSqeM2qN1xzybapC8G4wEGGkZwyTDt1v"

def USDT : String := "Es9vMFrzaCERmJfrF4H2FYD4KCoNkY11McCe8BenwNYB"

def USD1 : String := "USD1ttGY1N17NEEHLmELoaybftRBUSErhqYiQzvEmuB"

def USDG : String := "2u1tszSeqZ3qBWF3uNGPFc8TzMk2tdiwknnRMWGWjGWH"

def PYUSD : String := "2b1kV6DkPAnxd5ixfnxCpjxmKwqjjaYmCZfHsFu24GXo"

def EURC : String := "HzwqbKZw8HxMN6bF2yFZNrht3c2iXXzpKcFu7uBEDKtr"

def USDY : String := "A1KLoBrKBde8Ty9qtNQUtq3C2ortoC3u7twggz7sEto6"

def FDUSD : String := "9zNQRsGLjNKwCUU5Gq5LR8beUCPzQMVMqKAi3SSZh54u"

end tokens

/-- DEX program registry entry (`DexProgram`). -/
structure DexProgram where
  id : String
  name : String
deriving DecidableEq, Repr

namespace dex_programs

def JUPITER : DexProgram := ⟨"JUP6LkbZbjS1jKKwapdHNy74zcZ3tLUZoi5QNyVTaV4", "Jupiter"⟩

def JUPITER_DCA : DexProgram := ⟨"DCA265Vj8a9CEuX1eb1LWRnDT7uK6q1xMipnNyatn23M", "JupiterDCA"⟩

def JUPITER_VA : DexProgram := ⟨"VALaaymxQh2mNy2trH9jUqHT1mTow76wpTcGmSWSwJe", "JupiterVA"⟩

def JUPITER_LIMIT_ORDER_V2 : DexProgram := ⟨"j1o2qRpjcyUwEvwtcfhEQefh773ZgjxcVRry7LDqg5X", "JupiterLimitV2"⟩

def RAYDIUM_ROUTE : DexProgram := ⟨"routeUGWgWzqBWFcrCfv8tritsqukccJPu3q5GPP3xS", "RaydiumRoute"⟩

def RAYDIUM_V4 : DexProgram := ⟨"675kPX9MHTjS2zt1qfr1NYHuzeLXfQM9H24wFSUt1Mp8", "RaydiumV4"⟩

def RAYDIUM_AMM : DexProgram := ⟨"5quBtoiQqxF9Jv6KYKctB59NT3gtJD2Y65kdnB1Uev3h", "RaydiumAMM"⟩

def RAYDIUM_CPMM : DexProgram := ⟨"CPMMoo8L3F4NbTegBCKVNunggL7H1ZpdTHKxQB5qKP1C", "RaydiumCPMM"⟩

def RAYDIUM_CL : DexProgram := ⟨"CAMMCzo5YL8w4VFF8KVHrK22GGUsp5VTaW7grrKgrWqK", "RaydiumCL"⟩

def RAYDIUM_LCP : DexProgram := ⟨"LanMV9sAd7wArD4vJFi2qDdfnVhFxYSUg6eADduJ3uj", "RaydiumLaunchpad"⟩

def ORCA : DexProgram := ⟨"whirLbMiicVdio4qvUfM5KAg6Ct8VwpYzGff3uctyCc", "Orca"⟩

def METEORA : DexProgram := ⟨"LBUZKhRxPF3XUpBCjp4YzTKgLccjZhTSDM9YuVaPwxo", "MeteoraDLMM"⟩

def METEORA_DAMM : DexProgram := ⟨"Eo7WjKq67rjJQSZxS6z3YkapzY3eMj6Xy8X5EQVn5UaB", "MeteoraDamm"⟩

def METEORA_DAMM_V2 : DexProgram := ⟨"cpamdpZCGKUy5JxQXB4dcpGPiikHawvSWAd6mEn1sGG", "MeteoraDammV2"⟩

def METEORA_DBC : DexProgram := ⟨"dbcij3LWUppWqq96dh6gJWwBifmcGfLSB5D4DuSMaqN", "MeteoraDBC"⟩

def PUMP_FUN : DexProgram := ⟨"6EF8rrecthR5Dkzon8Nwu78hRvfCKubJ14M5uBEwF6P", "Pumpfun"⟩

def PUMP_SWAP : DexProgram := ⟨"pAMMBay6oceH9fJKBRHGP5D4bD4sWpmSwMn52FMfXEA", "Pumpswap"⟩

def MOONIT : DexProgram := ⟨"MoonCVVNZFSYkqNXP6bxHLPL6QQJiMagDL3qcqUQTrG", "Moonit"⟩

def BOOP_FUN : DexProgram := ⟨"boop8hVGQGqehUK2iVEMEnMrL5RbjywRzHKBmBE7ry4", "Boopfun"⟩

def SUGAR : DexProgram := ⟨"deus4Bvftd5QKcEkE5muQaWGWDoma8GrySvPFrBPjhS", "Sugar"⟩

def HEAVEN : DexProgram := ⟨"HEAVENoP2qxoeuF8Dj2oT1GHEnu49U5mJYkdeC8BAX2o", "Heaven"⟩

end dex_programs

/-- `get_program_name`: display name of a registered DEX program, else
"Unknown". -/
def get_program_name (program_id : String) : String :=
  let all : List DexProgram :=
    [dex_programs.JUPITER, dex_programs.JUPITER_DCA, dex_programs.JUPITER_VA,
     dex_programs.JUPITER_LIMIT_ORDER_V2, dex_programs.RAYDIUM_ROUTE,
     dex_programs.RAYDIUM_V4, dex_programs.RAYDIUM_AMM, dex_programs.RAYDIUM_CPMM,
     dex_programs.RAYDIUM_CL, dex_programs.RAYDIUM_LCP, dex_programs.ORCA,
     dex_programs.METEORA, dex_programs.METEORA_DAMM, dex_programs.METEORA_DAMM_V2,
     dex_programs.METEORA_DBC, dex_programs.PUMP_FUN, dex_programs.PUMP_SWAP,
     dex_programs.MOONIT, dex_programs.BOOP_FUN, dex_programs.SUGAR,
     dex_programs.HEAVEN]
  match all.find? (fun p => p.id = program_id) with
  | some p => p.name
  | none => "Unknown"

def SYSTEM_PROGRAMS : List String :=
  ["ComputeBudget111111111111111111111111111111",
   "11111111111111111111111111111111",
   TOKEN_PROGRAM_ID,
   TOKEN_2022_PROGRAM_ID,
   ASSOCIATED_TOKEN_PROGRAM_ID,
   "srmqPvymJeFKQ4zGQed1GFppgkRHL9kaELCbyksJtPX"]

def SKIP_PROGRAM_IDS : List String :=
  ["pfeeUxB6jkeY1Hxd7CsFCAjcbHA9rWtchMGdZ6VojVZ"]

def FEE_ACCOUNTS : List String :=
  ["96gYZGLnJYVFmbjzopPSU6QiEV5fGqZNyN9nmNhvrZU5",
   "HFqU5x63VTqvQss8hp11i4wVV8bD44PvwucfZ2bU7gRe",
   "Cw8CFyM9FkoMi7K7Crf6HNQqf4uEMzpKw6QNghXLvLkY",
   "ADaUMid9yfUytqMBgopwjb2DTLSokTSzL1zt6iGPaS49",
   "DfXygSm4jCyNCybVYYK6DwvWqjKee8pbDmJGcLWNDXjh",
   "ADuUkR4vqLUMWXxW9gh6D6L8pMSawimctcNZ5pGwDcEt",
   "DttWaMuVvTiduZRnguLF7jNxTgiMBZ1hyAumKUiL2KRL",
   "3AVi9Tg9Uo68tJfuvoKvqKNWKkC5wPdSSdeBnizKZ6jT",
   "45ruCyfdRkWpRNGEqWzjCiXRHkZs8WXCLQ67Pnpye7Hp",
   "39azUYFWPz3VHgKCf3VChUwbpURdCHRxjWVowf5jUJjg",
   "FWsW1xNtWscwNmKv6wVsU1iTzRN6wmmk3MjxRP5tT7hz",
   "G5UZAVbAf46s7cKWoyKu8kYTip9DGTpbLZ2qa9Aq69dP",
   "7hTckgnGnLQR6sdH7YkqFTAA7VwTfYFaZ6EhEsU3saCX",
   "9rPYyANsfQZw3DnDmKE3YCQF5E8oD89UXoHn9JFEhJUz",
   "7VtfL8fvgNfhz17qKRMjzQEXgbdpnHHHQRh54R9jP2RJ",
   "AVmoTthdrX6tKt4nDjco2D775W2YK3sDhxPcMmzUAmTY",
   "62qc2CNXwrYqQScmEdiZFFAnJR262PxWEuNQtxfafNgV",
   "JCRGumoE9Qi5BBgULTgdgTLjSgkCMSbF62ZZfGs84JeU",
   "CebN5WGQ4jvEPvsVU4EoHEpgzq1VV7AbicfhtW4xC9iM",
   "AVUCZyuT35YSuj4RH7fwiyPu82Djn2Hfg7y2ND2XcnZH",
   "BUX7s2ef2htTGb2KKoPHWkmzxPj4nTWMWRgs5CSbQxf9",
   "CdQTNULjDiTsvyR5UKjYBMqWvYpxXj6HY4m6atm2hErk"]

namespace spl_token_instruction

def TRANSFER : Nat := 3

def MINT_TO : Nat := 7

def BURN : Nat := 8

def TRANSFER_CHECKED : Nat := 12

def MINT_TO_CHECKED : Nat := 14

def BURN_CHECKED : Nat := 15

end spl_token_instruction

namespace discriminators

def JUPITER_ROUTE_EVENT : List Nat :=
  [228, 69, 165, 46, 81, 203, 154, 29, 64, 198, 205, 232, 38, 8, 113, 226]

def RAYDIUM_CPMM_CREATE : List Nat := [175, 175, 109, 31, 13, 152, 155, 237]

def RAYDIUM_CPMM_ADD_LIQUIDITY : List Nat := [242, 35, 198, 137, 82, 225, 242, 182]

def RAYDIUM_CPMM_REMOVE_LIQUIDITY : List Nat := [183, 18, 70, 156, 148, 109, 161, 34]

def METEORA_DLMM_ADD_LIQUIDITY : List Nat := [181, 157, 89, 67, 143, 182, 52, 72]

def METEORA_DLMM_REMOVE_LIQUIDITY : List Nat := [80, 85, 209, 72, 24, 206, 177, 108]

def ORCA_CREATE : List Nat := [242, 29, 134, 48, 58, 110, 14, 60]

def ORCA_CREATE2 : List Nat := [212, 47, 95, 92, 114, 102, 131, 250]

def ORCA_INCREASE_LIQUIDITY : List Nat := [46, 156, 243, 118, 13, 205, 251, 178]

def ORCA_INCREASE_LIQUIDITY2 : List Nat := [133, 29, 89, 223, 69, 238, 176, 10]

def ORCA_DECREASE_LIQUIDITY : List Nat := [160, 38, 208, 111, 104, 91, 44, 1]

def RAYDIUM_CREATE : Nat := 1

def RAYDIUM_ADD_LIQUIDITY : Nat := 3

def RAYDIUM_REMOVE_LIQUIDITY : Nat := 4

def METEORA_DAMM_CREATE : List Nat := [7, 166, 138, 171, 206, 171, 236, 244]

def METEORA_DAMM_ADD : List Nat := [168, 227, 50, 62, 189, 171, 84, 176]

def METEORA_DAMM_REMOVE : List Nat := [133, 109, 44, 179, 56, 238, 114, 33]

def METEORA_DAMM_V2_INIT : List Nat := [95, 180, 10, 172, 84, 174, 232, 40]

def METEORA_DAMM_V2_ADD : List Nat := [181, 157, 89, 67, 143, 182, 52, 72]

def METEORA_DAMM_V2_REMOVE : List Nat := [80, 85, 209, 72, 24, 206, 177, 108]

def PUMPFUN_TRADE_EVENT : List Nat :=
  [228, 69, 165, 46, 81, 203, 154, 29, 189, 219, 127, 211, 78, 230, 97, 238]

def PUMPSWAP_BUY_EVENT : List Nat :=
  [228, 69, 165, 46, 81, 203, 154, 29, 103, 244, 82, 31, 44, 245, 119, 119]

def PUMPSWAP_SELL_EVENT : List Nat :=
  [228, 69, 165, 46, 81, 203, 154, 29, 62, 47, 55, 10, 165, 3, 220, 42]

end discriminators

end SolTx

namespace SolTx

/-! ## Data model (src/types.rs)

`f64` fields are modelled as `ℚ`; `serde_json::Value` fields that the core
never constructs (`ParsedInstruction.parsed`, always `None`) are dropped;
the always-empty `liquidities`/`transfers`/`meme_events` output lists
(their element types are never produced by the embedded core) are dropped
from `ParseResult`. -/

structure TokenAmount where
  amount : String
  ui_amount : Option UiAmt
  decimals : Nat
deriving DecidableEq, Repr

structure TokenInfo where
  mint : String
  amount : UiAmt
  amount_raw : String
  decimals : Nat
  authority : Option String
  destination : Option String
  destination_owner : Option String
  source : Option String
deriving DecidableEq, Repr

structure BalanceChange where
  pre : TokenAmount
  post : TokenAmount
  change : TokenAmount
deriving DecidableEq, Repr

inductive TransactionStatus where
  | Unknown
  | Success
  | Failed
deriving DecidableEq, Repr

inductive TradeType where
  | Buy
  | Sell
  | Swap
  | Create
  | Migrate
  | Complete
  | Add
  | Remove
  | Lock
  | Burn
deriving DecidableEq, Repr

structure TransferInfoInner where
  authority : Option String
  destination : String
  destination_owner : Option String
  mint : String
  source : String
  token_amount : TokenAmount
  source_balance : Option TokenAmount
  source_pre_balance : Option TokenAmount
  destination_balance : Option TokenAmount
  destination_pre_balance : Option TokenAmount
deriving DecidableEq, Repr

structure TransferData where
  transfer_type : String
  program_id : String
  info : TransferInfoInner
  idx : String
  timestamp : Int
  signature : String
  is_fee : Option Bool
deriving DecidableEq, Repr

structure FeeInfo where
  mint : String
  amount : UiAmt
  amount_raw : String
  decimals : Nat
  dex : Option String
  type_ : Option String
  recipient : Option String
deriving DecidableEq, Repr

structure TradeInfo where
  user : String
  trade_type : TradeType
  pool : List String
  input_token : TokenInfo
  output_token : TokenInfo
  slippage_bps : Option Nat
  fee : Option FeeInfo
  fees : Option (List FeeInfo)
  program_id : Option String
  amm : Option String
  amms : Option (List String)
  route : Option String
  slot : Nat
  timestamp : Int
  signature : String
  idx : String
  signer : Option (List String)
deriving DecidableEq, Repr

structure ParsedInstruction where
  program_id : String
  accounts : List String
  data : List Nat
deriving DecidableEq, Repr

structure ClassifiedInstruction where
  instruction : ParsedInstruction
  program_id : String
  outer_index : Nat
  inner_index : Option Nat
deriving DecidableEq, Repr

structure DexInfo where
  program_id : Option String := none
  amm : Option String := none
  route : Option String := none
deriving DecidableEq, Repr

structure ParseResult where
  state : Bool
  fee : TokenAmount
  aggregate_trade : Option TradeInfo
  trades : List TradeInfo
  slot : Nat
  timestamp : Int
  signature : String
  signer : List String
  compute_units : Nat
  tx_status : TransactionStatus
  msg : Option String
  sol_balance_change : Option BalanceChange
  token_balance_change : Option (List (String × BalanceChange))
deriving DecidableEq, Repr

structure ParseConfig where
  try_unknown_dex : Bool := false
  program_ids : Option (List String) := none
  ignore_program_ids : Option (List String) := none
  throw_error : Bool := false
  aggregate_trades : Bool := false
deriving DecidableEq, Repr

structure RawInstruction where
  program_id_index : Nat
  data : List Nat
  account_key_indexes : List Nat
deriving DecidableEq, Repr

structure InnerInstructionSet where
  index : Nat
  instructions : List RawInstruction
deriving DecidableEq, Repr

structure UiTokenAmountInput where
  amount : String
  decimals : Nat
  ui_amount : Option UiAmt
  ui_amount_string : Option String
deriving DecidableEq, Repr

structure TokenBalanceInput where
  account_index : Nat
  mint : Option String
  owner : Option String
  ui_token_amount : UiTokenAmountInput
deriving DecidableEq, Repr

structure LoadedAddressesInput where
  writable : List String
  readonly : List String
deriving DecidableEq, Repr

/-- `meta.err` is only ever tested for presence; its JSON payload is
modelled as `Unit`. -/
structure TransactionMetaInput where
  err : Option Unit := none
  fee : Option Nat := none
  pre_balances : Option (List Nat) := none
  post_balances : Option (List Nat) := none
  pre_token_balances : Option (List TokenBalanceInput) := none
  post_token_balances : Option (List TokenBalanceInput) := none
  loaded_addresses : Option LoadedAddressesInput := none
  compute_units_consumed : Option Nat := none
deriving DecidableEq, Repr

structure SolanaTransactionInput where
  slot : Nat
  block_time : Option Int := none
  signatures : List (List Nat) := []
  account_keys : List String
  instructions : List RawInstruction
  inner_instructions : Option (List InnerInstructionSet) := none
  meta : Option TransactionMetaInput := none
deriving DecidableEq, Repr

/-! ## Utility functions (src/utils.rs) -/

/-- `convert_to_ui_amount` (`f64` modelled as an exact rational). -/
def convert_to_ui_amount (amount : Nat) (decimals : Nat) : UiAmt :=
  if decimals = 0 then UiAmt.ofNat amount else UiAmt.divPow10 amount decimals

/-- `convert_to_ui_amount_u128`. -/
def convert_to_ui_amount_u128 (amount : Nat) (decimals : Nat) : UiAmt :=
  if decimals = 0 then UiAmt.ofNat amount else UiAmt.divPow10 amount decimals

/-- `is_known_stable`. -/
def is_known_stable (mint : String) : Bool :=
  mint = tokens.USDC || mint = tokens.USDT || mint = tokens.USD1 ||
  mint = tokens.USDG || mint = tokens.PYUSD || mint = tokens.EURC ||
  mint = tokens.USDY || mint = tokens.FDUSD

/-- `get_trade_type` (§4.8 trade-type rule). -/
def get_trade_type (in_mint out_mint : String) : TradeType :=
  if in_mint = tokens.SOL then TradeType.Buy
  else if out_mint = tokens.SOL then TradeType.Sell
  else if is_known_stable in_mint then TradeType.Buy
  else TradeType.Sell

/-- `get_transfer_token_mint`: pick the transfer's mint from the
destination's and source's recorded mints (non-wrapped-SOL preferred). -/
def get_transfer_token_mint (token1 token2 : Option String) : Option String :=
  match token1, token2 with
  | some a, some b =>
      if a = b then some a
      else if a ≠ tokens.SOL then some a
      else if b ≠ tokens.SOL then some b
      else some a
  | some a, none => if a ≠ tokens.SOL then some a else some a
  | none, some b => if b ≠ tokens.SOL then some b else some b
  | none, none => none

/-- `split('-')` over the characters (Rust `str::split` on a single
character; also the behaviour of `String.splitOn "-"`), written as a
structural recursion so the kernel can evaluate it. -/
def splitOnDash (cs : List Char) : List (List Char) :=
  match cs with
  | [] => [[]]
  | c :: rest =>
      let r := splitOnDash rest
      if c = '-' then [] :: r
      else
        match r with
        | [] => [[c]]
        | seg :: segs => (c :: seg) :: segs

/-- The comparison key of `sort_by_idx`: numeric `main` and `sub` parts of
`"main[-sub]"` (u32 parse, defaulting to 0). -/
def idxKey (idx : String) : Nat × Nat :=
  let parts := (splitOnDash idx.data).map (fun cs => String.mk cs)
  (parseU32OrZero (parts.getD 0 ""), parseU32OrZero (parts.getD 1 ""))

/-- Strict comparison used by the stable sort on idx keys. -/
def idxLt (a b : String) : Bool :=
  let ka := idxKey a
  let kb := idxKey b
  ka.1 < kb.1 || (ka.1 = kb.1 && ka.2 < kb.2)

/-- Insertion used to model Rust's stable `sort_by`: the element is
placed *before* the first element of the sorted tail that is not
strictly less than it.  In `stableSort` the inserted element is the list
head, which precedes every tail element in the input, so placing it
before all equal-keyed elements keeps tied elements in input order. -/
def stableInsert {α : Type} (lt : α → α → Bool) (x : α) :
    List α → List α
  | [] => [x]
  | y :: ys => if lt y x then y :: stableInsert lt x ys else x :: y :: ys

/-- Stable sort (insertion sort, head inserted into the sorted tail):
sortedness (`stableSort_pairwise`) plus stability on tied keys
(`stableSort_stable`) pin down the same output as Rust's stable
`sort_by`. -/
def stableSort {α : Type} (lt : α → α → Bool) : List α → List α
  | [] => []
  | x :: xs => stableInsert lt x (stableSort lt xs)

/-- `sort_by_idx`: stable sort of `(item, idx)` pairs by numeric idx key,
returning the items. -/
def sort_by_idx {α : Type} (items : List (α × String)) : List α :=
  if items.length ≤ 1 then items.map Prod.fst
  else (stableSort (fun a b => idxLt a.2 b.2) items).map Prod.fst

/-- `get_final_swap` (aggregation of a multi-hop route, §4.7).  u128
accumulation is modelled with an explicit `% 2 ^ 128`. -/
def get_final_swap (trades : List TradeInfo) (dex_amm dex_route : Option String) :
    Option TradeInfo :=
  match trades with
  | [] => none
  | t0 :: rest =>
    if rest.isEmpty then some t0
    else
      let sorted := sort_by_idx ((t0 :: rest).map (fun t => (t, t.idx)))
      match sorted.head?, sorted.getLast? with
      | some input_trade, some output_trade =>
        let pools := sorted.foldl
          (fun acc t =>
            match t.pool.head? with
            | some p => if acc.contains p then acc else acc ++ [p]
            | none => acc) []
        let input_amount := sorted.foldl
          (fun acc t =>
            if t.input_token.mint = input_trade.input_token.mint then
              (acc + parseU128OrZero t.input_token.amount_raw) % 2 ^ 128
            else acc) 0
        let output_amount := sorted.foldl
          (fun acc t =>
            if t.output_token.mint = output_trade.output_token.mint then
              (acc + parseU128OrZero t.output_token.amount_raw) % 2 ^ 128
            else acc) 0
        some
          { user := input_trade.user
            trade_type := get_trade_type input_trade.input_token.mint
              output_trade.output_token.mint
            pool := pools
            input_token :=
              { mint := input_trade.input_token.mint
                amount := convert_to_ui_amount_u128 input_amount
                  input_trade.input_token.decimals
                amount_raw := toString input_amount
                decimals := input_trade.input_token.decimals
                authority := input_trade.input_token.authority
                destination := input_trade.input_token.destination
                destination_owner := input_trade.input_token.destination_owner
                source := input_trade.input_token.source }
            output_token :=
              { mint := output_trade.output_token.mint
                amount := convert_to_ui_amount_u128 output_amount
                  output_trade.output_token.decimals
                amount_raw := toString output_amount
                decimals := output_trade.output_token.decimals
                authority := output_trade.output_token.authority
                destination := output_trade.output_token.destination
                destination_owner := output_trade.output_token.destination_owner
                source := output_trade.output_token.source }
            slippage_bps := input_trade.slippage_bps
            fee := input_trade.fee
            fees := input_trade.fees
            program_id := input_trade.program_id
            amm := dex_amm.orElse (fun _ => input_trade.amm)
            amms := input_trade.amms
            route := dex_route.orElse (fun _ => input_trade.route)
            slot := input_trade.slot
            timestamp := input_trade.timestamp
            signature := input_trade.signature
            idx := input_trade.idx
            signer := input_trade.signer }
      | _, _ => none

end SolTx

namespace SolTx

/-! ## Binary reader (src/binary_reader.rs)

The Rust reader mutates a cursor; here every operation returns the result
together with the reader state after the call, so "the cursor is left
unchanged on failure" is directly statable. -/

inductive BinaryReaderError where
  | Overflow (requested : Nat) (offset : Nat) (length : Nat)
deriving DecidableEq, Repr

structure BinaryReader where
  data : List Nat
  offset : Nat
deriving DecidableEq, Repr

namespace BinaryReader

/-- `BinaryReader::new`. -/
def new (data : List Nat) : BinaryReader := ⟨data, 0⟩

/-- `check_bounds`. -/
def check_bounds (r : BinaryReader) (length : Nat) :
    Except BinaryReaderError Unit :=
  if r.offset + length > r.data.length then
    Except.error (BinaryReaderError.Overflow length r.offset r.data.length)
  else Except.ok ()

/-- `read_fixed_array`. -/
def read_fixed_array (r : BinaryReader) (length : Nat) :
    Except BinaryReaderError (List Nat) × BinaryReader :=
  match r.check_bounds length with
  | Except.error e => (Except.error e, r)
  | Except.ok _ =>
      (Except.ok ((r.data.drop r.offset).take length),
       { r with offset := r.offset + length })

/-- `read_u8`. -/
def read_u8 (r : BinaryReader) :
    Except BinaryReaderError Nat × BinaryReader :=
  match r.check_bounds 1 with
  | Except.error e => (Except.error e, r)
  | Except.ok _ =>
      (Except.ok (r.data.getD r.offset 0), { r with offset := r.offset + 1 })

/-- `read_u16_le`. -/
def read_u16_le (r : BinaryReader) :
    Except BinaryReaderError Nat × BinaryReader :=
  match r.check_bounds 2 with
  | Except.error e => (Except.error e, r)
  | Except.ok _ =>
      (Except.ok (leNat ((r.data.drop r.offset).take 2)),
       { r with offset := r.offset + 2 })

/-- `read_u32_le`. -/
def read_u32_le (r : BinaryReader) :
    Except BinaryReaderError Nat × BinaryReader :=
  match r.check_bounds 4 with
  | Except.error e => (Except.error e, r)
  | Except.ok _ =>
      (Except.ok (leNat ((r.data.drop r.offset).take 4)),
       { r with offset := r.offset + 4 })

/-- `read_u64_le`. -/
def read_u64_le (r : BinaryReader) :
    Except BinaryReaderError Nat × BinaryReader :=
  match r.check_bounds 8 with
  | Except.error e => (Except.error e, r)
  | Except.ok _ =>
      (Except.ok (leNat ((r.data.drop r.offset).take 8)),
       { r with offset := r.offset + 8 })

/-- `read_i64_le`. -/
def read_i64_le (r : BinaryReader) :
    Except BinaryReaderError Int × BinaryReader :=
  match r.check_bounds 8 with
  | Except.error e => (Except.error e, r)
  | Except.ok _ =>
      (Except.ok (leI64 ((r.data.drop r.offset).take 8)),
       { r with offset := r.offset + 8 })

/-- `String::from_utf8_lossy`: ASCII bytes decode to themselves, anything
else to the replacement character.  (The claims never inspect the decoded
text, only the error/cursor behaviour; multi-byte UTF-8 sequences are
collapsed byte-per-byte here.) -/
def utf8Lossy (bs : List Nat) : String :=
  String.mk (bs.map (fun b => if b < 128 then Char.ofNat b else '�'))

/-- `read_string_u32_len`: reads the `u32` length prefix (advancing the
cursor), then the body. -/
def read_string_u32_len (r : BinaryReader) :
    Except BinaryReaderError String × BinaryReader :=
  match r.read_u32_le with
  | (Except.error e, r') => (Except.error e, r')
  | (Except.ok len, r') =>
      match r'.check_bounds len with
      | Except.error e => (Except.error e, r')
      | Except.ok _ =>
          (Except.ok (utf8Lossy ((r'.data.drop r'.offset).take len)),
           { r' with offset := r'.offset + len })

/-- `read_pubkey`: 32 bytes, base58-encoded. -/
def read_pubkey (r : BinaryReader) :
    Except BinaryReaderError String × BinaryReader :=
  match r.read_fixed_array 32 with
  | (Except.error e, r') => (Except.error e, r')
  | (Except.ok slice, r') => (Except.ok (bs58Encode slice), r')

/-- `remaining` (saturating subtraction, as in the source). -/
def remaining (r : BinaryReader) : Nat := r.data.length - r.offset

end BinaryReader

/-! Option-flavoured readers (the decoders use `.ok()?`). -/

/-- `r.read_u64_le().ok()?`. -/
def rdU64 (r : BinaryReader) : Option (Nat × BinaryReader) :=
  match r.read_u64_le with
  | (Except.ok v, r') => some (v, r')
  | (Except.error _, _) => none

/-- `r.read_i64_le().ok()?`. -/
def rdI64 (r : BinaryReader) : Option (Int × BinaryReader) :=
  match r.read_i64_le with
  | (Except.ok v, r') => some (v, r')
  | (Except.error _, _) => none

/-- `r.read_u8().ok()?`. -/
def rdU8 (r : BinaryReader) : Option (Nat × BinaryReader) :=
  match r.read_u8 with
  | (Except.ok v, r') => some (v, r')
  | (Except.error _, _) => none

/-- `r.read_u16_le().ok()?`. -/
def rdU16 (r : BinaryReader) : Option (Nat × BinaryReader) :=
  match r.read_u16_le with
  | (Except.ok v, r') => some (v, r')
  | (Except.error _, _) => none

/-- `r.read_fixed_array(n).ok()?`. -/
def rdFixed (r : BinaryReader) (n : Nat) : Option (List Nat × BinaryReader) :=
  match r.read_fixed_array n with
  | (Except.ok v, r') => some (v, r')
  | (Except.error _, _) => none

/-- `r.read_pubkey().ok()?`. -/
def rdPubkey (r : BinaryReader) : Option (String × BinaryReader) :=
  match r.read_pubkey with
  | (Except.ok v, r') => some (v, r')
  | (Except.error _, _) => none

end SolTx

namespace SolTx

/-! ## Transaction adapter (src/transaction_adapter.rs) -/

/-- Wrap of a signed 128-bit subtraction (`u128 as i128 - u128 as i128`). -/
def i128wrap (z : Int) : Int := (z + 2 ^ 127) % 2 ^ 128 - 2 ^ 127

/-- Wrap of a signed 64-bit value (`u64 as i64` reinterpretation and the
release-mode wrapping subtraction). -/
def i64wrap (z : Int) : Int := (z + 2 ^ 63) % 2 ^ 64 - 2 ^ 63

structure TransactionAdapter where
  tx : SolanaTransactionInput
  config : Option ParseConfig
  account_keys : List String
  spl_token_map : List (String × TokenInfo)
  spl_decimals_map : List (String × Nat)
deriving DecidableEq, Repr

namespace TransactionAdapter

/-- `extract_account_keys`: static keys then loaded writable/readonly. -/
def extract_account_keys (tx : SolanaTransactionInput) : List String :=
  tx.account_keys ++
    (match tx.meta with
     | some meta =>
         match meta.loaded_addresses with
         | some loaded => loaded.writable ++ loaded.readonly
         | none => []
     | none => [])

/-- Both token maps, threaded through the extraction folds. -/
abbrev TokenMaps := List (String × TokenInfo) × List (String × Nat)

/-- `extract_token_balances` step for one post-token-balance entry. -/
def tokenBalanceStep (keys : List String) (st : TokenMaps)
    (balance : TokenBalanceInput) : TokenMaps :=
  match balance.mint with
  | none => st
  | some mint =>
      let account_key := (keys.get? balance.account_index).getD ""
      let tokenMap :=
        if containsM st.1 account_key then st.1
        else
          insertM st.1 account_key
            { mint := mint
              amount := balance.ui_token_amount.ui_amount.getD 0
              amount_raw := balance.ui_token_amount.amount
              decimals := balance.ui_token_amount.decimals
              authority := none
              destination := none
              destination_owner := balance.owner
              source := none }
      (tokenMap, insertM st.2 mint balance.ui_token_amount.decimals)

/-- `extract_from_compiled_transfer` for one raw instruction. -/
def compiledTransferStep (keys : List String) (st : TokenMaps)
    (ix : RawInstruction) : TokenMaps :=
  match ix.data with
  | [] => st
  | d0 :: _ =>
    let program_id := (keys.get? ix.program_id_index).getD ""
    if program_id ≠ TOKEN_PROGRAM_ID ∧ program_id ≠ TOKEN_2022_PROGRAM_ID then st
    else
      let accounts := ix.account_key_indexes.filterMap (fun i => keys.get? i)
      let parsed : Option (Option String × Option String × Option String × Option Nat) :=
        if d0 = spl_token_instruction.TRANSFER then
          if accounts.length < 2 then none
          else
            let source := accounts.getD 0 ""
            let dest := accounts.getD 1 ""
            let token1 := (lookupM st.1 dest).map TokenInfo.mint
            let token2 := (lookupM st.1 source).map TokenInfo.mint
            some (some source, some dest, get_transfer_token_mint token1 token2, none)
        else if d0 = spl_token_instruction.TRANSFER_CHECKED then
          if accounts.length < 3 then none
          else
            let dec := if ix.data.length ≥ 10 then some (ix.data.getD 9 0) else none
            some (some (accounts.getD 0 ""), some (accounts.getD 2 ""),
              some (accounts.getD 1 ""), dec)
        else if d0 = spl_token_instruction.MINT_TO ∨
            d0 = spl_token_instruction.MINT_TO_CHECKED then
          if accounts.length < 2 then none
          else
            let dec := if ix.data.length ≥ 10 then some (ix.data.getD 9 0) else none
            some (none, some (accounts.getD 1 ""), some (accounts.getD 0 ""), dec)
        else if d0 = spl_token_instruction.BURN ∨
            d0 = spl_token_instruction.BURN_CHECKED then
          if accounts.length < 2 then none
          else
            let dec := if ix.data.length ≥ 10 then some (ix.data.getD 9 0) else none
            some (some (accounts.getD 0 ""), none, some (accounts.getD 1 ""), dec)
        else none
      match parsed with
      | none => st
      | some (source, destination, mint, decimals) =>
        let decMap :=
          match mint, decimals with
          | some m, some d => insertM st.2 m d
          | _, _ => st.2
        let tokenMap :=
          ([source, destination].filterMap id).foldl
            (fun tm acc =>
              if containsM tm acc then tm
              else
                insertM tm acc
                  { mint := mint.getD tokens.SOL
                    amount := 0
                    amount_raw := "0"
                    decimals := decimals.getD 9
                    authority := none
                    destination := none
                    destination_owner := none
                    source := none })
            st.1
        (tokenMap, decMap)

/-- `extract_token_info`: balances first, then instruction scan, then the
wrapped-SOL placeholder. -/
def extract_token_info (tx : SolanaTransactionInput) (keys : List String) :
    TokenMaps :=
  let post :=
    match tx.meta with
    | some meta => meta.post_token_balances.getD []
    | none => []
  let st1 := post.foldl (tokenBalanceStep keys) ([], [])
  let st2 := tx.instructions.foldl (compiledTransferStep keys) st1
  let st3 :=
    match tx.inner_instructions with
    | some sets =>
        sets.foldl
          (fun st (s : InnerInstructionSet) =>
            s.instructions.foldl (compiledTransferStep keys) st) st2
    | none => st2
  let tokenMap :=
    if containsM st3.1 tokens.SOL then st3.1
    else
      insertM st3.1 tokens.SOL
        { mint := tokens.SOL, amount := 0, amount_raw := "0", decimals := 9
          authority := none, destination := none, destination_owner := none
          source := none }
  (tokenMap, insertM st3.2 tokens.SOL 9)

/-- `TransactionAdapter::new`. -/
def new (tx : SolanaTransactionInput) (config : Option ParseConfig) :
    TransactionAdapter :=
  let keys := extract_account_keys tx
  let maps := extract_token_info tx keys
  { tx := tx, config := config, account_keys := keys
    spl_token_map := maps.1, spl_decimals_map := maps.2 }

def slot (a : TransactionAdapter) : Nat := a.tx.slot

def block_time (a : TransactionAdapter) : Int := a.tx.block_time.getD 0

def signature (a : TransactionAdapter) : String :=
  match a.tx.signatures.head? with
  | some sig => bs58Encode sig
  | none => ""

def get_account_key (a : TransactionAdapter) (index : Nat) : Option String :=
  a.account_keys.get? index

def signer (a : TransactionAdapter) : String := (a.get_account_key 0).getD ""

def signers (a : TransactionAdapter) : List String := a.account_keys.take 1

def fee (a : TransactionAdapter) : TokenAmount :=
  let f := ((a.tx.meta.map TransactionMetaInput.fee).getD none).getD 0
  { amount := toString f, ui_amount := some (convert_to_ui_amount f 9)
    decimals := 9 }

def compute_units (a : TransactionAdapter) : Nat :=
  ((a.tx.meta.map TransactionMetaInput.compute_units_consumed).getD none).getD 0

def tx_status (a : TransactionAdapter) : TransactionStatus :=
  match a.tx.meta with
  | none => TransactionStatus.Unknown
  | some m =>
      if m.err.isNone then TransactionStatus.Success else TransactionStatus.Failed

def raw_instructions (a : TransactionAdapter) : List RawInstruction :=
  a.tx.instructions

def raw_inner_instructions (a : TransactionAdapter) :
    Option (List InnerInstructionSet) := a.tx.inner_instructions

def get_instruction_program_id (a : TransactionAdapter)
    (raw : RawInstruction) : String :=
  (a.get_account_key raw.program_id_index).getD ""

def get_account_index (a : TransactionAdapter) (address : String) :
    Option Nat :=
  a.account_keys.indexOf? address

def get_token_decimals (a : TransactionAdapter) (mint : String) : Nat :=
  (lookupM a.spl_decimals_map mint).getD 0

def pre_balances (a : TransactionAdapter) : Option (List Nat) :=
  a.tx.meta.bind TransactionMetaInput.pre_balances

def post_balances (a : TransactionAdapter) : Option (List Nat) :=
  a.tx.meta.bind TransactionMetaInput.post_balances

def pre_token_balances (a : TransactionAdapter) :
    Option (List TokenBalanceInput) :=
  a.tx.meta.bind TransactionMetaInput.pre_token_balances

def post_token_balances (a : TransactionAdapter) :
    Option (List TokenBalanceInput) :=
  a.tx.meta.bind TransactionMetaInput.post_token_balances

def get_token_account_owner (a : TransactionAdapter) (account_key : String) :
    Option String :=
  match a.post_token_balances with
  | none => none
  | some post =>
      match a.get_account_index account_key with
      | none => none
      | some index =>
          (post.find? (fun b => b.account_index = index)).bind
            TokenBalanceInput.owner

def get_token_account_balance (a : TransactionAdapter)
    (account_keys : List String) : List (Option TokenAmount) :=
  account_keys.map
    (fun key =>
      if key = "" then none
      else
        match a.post_token_balances with
        | none => none
        | some post =>
            match a.get_account_index key with
            | none => none
            | some index =>
                match post.find? (fun b => b.account_index = index) with
                | none => none
                | some bal =>
                    some
                      { amount := bal.ui_token_amount.amount
                        ui_amount := bal.ui_token_amount.ui_amount
                        decimals := bal.ui_token_amount.decimals })

def get_token_account_pre_balance (a : TransactionAdapter)
    (account_keys : List String) : List (Option TokenAmount) :=
  account_keys.map
    (fun key =>
      if key = "" then none
      else
        match a.pre_token_balances with
        | none => none
        | some pre =>
            match a.get_account_index key with
            | none => none
            | some index =>
                match pre.find? (fun b => b.account_index = index) with
                | none => none
                | some bal =>
                    some
                      { amount := bal.ui_token_amount.amount
                        ui_amount := bal.ui_token_amount.ui_amount
                        decimals := bal.ui_token_amount.decimals })

/-- `get_account_sol_balance_changes`. -/
def get_account_sol_balance_changes (a : TransactionAdapter)
    (is_owner : Bool) : List (String × BalanceChange) :=
  let pre := a.pre_balances.getD []
  let post := a.post_balances.getD []
  (a.account_keys.enum.foldl
    (fun changes kv =>
      let index := kv.1
      let key := kv.2
      let pre_bal := (pre.get? index).getD 0
      let post_bal := (post.get? index).getD 0
      let change := i64wrap (i64wrap post_bal - i64wrap pre_bal)
      if change ≠ 0 then
        insertM changes key
          { pre :=
              { amount := toString pre_bal
                ui_amount := some (convert_to_ui_amount pre_bal 9)
                decimals := 9 }
            post :=
              { amount := toString post_bal
                ui_amount := some (convert_to_ui_amount post_bal 9)
                decimals := 9 }
            change :=
              { amount := toString change.natAbs
                ui_amount := some (convert_to_ui_amount change.natAbs 9)
                decimals := 9 } }
      else changes)
    [])

/-- Post-pass step of `get_account_token_balance_changes`. -/
def tokenChangePostStep (keys : List String)
    (m : List (String × List (String × BalanceChange)))
    (balance : TokenBalanceInput) :
    List (String × List (String × BalanceChange)) :=
  let key := (keys.get? balance.account_index).getD ""
  let mint := balance.mint.getD ""
  if mint = "" then m
  else
    let inner := (lookupM m key).getD []
    match lookupM inner mint with
    | some existing =>
        let pre_amount := parseU128OrZero existing.pre.amount
        let post_amount := parseU128OrZero balance.ui_token_amount.amount
        let change_amount := i128wrap ((post_amount : Int) - (pre_amount : Int))
        if change_amount = 0 then insertM m key (removeM inner mint)
        else
          let updated :=
            { existing with
              post :=
                { amount := balance.ui_token_amount.amount
                  ui_amount := balance.ui_token_amount.ui_amount
                  decimals := balance.ui_token_amount.decimals }
              change :=
                { amount := toString change_amount.natAbs
                  ui_amount :=
                    some (UiAmt.sub (balance.ui_token_amount.ui_amount.getD 0)
                      (existing.pre.ui_amount.getD 0))
                  decimals := balance.ui_token_amount.decimals } }
          insertM m key (insertM inner mint updated)
    | none =>
        insertM m key
          (insertM inner mint
            { pre :=
                { amount := "0", ui_amount := some 0
                  decimals := balance.ui_token_amount.decimals }
              post :=
                { amount := balance.ui_token_amount.amount
                  ui_amount := balance.ui_token_amount.ui_amount
                  decimals := balance.ui_token_amount.decimals }
              change :=
                { amount := balance.ui_token_amount.amount
                  ui_amount := balance.ui_token_amount.ui_amount
                  decimals := balance.ui_token_amount.decimals } })

/-- Pre-pass step of `get_account_token_balance_changes`. -/
def tokenChangePreStep (keys : List String)
    (m : List (String × List (String × BalanceChange)))
    (balance : TokenBalanceInput) :
    List (String × List (String × BalanceChange)) :=
  let key := (keys.get? balance.account_index).getD ""
  let mint := balance.mint.getD ""
  if mint = "" then m
  else
    let inner := (lookupM m key).getD []
    insertM m key
      (insertM inner mint
        { pre :=
            { amount := balance.ui_token_amount.amount
              ui_amount := balance.ui_token_amount.ui_amount
              decimals := balance.ui_token_amount.decimals }
          post :=
            { amount := "0", ui_amount := some 0
              decimals := balance.ui_token_amount.decimals }
          change :=
            { amount := "0", ui_amount := some 0
              decimals := balance.ui_token_amount.decimals } })

/-- `get_account_token_balance_changes`. -/
def get_account_token_balance_changes (a : TransactionAdapter)
    (is_owner : Bool) : List (String × List (String × BalanceChange)) :=
  let pre := a.pre_token_balances.getD []
  let post := a.post_token_balances.getD []
  let seeded := pre.foldl (tokenChangePreStep a.account_keys) []
  post.foldl (tokenChangePostStep a.account_keys) seeded

end TransactionAdapter

end SolTx

namespace SolTx

/-! ## Instruction classifier (src/instruction_classifier.rs)

The classifier's `HashMap` is kept in key-insertion order; where the Rust
code iterates the map's keys (`get_all_program_ids`), the embedding takes
the iteration order as an explicit list parameter. -/

structure InstructionClassifier where
  instruction_map : List (String × List ClassifiedInstruction)
deriving DecidableEq, Repr

namespace InstructionClassifier

/-- `add_instruction`: empty program IDs are skipped. -/
def add_instruction (m : List (String × List ClassifiedInstruction))
    (classified : ClassifiedInstruction) :
    List (String × List ClassifiedInstruction) :=
  if classified.program_id = "" then m
  else pushEntryM m classified.program_id classified

/-- `classify_instructions` / `InstructionClassifier::new`. -/
def new (a : TransactionAdapter) : InstructionClassifier :=
  let outer := a.raw_instructions.enum.foldl
    (fun m oi =>
      let outer_index := oi.1
      let raw := oi.2
      let program_id := a.get_instruction_program_id raw
      add_instruction m
        { instruction :=
            { program_id := program_id
              accounts := raw.account_key_indexes.filterMap
                (fun i => a.get_account_key i)
              data := raw.data }
          program_id := program_id
          outer_index := outer_index
          inner_index := none })
    []
  let full :=
    match a.raw_inner_instructions with
    | none => outer
    | some sets =>
        sets.foldl
          (fun m (s : InnerInstructionSet) =>
            s.instructions.enum.foldl
              (fun m ii =>
                let inner_index := ii.1
                let raw := ii.2
                let program_id := a.get_instruction_program_id raw
                add_instruction m
                  { instruction :=
                      { program_id := program_id
                        accounts := raw.account_key_indexes.filterMap
                          (fun i => a.get_account_key i)
                        data := raw.data }
                    program_id := program_id
                    outer_index := s.index
                    inner_index := some inner_index })
              m)
          outer
  ⟨full⟩

/-- `get_instructions`. -/
def get_instructions (c : InstructionClassifier) (program_id : String) :
    List ClassifiedInstruction :=
  bucketM c.instruction_map program_id

/-- `get_all_program_ids`, given the map's iteration order `ord` (the Rust
`HashMap` key order, a permutation of the keys in insertion order). -/
def get_all_program_ids (ord : List String) : List String :=
  ord.filter (fun id => !SYSTEM_PROGRAMS.contains id && !SKIP_PROGRAM_IDS.contains id)

/-- The classifier map's keys in insertion order; every admissible
iteration order is a permutation of this list. -/
def map_keys (c : InstructionClassifier) : List String :=
  keysM c.instruction_map

end InstructionClassifier

/-! ## Transaction utilities (src/transaction_utils.rs) -/

namespace TransactionUtils

/-- One arm of the `get_dex_info` scan: the `DexInfo` a known program id
maps to, if any. -/
def dexInfoFor (program_id : String) : Option DexInfo :=
  if program_id = dex_programs.JUPITER.id then
    some { program_id := some program_id, route := some dex_programs.JUPITER.name, amm := none }
  else if program_id = dex_programs.JUPITER_DCA.id then
    some { program_id := some program_id, route := some dex_programs.JUPITER_DCA.name, amm := none }
  else if program_id = dex_programs.RAYDIUM_V4.id then
    some { program_id := some program_id, route := none, amm := some dex_programs.RAYDIUM_V4.name }
  else if program_id = dex_programs.METEORA.id then
    some { program_id := some program_id, route := none, amm := some dex_programs.METEORA.name }
  else if program_id = dex_programs.ORCA.id then
    some { program_id := some program_id, route := none, amm := some dex_programs.ORCA.name }
  else if program_id = dex_programs.PUMP_FUN.id then
    some { program_id := some program_id, route := none, amm := some dex_programs.PUMP_FUN.name }
  else if program_id = dex_programs.PUMP_SWAP.id then
    some { program_id := some program_id, route := none, amm := some dex_programs.PUMP_SWAP.name }
  else none

/-- `get_dex_info`, iterating the classifier's program ids in order `ord`. -/
def get_dex_info (ord : List String) : DexInfo :=
  let program_ids := InstructionClassifier.get_all_program_ids ord
  if program_ids.isEmpty then {}
  else
    match program_ids.findSome? dexInfoFor with
    | some d => d
    | none => { program_id := program_ids.head? }

/-- `parse_compiled_action`: decode one compiled SPL transfer /
transferChecked instruction into a `TransferData`. -/
def parse_compiled_action (a : TransactionAdapter) (raw : RawInstruction)
    (idx : String) : Option TransferData :=
  match raw.data with
  | [] => none
  | d0 :: _ =>
    let data := raw.data
    let program_id := a.get_instruction_program_id raw
    let accounts := raw.account_key_indexes.filterMap
      (fun i => a.get_account_key i)
    if program_id = TOKEN_PROGRAM_ID ∧ d0 = spl_token_instruction.TRANSFER then
      if accounts.length < 2 then none
      else if data.length < 9 then none
      else
        let amount := leNat ((data.drop 1).take 8)
        let source := accounts.getD 0 ""
        let destination := accounts.getD 1 ""
        let token1 := (lookupM a.spl_token_map destination).map TokenInfo.mint
        let token2 := (lookupM a.spl_token_map source).map TokenInfo.mint
        match get_transfer_token_mint token1 token2 with
        | none => none
        | some mint =>
          let decimals := a.get_token_decimals mint
          let sb := (a.get_token_account_balance [source]).head?.join
          let db := (a.get_token_account_balance [destination]).head?.join
          let spb := (a.get_token_account_pre_balance [source]).head?.join
          let dpb := (a.get_token_account_pre_balance [destination]).head?.join
          some
            { transfer_type := "transfer"
              program_id := program_id
              info :=
                { authority := accounts.get? 2
                  destination := destination
                  destination_owner := a.get_token_account_owner (accounts.getD 1 "")
                  mint := mint
                  source := source
                  token_amount :=
                    { amount := toString amount
                      ui_amount := some (convert_to_ui_amount amount decimals)
                      decimals := decimals }
                  source_balance := sb
                  source_pre_balance := spb
                  destination_balance := db
                  destination_pre_balance := dpb }
              idx := idx
              timestamp := a.block_time
              signature := a.signature
              is_fee := none }
    else if (program_id = TOKEN_PROGRAM_ID ∨ program_id = TOKEN_2022_PROGRAM_ID) ∧
        d0 = spl_token_instruction.TRANSFER_CHECKED then
      if accounts.length < 3 ∨ data.length < 10 then none
      else
        let amount := leNat ((data.drop 1).take 8)
        let decimals := data.getD 9 0
        let source := accounts.getD 0 ""
        let mint := accounts.getD 1 ""
        let destination := accounts.getD 2 ""
        let sb := (a.get_token_account_balance [source]).head?.join
        let db := (a.get_token_account_balance [destination]).head?.join
        let spb := (a.get_token_account_pre_balance [source]).head?.join
        let dpb := (a.get_token_account_pre_balance [destination]).head?.join
        some
          { transfer_type := "transferChecked"
            program_id := program_id
            info :=
              { authority := accounts.get? 3
                destination := destination
                destination_owner := a.get_token_account_owner (accounts.getD 2 "")
                mint := mint
                source := source
                token_amount :=
                  { amount := toString amount
                    ui_amount := some (convert_to_ui_amount amount decimals)
                    decimals := decimals }
                source_balance := sb
                source_pre_balance := spb
                destination_balance := db
                destination_pre_balance := dpb }
            idx := idx
            timestamp := a.block_time
            signature := a.signature
            is_fee := none }
    else none

/-- Fee tagging applied when a parsed transfer is pushed into the index. -/
def tagFee (t : TransferData) : TransferData :=
  let is_fee := FEE_ACCOUNTS.contains t.info.destination ||
    (match t.info.destination_owner with
     | some o => FEE_ACCOUNTS.contains o
     | none => false)
  if is_fee then { t with is_fee := some true } else t

/-- `get_transfer_actions`: index every compiled transfer/transferChecked
by `"<programID>:<outer>"` (outer) or `"<outerProgramID>:<outer>-<inner>"`
(inner).  System-program outer instructions are skipped. -/
def get_transfer_actions (a : TransactionAdapter) (extra_types : List String) :
    List (String × List TransferData) :=
  let outerActions := a.raw_instructions.enum.foldl
    (fun actions oi =>
      let outer_index := oi.1
      let raw := oi.2
      let program_id := a.get_instruction_program_id raw
      if SYSTEM_PROGRAMS.contains program_id then actions
      else
        let group_key := program_id ++ ":" ++ toString outer_index
        match parse_compiled_action a raw (toString outer_index) with
        | some transfer => pushEntryM actions group_key (tagFee transfer)
        | none => actions)
    []
  match a.raw_inner_instructions with
  | none => outerActions
  | some sets =>
      sets.foldl
        (fun actions (s : InnerInstructionSet) =>
          let outer_index := s.index
          let outer_program_id :=
            match a.raw_instructions.get? outer_index with
            | some r => a.get_instruction_program_id r
            | none => ""
          s.instructions.enum.foldl
            (fun actions ii =>
              let inner_index := ii.1
              let raw := ii.2
              let group_key := outer_program_id ++ ":" ++ toString outer_index ++
                "-" ++ toString inner_index
              let idx := toString outer_index ++ "-" ++ toString inner_index
              match parse_compiled_action a raw idx with
              | some transfer => pushEntryM actions group_key (tagFee transfer)
              | none => actions)
            actions)
        outerActions

/-- `get_transfers_for_instruction`. -/
def get_transfers_for_instruction
    (transfer_actions : List (String × List TransferData))
    (program_id : String) (outer_index : Nat) (inner_index : Option Nat) :
    List TransferData :=
  let key :=
    match inner_index with
    | some i => program_id ++ ":" ++ toString outer_index ++ "-" ++ toString i
    | none => program_id ++ ":" ++ toString outer_index
  (bucketM transfer_actions key).filter
    (fun t => t.transfer_type = "transfer" || t.transfer_type = "transferChecked")

/-- `get_swap_signer`. -/
def get_swap_signer (a : TransactionAdapter) : String :=
  if a.account_keys.contains dex_programs.JUPITER_DCA.id then
    (a.get_account_key 2).getD a.signer
  else a.signer

/-- `sum_token_amounts`: fee-recipient transfers are pulled out as the fee
(last one wins) and excluded from the sums; the rest is deduplicated by
the `"<amountRaw>-<mint>"` key; sums are u128 (modelled with `% 2 ^ 128`). -/
def sum_token_amounts (a : TransactionAdapter) (transfers : List TransferData)
    (input_mint output_mint : String) (signer : String) :
    Option (String × String × Nat × Nat × Option TransferData) :=
  let final := transfers.foldl
    (fun (st : Nat × Nat × Option TransferData × List String) t =>
      let input_raw := st.1
      let output_raw := st.2.1
      let fee_transfer := st.2.2.1
      let seen := st.2.2.2
      let dest_owner := (t.info.destination_owner).getD ""
      if FEE_ACCOUNTS.contains t.info.destination ||
          FEE_ACCOUNTS.contains dest_owner then
        (input_raw, output_raw, some t, seen)
      else
        let key := t.info.token_amount.amount ++ "-" ++ t.info.mint
        if seen.contains key then (input_raw, output_raw, fee_transfer, seen)
        else
          let amount := parseU128OrZero t.info.token_amount.amount
          let input_raw' :=
            if t.info.mint = input_mint then (input_raw + amount) % 2 ^ 128
            else input_raw
          let output_raw' :=
            if t.info.mint = output_mint then (output_raw + amount) % 2 ^ 128
            else output_raw
          (input_raw', output_raw', fee_transfer, seen ++ [key]))
    (0, 0, none, [])
  some (input_mint, output_mint, final.1, final.2.1, final.2.2.1)

/-- The first-seen list of unique mints (`skip_native` drops the native
placeholder before uniqueness). -/
def uniqueMints (transfers : List TransferData) (skip_native : Bool) :
    List String :=
  transfers.foldl
    (fun uniq t =>
      if skip_native && t.info.mint = tokens.NATIVE then uniq
      else if uniq.contains t.info.mint then uniq
      else uniq ++ [t.info.mint])
    []

/-- `process_swap_data`: build a `TradeInfo` from a transfer list. -/
def process_swap_data (a : TransactionAdapter) (transfers : List TransferData)
    (dex_info : DexInfo) (skip_native : Bool) : Option TradeInfo :=
  if transfers.length < 2 then none
  else
    let unique_mints := uniqueMints transfers skip_native
    if unique_mints.length < 2 then none
    else
      let signer := get_swap_signer a
      match sum_token_amounts a transfers (unique_mints.getD 0 "")
        (unique_mints.getD (unique_mints.length - 1) "") signer with
      | none => none
      | some (input_mint, output_mint, input_raw, output_raw, fee) =>
        let in_dec := a.get_token_decimals input_mint
        let out_dec := a.get_token_decimals output_mint
        let trade_type := get_trade_type input_mint output_mint
        let trade : TradeInfo :=
          { user := signer
            trade_type := trade_type
            pool := []
            input_token :=
              { mint := input_mint
                amount := convert_to_ui_amount_u128 input_raw in_dec
                amount_raw := toString input_raw
                decimals := in_dec
                authority := none
                destination := none
                destination_owner := none
                source := none }
            output_token :=
              { mint := output_mint
                amount := convert_to_ui_amount_u128 output_raw out_dec
                amount_raw := toString output_raw
                decimals := out_dec
                authority := none
                destination := none
                destination_owner := none
                source := none }
            slippage_bps := none
            fee := none
            fees := none
            program_id := dex_info.program_id
            amm := dex_info.amm
            amms := none
            route := dex_info.route
            slot := a.slot
            timestamp := a.block_time
            signature := a.signature
            idx := ((transfers.head?).map TransferData.idx).getD ""
            signer := some a.signers }
        match fee with
        | some fee_transfer =>
            some
              { trade with
                fee :=
                  some
                    { mint := fee_transfer.info.mint
                      amount := (fee_transfer.info.token_amount.ui_amount).getD 0
                      amount_raw := fee_transfer.info.token_amount.amount
                      decimals := fee_transfer.info.token_amount.decimals
                      dex := none
                      type_ := none
                      recipient := none } }
        | none => some trade

end TransactionUtils

end SolTx

namespace SolTx

/-! ## Jupiter parser (src/parsers/jupiter.rs) -/

namespace JupiterParser

/-- `is_jupiter_route_event_instruction`. -/
def is_jupiter_route_event_instruction (data : List Nat) : Bool :=
  data.length ≥ 16 && data.take 16 = discriminators.JUPITER_ROUTE_EVENT

structure JupiterSwapEventData where
  amm : String
  input_mint : String
  input_amount : Nat
  output_mint : String
  output_amount : Nat
  input_mint_decimals : Nat
  output_mint_decimals : Nat
  idx : String
deriving DecidableEq, Repr

/-- `parse_jupiter_route_event`: Borsh `try_from_slice` of the fixed
112-byte layout (Borsh fails unless the slice is consumed exactly). -/
def parse_jupiter_route_event (a : TransactionAdapter) (data : List Nat)
    (idx : String) : Option JupiterSwapEventData :=
  if data.length < 16 then none
  else
    let event_data := data.drop 16
    if event_data.length ≠ 112 then none
    else
      let amm := bs58Encode (event_data.take 32)
      let input_mint := bs58Encode ((event_data.drop 32).take 32)
      let input_amount := leNat ((event_data.drop 64).take 8)
      let output_mint := bs58Encode ((event_data.drop 72).take 32)
      let output_amount := leNat ((event_data.drop 104).take 8)
      some
        { amm := amm
          input_mint := input_mint
          input_amount := input_amount
          output_mint := output_mint
          output_amount := output_amount
          input_mint_decimals := a.get_token_decimals input_mint
          output_mint_decimals := a.get_token_decimals output_mint
          idx := idx }

/-- `build_trade_from_event`. -/
def build_trade_from_event (a : TransactionAdapter) (dex_info : DexInfo)
    (event : JupiterSwapEventData) : Option TradeInfo :=
  let signer_index :=
    if a.account_keys.contains dex_programs.JUPITER_DCA.id then 2 else 0
  let user := (a.get_account_key signer_index).getD a.signer
  some
    { user := user
      trade_type := get_trade_type event.input_mint event.output_mint
      pool := []
      input_token :=
        { mint := event.input_mint
          amount := convert_to_ui_amount event.input_amount event.input_mint_decimals
          amount_raw := toString event.input_amount
          decimals := event.input_mint_decimals
          authority := none, destination := none, destination_owner := none
          source := none }
      output_token :=
        { mint := event.output_mint
          amount := convert_to_ui_amount event.output_amount event.output_mint_decimals
          amount_raw := toString event.output_amount
          decimals := event.output_mint_decimals
          authority := none, destination := none, destination_owner := none
          source := none }
      slippage_bps := none
      fee := none
      fees := none
      program_id := dex_info.program_id
      amm := some (get_program_name event.amm)
      amms := some [get_program_name event.amm]
      route := (dex_info.route).orElse (fun _ => some "Jupiter")
      slot := a.slot
      timestamp := a.block_time
      signature := a.signature
      idx := event.idx
      signer := some a.signers }

/-- `JupiterParser::process_trades`. -/
def process_trades (a : TransactionAdapter) (dex_info : DexInfo)
    (classified_instructions : List ClassifiedInstruction) : List TradeInfo :=
  classified_instructions.foldl
    (fun trades ci =>
      if ci.program_id ≠ dex_programs.JUPITER.id then trades
      else if is_jupiter_route_event_instruction ci.instruction.data then
        let idx := toString ci.outer_index ++ "-" ++ toString (ci.inner_index.getD 0)
        match parse_jupiter_route_event a ci.instruction.data idx with
        | some event =>
            match build_trade_from_event a dex_info event with
            | some t => trades ++ [t]
            | none => trades
        | none => trades
      else trades)
    []

end JupiterParser

/-! ## Raydium parser (src/parsers/raydium.rs) -/

namespace RaydiumParser

/-- `not_liquidity_event`. -/
def not_liquidity_event (data : List Nat) : Bool :=
  match data with
  | [] => true
  | d0 :: _ =>
    if d0 = discriminators.RAYDIUM_CREATE ∨ d0 = discriminators.RAYDIUM_ADD_LIQUIDITY ∨
        d0 = discriminators.RAYDIUM_REMOVE_LIQUIDITY then false
    else if data.length ≥ 8 then
      let slice := data.take 8
      if slice = discriminators.RAYDIUM_CPMM_CREATE ∨
          slice = discriminators.RAYDIUM_CPMM_ADD_LIQUIDITY ∨
          slice = discriminators.RAYDIUM_CPMM_REMOVE_LIQUIDITY then false
      else true
    else true

/-- `get_pool_address`. -/
def get_pool_address (accounts : List String) (program_id : String) :
    Option String :=
  if accounts.length ≤ 5 then none
  else if program_id = dex_programs.RAYDIUM_V4.id ∨
      program_id = dex_programs.RAYDIUM_AMM.id then accounts.get? 1
  else if program_id = dex_programs.RAYDIUM_CL.id then accounts.get? 2
  else if program_id = dex_programs.RAYDIUM_CPMM.id then accounts.get? 3
  else none

/-- `RaydiumParser::process_trades`. -/
def process_trades (a : TransactionAdapter) (dex_info : DexInfo)
    (transfer_actions : List (String × List TransferData))
    (classified_instructions : List ClassifiedInstruction) : List TradeInfo :=
  classified_instructions.foldl
    (fun trades ci =>
      if !not_liquidity_event ci.instruction.data then trades
      else
        let transfers := TransactionUtils.get_transfers_for_instruction
          transfer_actions ci.program_id ci.outer_index ci.inner_index
        if transfers.length ≥ 2 then
          let dex_info' := { dex_info with amm := some (get_program_name ci.program_id) }
          let take := min 2 transfers.length
          match TransactionUtils.process_swap_data a (transfers.take take)
            dex_info' true with
          | some trade =>
            let trade :=
              match get_pool_address ci.instruction.accounts ci.program_id with
              | some pool => { trade with pool := [pool] }
              | none => trade
            let trade :=
              if transfers.length > 2 then
                match transfers.get? 2 with
                | some fee_transfer =>
                    { trade with
                      fee :=
                        some
                          { mint := fee_transfer.info.mint
                            amount := (fee_transfer.info.token_amount.ui_amount).getD 0
                            amount_raw := fee_transfer.info.token_amount.amount
                            decimals := fee_transfer.info.token_amount.decimals
                            dex := none, type_ := none, recipient := none } }
                | none => trade
              else trade
            trades ++ [trade]
          | none => trades
        else trades)
    []

end RaydiumParser

/-! ## Orca parser (src/parsers/orca.rs) -/

namespace OrcaParser

/-- `not_liquidity_event`. -/
def not_liquidity_event (data : List Nat) : Bool :=
  if data.length < 8 then true
  else
    let slice := data.take 8
    if slice = discriminators.ORCA_CREATE ∨ slice = discriminators.ORCA_CREATE2 ∨
        slice = discriminators.ORCA_INCREASE_LIQUIDITY ∨
        slice = discriminators.ORCA_INCREASE_LIQUIDITY2 ∨
        slice = discriminators.ORCA_DECREASE_LIQUIDITY then false
    else true

/-- `OrcaParser::process_trades`. -/
def process_trades (a : TransactionAdapter) (dex_info : DexInfo)
    (transfer_actions : List (String × List TransferData))
    (classified_instructions : List ClassifiedInstruction) : List TradeInfo :=
  classified_instructions.foldl
    (fun trades ci =>
      if ci.program_id ≠ dex_programs.ORCA.id then trades
      else if !not_liquidity_event ci.instruction.data then trades
      else
        let transfers := TransactionUtils.get_transfers_for_instruction
          transfer_actions ci.program_id ci.outer_index ci.inner_index
        if transfers.length ≥ 2 then
          let dex_info' := { dex_info with amm := some (get_program_name ci.program_id) }
          match TransactionUtils.process_swap_data a transfers dex_info' true with
          | some trade => trades ++ [trade]
          | none => trades
        else trades)
    []

end OrcaParser

/-! ## Meteora parser (src/parsers/meteora.rs) -/

namespace MeteoraParser

def meteora_ids : List String :=
  [dex_programs.METEORA.id, dex_programs.METEORA_DAMM.id,
   dex_programs.METEORA_DAMM_V2.id]

/-- `not_liquidity_event`. -/
def not_liquidity_event (data : List Nat) : Bool :=
  if data.length < 8 then true
  else
    let slice8 := data.take 8
    if slice8 = discriminators.METEORA_DLMM_ADD_LIQUIDITY ∨
        slice8 = discriminators.METEORA_DLMM_REMOVE_LIQUIDITY ∨
        slice8 = discriminators.METEORA_DAMM_CREATE ∨
        slice8 = discriminators.METEORA_DAMM_ADD ∨
        slice8 = discriminators.METEORA_DAMM_REMOVE ∨
        slice8 = discriminators.METEORA_DAMM_V2_INIT ∨
        slice8 = discriminators.METEORA_DAMM_V2_ADD ∨
        slice8 = discriminators.METEORA_DAMM_V2_REMOVE then false
    else true

/-- `get_pool_address`. -/
def get_pool_address (accounts : List String) (program_id : String) :
    Option String :=
  if accounts.length ≤ 5 then none
  else if program_id = dex_programs.METEORA.id ∨
      program_id = dex_programs.METEORA_DAMM.id then accounts.get? 0
  else if program_id = dex_programs.METEORA_DAMM_V2.id then accounts.get? 1
  else none

/-- `MeteoraParser::process_trades`. -/
def process_trades (a : TransactionAdapter) (dex_info : DexInfo)
    (transfer_actions : List (String × List TransferData))
    (classified_instructions : List ClassifiedInstruction) : List TradeInfo :=
  classified_instructions.foldl
    (fun trades ci =>
      if !meteora_ids.contains ci.program_id then trades
      else if !not_liquidity_event ci.instruction.data then trades
      else
        let transfers := TransactionUtils.get_transfers_for_instruction
          transfer_actions ci.program_id ci.outer_index ci.inner_index
        if transfers.length ≥ 2 then
          let transfers :=
            if ci.program_id = dex_programs.METEORA.id then transfers.take 2
            else transfers
          let dex_info' := { dex_info with amm := some (get_program_name ci.program_id) }
          match TransactionUtils.process_swap_data a transfers dex_info' true with
          | some trade =>
            let trade :=
              match get_pool_address ci.instruction.accounts ci.program_id with
              | some pool => { trade with pool := [pool] }
              | none => trade
            trades ++ [trade]
          | none => trades
        else trades)
    []

end MeteoraParser

end SolTx

namespace SolTx

/-! ## Pumpfun parser (src/parsers/pumpfun.rs) -/

namespace PumpfunParser

structure PumpfunTradeEvent where
  mint : String
  sol_amount : Nat
  token_amount : Nat
  is_buy : Bool
  user : String
  timestamp : Int
  bonding_curve : Option String
  fee : Option Nat
deriving DecidableEq, Repr

/-- `decode_trade_event`: the source performs the sequential
`BinaryReader` reads `mint:32 @0, solAmount:u64 @32, tokenAmount:u64 @40,
isBuy:u8 @48, user:32 @49, timestamp:i64 @81, u64 @89, u64 @97` (failing,
all-or-nothing, iff fewer than 105 bytes), then — only when at least 58
bytes remain — `u64 @105, u64 @113, 32 @121, u16 @153, fee:u64 @155`.
The reads are rendered here by their byte offsets. -/
def decode_trade_event (data : List Nat) : Option PumpfunTradeEvent :=
  if data.length < 105 then none
  else
    some
      { mint := bs58Encode (data.take 32)
        sol_amount := leNat ((data.drop 32).take 8)
        token_amount := leNat ((data.drop 40).take 8)
        is_buy := data.getD 48 0 = 1
        user := bs58Encode ((data.drop 49).take 32)
        timestamp := leI64 ((data.drop 81).take 8)
        bonding_curve := none
        fee :=
          if data.length - 105 ≥ 58 then some (leNat ((data.drop 155).take 8))
          else none }

/-- `PumpfunParser::process_trades`. -/
def process_trades (a : TransactionAdapter) (dex_info : DexInfo)
    (classified_instructions : List ClassifiedInstruction) : List TradeInfo :=
  classified_instructions.foldl
    (fun trades ci =>
      if ci.program_id ≠ dex_programs.PUMP_FUN.id then trades
      else if ci.instruction.data.length < 16 then trades
      else if ci.instruction.data.take 16 ≠ discriminators.PUMPFUN_TRADE_EVENT then
        trades
      else
        match decode_trade_event (ci.instruction.data.drop 16) with
        | none => trades
        | some evt =>
          let idx := toString ci.outer_index ++ "-" ++
            toString (ci.inner_index.getD 0)
          let input_mint := if evt.is_buy then tokens.SOL else evt.mint
          let input_amount := if evt.is_buy then evt.sol_amount else evt.token_amount
          let input_dec : Nat := if evt.is_buy then 9 else 6
          let output_mint := if evt.is_buy then evt.mint else tokens.SOL
          let output_amount := if evt.is_buy then evt.token_amount else evt.sol_amount
          let output_dec : Nat := if evt.is_buy then 6 else 9
          let trade_type := if evt.is_buy then TradeType.Buy else TradeType.Sell
          let trade : TradeInfo :=
            { user := evt.user
              trade_type := trade_type
              pool := (evt.bonding_curve.map (fun p => [p])).getD []
              input_token :=
                { mint := input_mint
                  amount := convert_to_ui_amount input_amount input_dec
                  amount_raw := toString input_amount
                  decimals := input_dec
                  authority := none, destination := none
                  destination_owner := none, source := none }
              output_token :=
                { mint := output_mint
                  amount := convert_to_ui_amount output_amount output_dec
                  amount_raw := toString output_amount
                  decimals := output_dec
                  authority := none, destination := none
                  destination_owner := none, source := none }
              slippage_bps := none
              fee := none
              fees := none
              program_id := some dex_programs.PUMP_FUN.id
              amm := some dex_programs.PUMP_FUN.name
              amms := none
              route := dex_info.route
              slot := a.slot
              timestamp := evt.timestamp
              signature := a.signature
              idx := idx
              signer := some a.signers }
          let trade :=
            match evt.fee with
            | some fee =>
                { trade with
                  fee :=
                    some
                      { mint := tokens.SOL
                        amount := convert_to_ui_amount fee 9
                        amount_raw := toString fee
                        decimals := 9
                        dex := none, type_ := none, recipient := none } }
            | none => trade
          trades ++ [trade])
    []

end PumpfunParser

/-! ## Pumpswap parser (src/parsers/pumpswap.rs) -/

namespace PumpswapParser

structure PumpswapBuyEvent where
  base_amount_out : Nat
  quote_amount_in_with_lp_fee : Nat
  protocol_fee : Nat
  coin_creator_fee : Nat
  pool : String
  user : String
  user_base_token_account : String
  user_quote_token_account : String
  protocol_fee_recipient : String
  protocol_fee_recipient_token_account : String
deriving DecidableEq, Repr

structure PumpswapSellEvent where
  base_amount_in : Nat
  user_quote_amount_out : Nat
  protocol_fee : Nat
  coin_creator_fee : Nat
  pool : String
  user : String
  user_base_token_account : String
  user_quote_token_account : String
  protocol_fee_recipient : String
  protocol_fee_recipient_token_account : String
deriving DecidableEq, Repr

/-- `decode_buy_event`: the source reads, sequentially and all-or-nothing,
`i64 @0` then thirteen `u64`s at offsets `8,16,…,104`
(`baseAmountOut @8, protocolFee @88, quoteAmountInWithLpFee @96`), then
six 32-byte pubkeys at `112,144,176,208,240,272` (pool, user,
userBaseTokenAccount, userQuoteTokenAccount, protocolFeeRecipient,
protocolFeeRecipientTokenAccount) — failing iff fewer than 304 bytes —
and, only when at least 48 bytes remain, `coinCreator:32 @304,
bps:u64 @336, coinCreatorFee:u64 @344`.  Rendered by byte offsets. -/
def decode_buy_event (data : List Nat) : Option PumpswapBuyEvent :=
  if data.length < 304 then none
  else
    some
      { base_amount_out := leNat ((data.drop 8).take 8)
        protocol_fee := leNat ((data.drop 88).take 8)
        quote_amount_in_with_lp_fee := leNat ((data.drop 96).take 8)
        coin_creator_fee :=
          if data.length - 304 ≥ 48 then leNat ((data.drop 344).take 8) else 0
        pool := bs58Encode ((data.drop 112).take 32)
        user := bs58Encode ((data.drop 144).take 32)
        user_base_token_account := bs58Encode ((data.drop 176).take 32)
        user_quote_token_account := bs58Encode ((data.drop 208).take 32)
        protocol_fee_recipient := bs58Encode ((data.drop 240).take 32)
        protocol_fee_recipient_token_account :=
          bs58Encode ((data.drop 272).take 32) }

/-- `decode_sell_event`: same layout as the buy event with
`baseAmountIn @8, protocolFee @88, userQuoteAmountOut @104`; the final
trailer read uses `.ok().unwrap_or(0)`, which under the 48-byte guard
always succeeds, so the trailer behaves exactly as in the buy event. -/
def decode_sell_event (data : List Nat) : Option PumpswapSellEvent :=
  if data.length < 304 then none
  else
    some
      { base_amount_in := leNat ((data.drop 8).take 8)
        protocol_fee := leNat ((data.drop 88).take 8)
        user_quote_amount_out := leNat ((data.drop 104).take 8)
        coin_creator_fee :=
          if data.length - 304 ≥ 48 then leNat ((data.drop 344).take 8) else 0
        pool := bs58Encode ((data.drop 112).take 32)
        user := bs58Encode ((data.drop 144).take 32)
        user_base_token_account := bs58Encode ((data.drop 176).take 32)
        user_quote_token_account := bs58Encode ((data.drop 208).take 32)
        protocol_fee_recipient := bs58Encode ((data.drop 240).take 32)
        protocol_fee_recipient_token_account :=
          bs58Encode ((data.drop 272).take 32) }

/-- The mint recorded for a token account in the adapter's map. -/
def mintOf (a : TransactionAdapter) (account : String) : Option String :=
  (lookupM a.spl_token_map account).map TokenInfo.mint

/-- The trades contributed by one classified instruction inside
`PumpswapParser::process_trades` (the loop body, which pushes at most one
trade).  `protocol_fee + coin_creator_fee` is a `u64` addition, modelled
with `% 2 ^ 64`. -/
def trade_for_instruction (a : TransactionAdapter) (dex_info : DexInfo)
    (ci : ClassifiedInstruction) : List TradeInfo :=
  (if ci.program_id ≠ dex_programs.PUMP_SWAP.id then []
      else if ci.instruction.data.length < 16 then []
      else
        let data := ci.instruction.data
        let idx := toString ci.outer_index ++ "-" ++ toString (ci.inner_index.getD 0)
        let event_data := data.drop 16
        if data.take 16 = discriminators.PUMPSWAP_BUY_EVENT then
          match decode_buy_event event_data with
          | none => []
          | some evt =>
            match mintOf a evt.user_quote_token_account,
                mintOf a evt.user_base_token_account,
                mintOf a evt.protocol_fee_recipient_token_account with
            | some in_m, some out_m, some fee_m =>
              let in_dec := a.get_token_decimals in_m
              let out_dec := a.get_token_decimals out_m
              let fee_dec := a.get_token_decimals fee_m
              let fee_amt := (evt.protocol_fee + evt.coin_creator_fee) % 2 ^ 64
              [{ user := evt.user
                 trade_type := get_trade_type in_m out_m
                 pool := [evt.pool]
                 input_token :=
                   { mint := in_m
                     amount := convert_to_ui_amount evt.quote_amount_in_with_lp_fee in_dec
                     amount_raw := toString evt.quote_amount_in_with_lp_fee
                     decimals := in_dec
                     authority := none, destination := none
                     destination_owner := none, source := none }
                 output_token :=
                   { mint := out_m
                     amount := convert_to_ui_amount evt.base_amount_out out_dec
                     amount_raw := toString evt.base_amount_out
                     decimals := out_dec
                     authority := none, destination := none
                     destination_owner := none, source := none }
                 slippage_bps := none
                 fee :=
                   some
                     { mint := fee_m
                       amount := convert_to_ui_amount fee_amt fee_dec
                       amount_raw := toString fee_amt
                       decimals := fee_dec
                       dex := some dex_programs.PUMP_SWAP.name
                       type_ := some "protocol"
                       recipient := some evt.protocol_fee_recipient }
                 fees := none
                 program_id := some dex_programs.PUMP_SWAP.id
                 amm := some dex_programs.PUMP_SWAP.name
                 amms := none
                 route := dex_info.route
                 slot := a.slot
                 timestamp := a.block_time
                 signature := a.signature
                 idx := idx
                 signer := some a.signers }]
            | _, _, _ => []
        else if data.take 16 = discriminators.PUMPSWAP_SELL_EVENT then
          match decode_sell_event event_data with
          | none => []
          | some evt =>
            match mintOf a evt.user_base_token_account,
                mintOf a evt.user_quote_token_account,
                mintOf a evt.protocol_fee_recipient_token_account with
            | some in_m, some out_m, some fee_m =>
              let in_dec := a.get_token_decimals in_m
              let out_dec := a.get_token_decimals out_m
              let fee_dec := a.get_token_decimals fee_m
              let fee_amt := (evt.protocol_fee + evt.coin_creator_fee) % 2 ^ 64
              [{ user := evt.user
                 trade_type := get_trade_type in_m out_m
                 pool := [evt.pool]
                 input_token :=
                   { mint := in_m
                     amount := convert_to_ui_amount evt.base_amount_in in_dec
                     amount_raw := toString evt.base_amount_in
                     decimals := in_dec
                     authority := none, destination := none
                     destination_owner := none, source := none }
                 output_token :=
                   { mint := out_m
                     amount := convert_to_ui_amount evt.user_quote_amount_out out_dec
                     amount_raw := toString evt.user_quote_amount_out
                     decimals := out_dec
                     authority := none, destination := none
                     destination_owner := none, source := none }
                 slippage_bps := none
                 fee :=
                   some
                     { mint := fee_m
                       amount := convert_to_ui_amount fee_amt fee_dec
                       amount_raw := toString evt.protocol_fee
                       decimals := fee_dec
                       dex := some dex_programs.PUMP_SWAP.name
                       type_ := none
                       recipient := some evt.protocol_fee_recipient }
                 fees := none
                 program_id := some dex_programs.PUMP_SWAP.id
                 amm := some dex_programs.PUMP_SWAP.name
                 amms := none
                 route := dex_info.route
                 slot := a.slot
                 timestamp := a.block_time
                 signature := a.signature
                 idx := idx
                 signer := some a.signers }]
            | _, _, _ => []
        else [])

/-- `PumpswapParser::process_trades`. -/
def process_trades (a : TransactionAdapter) (dex_info : DexInfo)
    (classified_instructions : List ClassifiedInstruction) : List TradeInfo :=
  classified_instructions.foldl
    (fun trades ci => trades ++ trade_for_instruction a dex_info ci) []

end PumpswapParser

end SolTx

namespace SolTx

/-! ## Orchestrator (src/dex_parser.rs)

`parse_with_classifier` takes the classifier `HashMap`'s key iteration
order `ord` as an explicit parameter (a permutation of
`InstructionClassifier.map_keys`); the Rust code observes that order both
in `get_dex_info` and in the per-program decoder walk. -/

namespace DexParser

def jupiter_ids : List String :=
  [dex_programs.JUPITER.id, dex_programs.JUPITER_DCA.id,
   dex_programs.JUPITER_VA.id, dex_programs.JUPITER_LIMIT_ORDER_V2.id]

def raydium_walk_ids : List String :=
  [dex_programs.RAYDIUM_V4.id, dex_programs.RAYDIUM_AMM.id,
   dex_programs.RAYDIUM_CPMM.id, dex_programs.RAYDIUM_CL.id,
   dex_programs.RAYDIUM_ROUTE.id]

/-- The skeleton `ParseResult` filled from the adapter before any decoding
(lines 49-78 of the source). -/
def base_result (a : TransactionAdapter) (tx : SolanaTransactionInput) :
    ParseResult :=
  { state := true
    fee := a.fee
    aggregate_trade := none
    trades := []
    slot := tx.slot
    timestamp := a.block_time
    signature := a.signature
    signer := a.signers
    compute_units := a.compute_units
    tx_status := a.tx_status
    msg := none
    sol_balance_change := none
    token_balance_change := none }

/-- The Jupiter fast path: `some (trades, aggregate)` exactly when the
source returns early from inside the Jupiter block, carrying the fields it
returns with; `none` when control falls through to the decoder walk (in
which case the source has not modified the result). -/
def fast_path_outcome (a : TransactionAdapter) (c : InstructionClassifier)
    (dex_info : DexInfo) (config : ParseConfig) :
    Option (List TradeInfo × Option TradeInfo) :=
  if (dex_info.program_id.map (fun p => jupiter_ids.contains p)) = some true then
    let program_id := dex_info.program_id.getD ""
    let instructions := c.get_instructions program_id
    if program_id = dex_programs.JUPITER.id then
      let trades := JupiterParser.process_trades a
        { program_id := some program_id
          amm := some (get_program_name program_id)
          route := dex_info.route }
        instructions
      if !trades.isEmpty then
        let tr_agg :=
          if config.aggregate_trades then
            (([] : List TradeInfo),
             get_final_swap trades dex_info.amm dex_info.route)
          else (trades, (none : Option TradeInfo))
        if !tr_agg.1.isEmpty || tr_agg.2.isSome then some tr_agg else none
      else none
    else none
  else none

/-- One arm of the per-program decoder walk (the `if`/`else if` dispatch
on the program id). -/
def walk_program_trades (a : TransactionAdapter) (c : InstructionClassifier)
    (transfer_actions : List (String × List TransferData))
    (route : Option String) (program_id : String) : List TradeInfo :=
  let instructions := c.get_instructions program_id
  let dex_info_here : DexInfo :=
    { program_id := some program_id
      amm := some (get_program_name program_id)
      route := route }
  if program_id = dex_programs.JUPITER.id then
    JupiterParser.process_trades a dex_info_here instructions
  else if raydium_walk_ids.contains program_id then
    RaydiumParser.process_trades a dex_info_here transfer_actions instructions
  else if program_id = dex_programs.ORCA.id then
    OrcaParser.process_trades a dex_info_here transfer_actions instructions
  else if MeteoraParser.meteora_ids.contains program_id then
    MeteoraParser.process_trades a dex_info_here transfer_actions instructions
  else if program_id = dex_programs.PUMP_FUN.id then
    PumpfunParser.process_trades a dex_info_here instructions
  else if program_id = dex_programs.PUMP_SWAP.id then
    PumpswapParser.process_trades a dex_info_here instructions
  else []

/-- The include/ignore filters applied inside the walk. -/
def program_pass (config : ParseConfig) (program_id : String) : Bool :=
  !(match config.program_ids with
    | some p => !p.contains program_id
    | none => false) &&
  !(match config.ignore_program_ids with
    | some p => p.contains program_id
    | none => false)

/-- The per-program decoder walk over the iteration order `ord`. -/
def decoder_walk (a : TransactionAdapter) (c : InstructionClassifier)
    (transfer_actions : List (String × List TransferData))
    (config : ParseConfig) (route : Option String) (ord : List String) :
    List TradeInfo :=
  (InstructionClassifier.get_all_program_ids ord).foldl
    (fun acc program_id =>
      if program_pass config program_id then
        acc ++ walk_program_trades a c transfer_actions route program_id
      else acc)
    []

/-- The trade-deduplication key `"<idx>-<signature>"`. -/
def dedupKey (t : TradeInfo) : String := t.idx ++ "-" ++ t.signature

/-- `retain` keeping the first occurrence of every dedup key. -/
def retain_first_by_key : List TradeInfo → List String → List TradeInfo
  | [], _ => []
  | t :: ts, seen =>
      if seen.contains (dedupKey t) then retain_first_by_key ts seen
      else t :: retain_first_by_key ts (seen ++ [dedupKey t])

/-- `parse_with_classifier` (trades parse type). -/
def parse_with_classifier (tx : SolanaTransactionInput) (config : ParseConfig)
    (ord : List String) : ParseResult :=
  let a := TransactionAdapter.new tx (some config)
  let c := InstructionClassifier.new a
  let dex_info := TransactionUtils.get_dex_info ord
  let all_program_ids := InstructionClassifier.get_all_program_ids ord
  let result0 := base_result a tx
  let filter_mismatch :=
    match config.program_ids with
    | some filter_ids => !(all_program_ids.any (fun id => filter_ids.contains id))
    | none => false
  if filter_mismatch then { result0 with state := false }
  else
    match fast_path_outcome a c dex_info config with
    | some tr_agg =>
        { result0 with trades := tr_agg.1, aggregate_trade := tr_agg.2 }
    | none =>
        let transfer_actions := TransactionUtils.get_transfer_actions a
          ["mintTo", "burn", "mintToChecked", "burnChecked"]
        let walked := decoder_walk a c transfer_actions config dex_info.route ord
        let trades_agg :=
          if walked.length > 1 then
            let deduped := retain_first_by_key walked []
            (deduped,
             if config.aggregate_trades then
               get_final_swap deduped dex_info.amm dex_info.route
             else none)
          else (walked, (none : Option TradeInfo))
        { result0 with
          trades := trades_agg.1
          aggregate_trade := trades_agg.2
          sol_balance_change :=
            lookupM (a.get_account_sol_balance_changes false) a.signer
          token_balance_change :=
            lookupM (a.get_account_token_balance_changes true) a.signer }

/-- `parse_all` / `parse_trades` entry point (both parse types execute the
trades block; the config defaults when absent). -/
def parse_all (tx : SolanaTransactionInput) (config : Option ParseConfig)
    (ord : List String) : ParseResult :=
  parse_with_classifier tx (config.getD {}) ord

end DexParser

end SolTx

namespace SolTx

/-! ## Library lemmas about the map model, folds and the stable sort -/

theorem lookupM_insertM {β : Type} (m : List (String × β)) (k k' : String)
    (v : β) :
    lookupM (insertM m k v) k' = if k = k' then some v else lookupM m k' := by
  induction m with
  | nil => simp [insertM, lookupM]
  | cons kv rest ih =>
      obtain ⟨k₀, v₀⟩ := kv
      simp only [insertM]
      by_cases h0 : k₀ = k
      · subst h0
        by_cases h1 : k₀ = k' <;> simp [lookupM, h1]
      · simp only [if_neg h0, lookupM, ih]
        by_cases h1 : k₀ = k'
        · subst h1
          have hk : ¬ k = k₀ := fun h => h0 h.symm
          simp [hk]
        · simp [h1]

theorem lookupM_removeM {β : Type} (m : List (String × β)) (k k' : String) :
    lookupM (removeM m k) k' = if k = k' then none else lookupM m k' := by
  induction m with
  | nil => simp [removeM, lookupM]
  | cons kv rest ih =>
      obtain ⟨k₀, v₀⟩ := kv
      simp only [removeM]
      by_cases h0 : k₀ = k
      · subst h0
        by_cases h1 : k₀ = k'
        · subst h1
          simp [ih]
        · simp [lookupM, h1, ih]
      · simp only [if_neg h0, lookupM]
        by_cases h1 : k₀ = k'
        · subst h1
          have hk : ¬ k = k₀ := fun h => h0 h.symm
          simp [hk]
        · simp [h1, ih]

theorem bucketM_pushEntryM {γ : Type} (m : List (String × List γ))
    (k k' : String) (v : γ) :
    bucketM (pushEntryM m k v) k' =
      if k = k' then bucketM m k' ++ [v] else bucketM m k' := by
  induction m with
  | nil => by_cases h : k = k' <;> simp [pushEntryM, bucketM, lookupM, h]
  | cons kv rest ih =>
      obtain ⟨k₀, vs₀⟩ := kv
      simp only [pushEntryM]
      by_cases h0 : k₀ = k
      · subst h0
        by_cases h1 : k₀ = k' <;> simp [bucketM, lookupM, h1]
      · simp only [if_neg h0, bucketM, lookupM, ih]
        by_cases h1 : k₀ = k'
        · subst h1
          have hk : ¬ k = k₀ := fun h => h0 h.symm
          simp [hk, bucketM, lookupM]
        · simpa [bucketM, lookupM, h1] using ih

theorem mem_bucketM_foldl {α β : Type} (step : List (String × List β) → α →
    List (String × List β))
    (hstep : ∀ m y v k, v ∈ bucketM m k → v ∈ bucketM (step m y) k)
    (l : List α) (m0 : List (String × List β)) (v : β) (k : String)
    (hv : v ∈ bucketM m0 k) : v ∈ bucketM (l.foldl step m0) k := by
  induction l generalizing m0 with
  | nil => exact hv
  | cons y ys ih => exact ih _ (hstep _ _ _ _ hv)

theorem mem_bucketM_foldl_of_mem {α β : Type}
    (step : List (String × List β) → α → List (String × List β))
    (hstep : ∀ m y v k, v ∈ bucketM m k → v ∈ bucketM (step m y) k)
    (l : List α) (x : α) (hx : x ∈ l) (v : β) (k : String)
    (hins : ∀ m, v ∈ bucketM (step m x) k) (m0 : List (String × List β)) :
    v ∈ bucketM (l.foldl step m0) k := by
  induction l generalizing m0 with
  | nil => cases hx
  | cons y ys ih =>
      rcases List.mem_cons.mp hx with h | h
      · subst h
        exact mem_bucketM_foldl step hstep ys _ v k (hins m0)
      · exact ih h _

/-- A left fold that appends blocks is the flattened map. -/
theorem foldl_append_eq_flatten {α β : Type} (g : α → List β) (l : List α) :
    ∀ acc : List β,
      l.foldl (fun acc x => acc ++ g x) acc = acc ++ (l.map g).flatten := by
  induction l with
  | nil => simp
  | cons x xs ih => intro acc; simp [ih, List.append_assoc]

theorem stableInsert_perm {α : Type} (lt : α → α → Bool) (x : α)
    (l : List α) : List.Perm (stableInsert lt x l) (x :: l) := by
  induction l with
  | nil => simp [stableInsert]
  | cons y ys ih =>
      by_cases h : lt y x
      · simp only [stableInsert, if_pos h]
        exact ((ih.cons y).trans (List.Perm.swap x y ys))
      · simp [stableInsert, h]

theorem stableSort_perm {α : Type} (lt : α → α → Bool) (l : List α) :
    List.Perm (stableSort lt l) l := by
  induction l with
  | nil => simp [stableSort]
  | cons x xs ih =>
      exact (stableInsert_perm lt x (stableSort lt xs)).trans (ih.cons x)

theorem sort_by_idx_perm {α : Type} (items : List (α × String)) :
    List.Perm (sort_by_idx items) (items.map Prod.fst) := by
  unfold sort_by_idx
  by_cases h : items.length ≤ 1
  · simp [h]
  · simp only [h, if_false]
    exact (stableSort_perm _ items).map Prod.fst

theorem stableInsert_filter_neg {α : Type} (lt : α → α → Bool)
    (p : α → Bool) (x : α) (hx : p x = false) (l : List α) :
    (stableInsert lt x l).filter p = l.filter p := by
  induction l with
  | nil => simp [stableInsert, hx]
  | cons y ys ih =>
      by_cases h : lt y x
      · simp only [stableInsert, if_pos h, List.filter_cons, ih]
      · simp [stableInsert, if_neg h, List.filter_cons, hx]

theorem stableInsert_filter_pos {α : Type} (lt : α → α → Bool)
    (p : α → Bool) (x : α) (hx : p x = true)
    (h : ∀ y, lt y x = true → p y = false) (l : List α) :
    (stableInsert lt x l).filter p = x :: l.filter p := by
  induction l with
  | nil => simp [stableInsert, hx]
  | cons y ys ih =>
      by_cases hy : lt y x
      · have hpy : p y = false := h y hy
        simp [stableInsert, if_pos hy, List.filter_cons, hpy, ih]
      · simp [stableInsert, if_neg hy, List.filter_cons, hx]

/-- Stability: for any set of mutually-untied-below elements (in
particular any class of equal keys), the sort keeps their input
order. -/
theorem stableSort_stable {α : Type} (lt : α → α → Bool) (p : α → Bool)
    (hp : ∀ a b, p a = true → p b = true → lt a b = false) (l : List α) :
    (stableSort lt l).filter p = l.filter p := by
  induction l with
  | nil => rfl
  | cons x xs ih =>
      by_cases hx : p x
      · have hskip : ∀ y, lt y x = true → p y = false := by
          intro y hy
          cases hpc : p y with
          | false => rfl
          | true =>
              rw [hp y x hpc hx] at hy
              exact absurd hy (by simp)
        rw [show stableSort lt (x :: xs) =
              stableInsert lt x (stableSort lt xs) from rfl,
          stableInsert_filter_pos lt p x hx hskip, ih]
        simp [List.filter_cons, hx]
      · rw [show stableSort lt (x :: xs) =
              stableInsert lt x (stableSort lt xs) from rfl,
          stableInsert_filter_neg lt p x (Bool.eq_false_iff.mpr hx), ih]
        simp [List.filter_cons, Bool.eq_false_iff.mpr hx]

theorem stableInsert_pairwise {α : Type} (lt : α → α → Bool)
    (hasym : ∀ a b, lt a b = true → lt b a = false)
    (hnegtrans : ∀ a b c, lt b a = false → lt c b = false →
      lt c a = false)
    (x : α) (l : List α)
    (hl : l.Pairwise (fun a b => lt b a = false)) :
    (stableInsert lt x l).Pairwise (fun a b => lt b a = false) := by
  induction l with
  | nil => simp [stableInsert]
  | cons y ys ih =>
      rcases List.pairwise_cons.mp hl with ⟨hy, hys⟩
      by_cases h : lt y x
      · simp only [stableInsert, if_pos h]
        refine List.pairwise_cons.mpr ⟨?_, ih hys⟩
        intro z hz
        have hz' : z ∈ x :: ys :=
          (stableInsert_perm lt x ys).mem_iff.mp hz
        rcases List.mem_cons.mp hz' with rfl | hzys
        · exact hasym y z h
        · exact hy z hzys
      · simp only [stableInsert, if_neg h]
        refine List.pairwise_cons.mpr ⟨?_, hl⟩
        intro z hz
        rcases List.mem_cons.mp hz with rfl | hzys
        · exact Bool.eq_false_iff.mpr h
        · exact hnegtrans x y z (Bool.eq_false_iff.mpr h) (hy z hzys)

/-- Sortedness: for an asymmetric comparator whose complement is
transitive (a strict weak order, as the idx comparator is), no element
of the sorted output is strictly less than an earlier one. -/
theorem stableSort_pairwise {α : Type} (lt : α → α → Bool)
    (hasym : ∀ a b, lt a b = true → lt b a = false)
    (hnegtrans : ∀ a b c, lt b a = false → lt c b = false →
      lt c a = false) (l : List α) :
    (stableSort lt l).Pairwise (fun a b => lt b a = false) := by
  induction l with
  | nil => simp [stableSort]
  | cons x xs ih => exact stableInsert_pairwise lt hasym hnegtrans x _ ih

theorem idxLt_asymm (a b : String) (h : idxLt a b = true) :
    idxLt b a = false := by
  simp [idxLt] at h ⊢
  omega

theorem idxLt_negtrans (a b c : String) (h1 : idxLt b a = false)
    (h2 : idxLt c b = false) : idxLt c a = false := by
  simp [idxLt] at h1 h2 ⊢
  omega

/-- The sorted part of `sort_by_idx`, instantiated at the idx
comparator: the output is sorted by the parsed numeric key. -/
theorem sort_by_idx_sorted {α : Type} (items : List (α × String)) :
    (stableSort (fun (a b : α × String) => idxLt a.2 b.2) items).Pairwise
      (fun a b => idxLt b.2 a.2 = false) :=
  stableSort_pairwise _ (fun a b h => idxLt_asymm a.2 b.2 h)
    (fun a b c h1 h2 => idxLt_negtrans a.2 b.2 c.2 h1 h2) items

/-- Tied idx keys come out of `sort_by_idx` in input order, as from
Rust's stable `slice::sort_by`. -/
theorem sort_by_idx_ties_keep_order :
    sort_by_idx [((1 : Nat), "0-0"), (2, "0-0"), (3, "0-0")] =
      [1, 2, 3] := by
  decide

end SolTx

namespace SolTx

/-! ## C7: binary-reader overflow behaviour -/

/-- C7 counterexample: the claim states that after any failed read the
cursor offset is unchanged, "in particular … for the length-prefixed
UTF-8 string read when the prefix is readable but the body exceeds the
remaining bytes".  On the buffer `[5,0,0,0]` at offset 0 the prefix reads
5 but no body bytes remain: the call fails with `Overflow{5, 4, 4}` and
leaves the cursor at 4, not at the original 0. -/
theorem read_string_overflow_moves_cursor :
    BinaryReader.read_string_u32_len ⟨[5, 0, 0, 0], 0⟩ =
      (Except.error (BinaryReaderError.Overflow 5 4 4), ⟨[5, 0, 0, 0], 4⟩) ∧
    (4 : Nat) ≠ 0 := by
  constructor
  · rfl
  · decide

/-- C7 (amended): every fixed-size reader operation (fixed slice, u8,
u16, u32, u64, i64, 32-byte address) fails with
`Overflow{requested, offset, length}` when the remaining byte count is
insufficient and leaves the cursor unchanged; the length-prefixed string
read does so too when the 4-byte prefix itself is unreadable, but when
the prefix is readable and the body exceeds the remaining bytes it fails
with `Overflow{requested = body length, offset = position after the
prefix, length}` and leaves the cursor positioned after the prefix. -/
theorem binary_reader_overflow (data : List Nat) (offset : Nat) :
    (∀ n, offset + n > data.length →
      BinaryReader.read_fixed_array ⟨data, offset⟩ n =
        (Except.error (BinaryReaderError.Overflow n offset data.length),
         ⟨data, offset⟩)) ∧
    (offset + 1 > data.length →
      BinaryReader.read_u8 ⟨data, offset⟩ =
        (Except.error (BinaryReaderError.Overflow 1 offset data.length),
         ⟨data, offset⟩)) ∧
    (offset + 2 > data.length →
      BinaryReader.read_u16_le ⟨data, offset⟩ =
        (Except.error (BinaryReaderError.Overflow 2 offset data.length),
         ⟨data, offset⟩)) ∧
    (offset + 4 > data.length →
      BinaryReader.read_u32_le ⟨data, offset⟩ =
        (Except.error (BinaryReaderError.Overflow 4 offset data.length),
         ⟨data, offset⟩)) ∧
    (offset + 8 > data.length →
      BinaryReader.read_u64_le ⟨data, offset⟩ =
        (Except.error (BinaryReaderError.Overflow 8 offset data.length),
         ⟨data, offset⟩)) ∧
    (offset + 8 > data.length →
      BinaryReader.read_i64_le ⟨data, offset⟩ =
        (Except.error (BinaryReaderError.Overflow 8 offset data.length),
         ⟨data, offset⟩)) ∧
    (offset + 32 > data.length →
      BinaryReader.read_pubkey ⟨data, offset⟩ =
        (Except.error (BinaryReaderError.Overflow 32 offset data.length),
         ⟨data, offset⟩)) ∧
    (offset + 4 > data.length →
      BinaryReader.read_string_u32_len ⟨data, offset⟩ =
        (Except.error (BinaryReaderError.Overflow 4 offset data.length),
         ⟨data, offset⟩)) ∧
    (∀ len, offset + 4 ≤ data.length →
      len = leNat ((data.drop offset).take 4) →
      offset + 4 + len > data.length →
      BinaryReader.read_string_u32_len ⟨data, offset⟩ =
        (Except.error (BinaryReaderError.Overflow len (offset + 4) data.length),
         ⟨data, offset + 4⟩)) := by
  refine ⟨?_, ?_, ?_, ?_, ?_, ?_, ?_, ?_, ?_⟩
  · intro n h
    simp [BinaryReader.read_fixed_array, BinaryReader.check_bounds, h]
  · intro h
    simp [BinaryReader.read_u8, BinaryReader.check_bounds, h]
  · intro h
    simp [BinaryReader.read_u16_le, BinaryReader.check_bounds, h]
  · intro h
    simp [BinaryReader.read_u32_le, BinaryReader.check_bounds, h]
  · intro h
    simp [BinaryReader.read_u64_le, BinaryReader.check_bounds, h]
  · intro h
    simp [BinaryReader.read_i64_le, BinaryReader.check_bounds, h]
  · intro h
    simp [BinaryReader.read_pubkey, BinaryReader.read_fixed_array,
      BinaryReader.check_bounds, h]
  · intro h
    simp [BinaryReader.read_string_u32_len, BinaryReader.read_u32_le,
      BinaryReader.check_bounds, h]
  · intro len h4 hlen hbody
    have h4' : ¬ offset + 4 > data.length := by omega
    simp [BinaryReader.read_string_u32_len, BinaryReader.read_u32_le,
      BinaryReader.check_bounds, h4', ← hlen, hbody]

/-- C7 witness: the amended theorem applied at concrete inputs — an empty
buffer for `read_u8`, and a buffer whose string body is one byte short. -/
theorem binary_reader_overflow_witness :
    BinaryReader.read_u8 ⟨[], 0⟩ =
      (Except.error (BinaryReaderError.Overflow 1 0 0), ⟨[], 0⟩) ∧
    BinaryReader.read_string_u32_len ⟨[2, 0, 0, 0, 9], 0⟩ =
      (Except.error (BinaryReaderError.Overflow 2 4 5), ⟨[2, 0, 0, 0, 9], 4⟩) := by
  constructor
  · exact (binary_reader_overflow [] 0).2.1 (by decide)
  · exact (binary_reader_overflow [2, 0, 0, 0, 9] 0).2.2.2.2.2.2.2.2 2
      (by decide) (by decide) (by decide)

end SolTx

namespace SolTx

/-! ## C2: swap-reconciliation unique-mint invariants -/

theorem uniqueMints_step_nodup (skip_native : Bool)
    (l : List TransferData) :
    ∀ acc : List String, acc.Nodup →
      (l.foldl
        (fun uniq t =>
          if skip_native && t.info.mint = tokens.NATIVE then uniq
          else if uniq.contains t.info.mint then uniq
          else uniq ++ [t.info.mint]) acc).Nodup := by
  induction l with
  | nil => intro acc h; exact h
  | cons t ts ih =>
      intro acc h
      simp only [List.foldl_cons]
      by_cases h1 : skip_native && t.info.mint = tokens.NATIVE
      · simpa [h1] using ih acc h
      · by_cases h2 : acc.contains t.info.mint
        · have h2' : t.info.mint ∈ acc := by simpa using h2
          simpa [h1, h2'] using ih acc h
        · have hmem : t.info.mint ∉ acc := by
            simpa using h2
          have : (acc ++ [t.info.mint]).Nodup := by
            simp [List.nodup_append, h, hmem]
          simpa [h1, hmem] using ih _ this

theorem uniqueMints_nodup (transfers : List TransferData)
    (skip_native : Bool) :
    (TransactionUtils.uniqueMints transfers skip_native).Nodup :=
  uniqueMints_step_nodup skip_native transfers [] List.nodup_nil

theorem uniqueMints_step_subset (skip_native : Bool)
    (l : List TransferData) :
    ∀ (acc : List String) (x : String),
      x ∈ l.foldl
        (fun uniq t =>
          if skip_native && t.info.mint = tokens.NATIVE then uniq
          else if uniq.contains t.info.mint then uniq
          else uniq ++ [t.info.mint]) acc →
      x ∈ acc ∨ ∃ t ∈ l, t.info.mint = x := by
  induction l with
  | nil => intro acc x h; exact Or.inl h
  | cons t ts ih =>
      intro acc x h
      simp only [List.foldl_cons] at h
      by_cases h1 : skip_native && t.info.mint = tokens.NATIVE
      · rw [if_pos h1] at h
        rcases ih acc x h with h' | ⟨u, hu, hx⟩
        · exact Or.inl h'
        · exact Or.inr ⟨u, List.mem_cons_of_mem _ hu, hx⟩
      · rw [if_neg h1] at h
        by_cases h2 : acc.contains t.info.mint
        · rw [if_pos h2] at h
          rcases ih acc x h with h' | ⟨u, hu, hx⟩
          · exact Or.inl h'
          · exact Or.inr ⟨u, List.mem_cons_of_mem _ hu, hx⟩
        · rw [if_neg h2] at h
          rcases ih _ x h with h' | ⟨u, hu, hx⟩
          · rcases List.mem_append.mp h' with h'' | h''
            · exact Or.inl h''
            · exact Or.inr ⟨t, List.mem_cons_self _ _, (List.mem_singleton.mp h'').symm⟩
          · exact Or.inr ⟨u, List.mem_cons_of_mem _ hu, hx⟩

theorem uniqueMints_subset (transfers : List TransferData)
    (skip_native : Bool) (x : String)
    (hx : x ∈ TransactionUtils.uniqueMints transfers skip_native) :
    ∃ t ∈ transfers, t.info.mint = x := by
  rcases uniqueMints_step_subset skip_native transfers [] x hx with h | h
  · cases h
  · exact h

theorem getLast?_eq_getD {α : Type} (d : α) :
    ∀ l : List α, l ≠ [] → l.getLast? = some (l.getD (l.length - 1) d) := by
  intro l
  induction l with
  | nil => intro h; cases h rfl
  | cons x xs ih =>
      intro _
      cases hxs : xs with
      | nil => simp
      | cons y ys =>
          have hys := ih (by simp [hxs])
          rw [hxs] at hys
          rw [List.getLast?_cons_cons, hys]
          simp [List.getD_cons_succ]

theorem getD_mem_of_lt {α : Type} :
    ∀ (l : List α) (n : Nat) (d : α), n < l.length → l.getD n d ∈ l := by
  intro l
  induction l with
  | nil => intro n d h; simp at h
  | cons x xs ih =>
      intro n d h
      cases n with
      | zero => simp
      | succ m =>
          simp only [List.getD_cons_succ]
          exact List.mem_cons_of_mem _ (ih m d (by simpa using h))

theorem nodup_getD_zero_ne_last {α : Type} (l : List α) (d : α)
    (hnd : l.Nodup) (hl : 2 ≤ l.length) :
    l.getD 0 d ≠ l.getD (l.length - 1) d := by
  cases l with
  | nil => simp at hl
  | cons x xs =>
      cases xs with
      | nil => simp at hl
      | cons y ys =>
          have hx : x ∉ y :: ys := (List.nodup_cons.mp hnd).1
          have hlen : (y :: ys).length - 1 < (y :: ys).length := by
            simp
          have hmem : (y :: ys).getD ((y :: ys).length - 1) d ∈ y :: ys :=
            getD_mem_of_lt _ _ d hlen
          intro heq
          apply hx
          have hx0 : (x :: y :: ys).getD 0 d = x := rfl
          have hlast : (x :: y :: ys).getD ((x :: y :: ys).length - 1) d =
              (y :: ys).getD ((y :: ys).length - 1) d := by
            simp [List.getD_cons_succ]
          rw [hx0, hlast] at heq
          rw [heq]
          exact hmem
          
end SolTx

namespace SolTx

/-- C2: swap reconciliation produces no trade when fewer than two unique
mints remain (after the optional native-placeholder exclusion), and any
produced trade has the first unique mint as input mint, the last unique
mint as output mint, the two distinct, and both occurring among the
transfers' mints. -/
theorem process_swap_data_unique_mints (a : TransactionAdapter)
    (transfers : List TransferData) (dex_info : DexInfo)
    (skip_native : Bool) :
    ((TransactionUtils.uniqueMints transfers skip_native).length < 2 →
      TransactionUtils.process_swap_data a transfers dex_info skip_native = none) ∧
    (∀ tr,
      TransactionUtils.process_swap_data a transfers dex_info skip_native = some tr →
      (TransactionUtils.uniqueMints transfers skip_native).head? =
        some tr.input_token.mint ∧
      (TransactionUtils.uniqueMints transfers skip_native).getLast? =
        some tr.output_token.mint ∧
      tr.input_token.mint ≠ tr.output_token.mint ∧
      (∃ t ∈ transfers, t.info.mint = tr.input_token.mint) ∧
      (∃ t ∈ transfers, t.info.mint = tr.output_token.mint)) := by
  constructor
  · intro hu
    unfold TransactionUtils.process_swap_data
    by_cases hlen : transfers.length < 2
    · simp [hlen]
    · simp [hlen, hu]
  · intro tr h
    unfold TransactionUtils.process_swap_data at h
    by_cases hlen : transfers.length < 2
    · simp [hlen] at h
    · rw [if_neg hlen] at h
      simp only [] at h
      by_cases hu : (TransactionUtils.uniqueMints transfers skip_native).length < 2
      · simp [hu] at h
      · rw [if_neg hu] at h
        simp only [TransactionUtils.sum_token_amounts] at h
        set u := TransactionUtils.uniqueMints transfers skip_native with hu_def
        have hne : u ≠ [] := by
          intro habs
          rw [habs] at hu
          simp at hu
        have hlen2 : 2 ≤ u.length := by omega
        have h0lt : 0 < u.length := by omega
        have hlast_lt : u.length - 1 < u.length := by omega
        have hin : tr.input_token.mint = u.getD 0 "" ∧
            tr.output_token.mint = u.getD (u.length - 1) "" := by
          cases hfee :
            (transfers.foldl
              (fun (st : Nat × Nat × Option TransferData × List String) t =>
                let input_raw := st.1
                let output_raw := st.2.1
                let fee_transfer := st.2.2.1
                let seen := st.2.2.2
                let dest_owner := (t.info.destination_owner).getD ""
                if FEE_ACCOUNTS.contains t.info.destination ||
                    FEE_ACCOUNTS.contains dest_owner then
                  (input_raw, output_raw, some t, seen)
                else
                  let key := t.info.token_amount.amount ++ "-" ++ t.info.mint
                  if seen.contains key then (input_raw, output_raw, fee_transfer, seen)
                  else
                    let amount := parseU128OrZero t.info.token_amount.amount
                    let input_raw' :=
                      if t.info.mint = u.getD 0 "" then (input_raw + amount) % 2 ^ 128
                      else input_raw
                    let output_raw' :=
                      if t.info.mint = u.getD (u.length - 1) "" then
                        (output_raw + amount) % 2 ^ 128
                      else output_raw
                    (input_raw', output_raw', fee_transfer, seen ++ [key]))
              (0, 0, none, [])).2.2.1 with
          | none =>
              rw [hfee] at h
              simp only [Option.some.injEq] at h
              subst h
              exact ⟨rfl, rfl⟩
          | some ft =>
              rw [hfee] at h
              simp only [Option.some.injEq] at h
              subst h
              exact ⟨rfl, rfl⟩
        obtain ⟨hin1, hin2⟩ := hin
        refine ⟨?_, ?_, ?_, ?_, ?_⟩
        · rw [hin1]
          cases hu' : u with
          | nil => exact absurd hu' hne
          | cons x xs => simp
        · rw [hin2]
          exact getLast?_eq_getD "" u hne
        · rw [hin1, hin2]
          exact nodup_getD_zero_ne_last u "" (uniqueMints_nodup transfers skip_native) hlen2
        · rw [hin1]
          exact uniqueMints_subset transfers skip_native _ (getD_mem_of_lt u 0 "" h0lt)
        · rw [hin2]
          exact uniqueMints_subset transfers skip_native _
            (getD_mem_of_lt u (u.length - 1) "" hlast_lt)

end SolTx

namespace SolTx

/-! Shared concrete inputs for witnesses and counterexamples. -/

/-- An adapter over the empty transaction (swap reconciliation reads only
registry data and defaults from it). -/
def dummyAdapter : TransactionAdapter :=
  TransactionAdapter.new { slot := 0, account_keys := [], instructions := [] } none

/-- A minimal transfer record with the given mint, raw amount, idx and
destination. -/
def sampleTransfer (mint amt idx dest : String) : TransferData :=
  { transfer_type := "transfer"
    program_id := TOKEN_PROGRAM_ID
    info :=
      { authority := none, destination := dest, destination_owner := none
        mint := mint, source := "SRC"
        token_amount := { amount := amt, ui_amount := some 0, decimals := 2 }
        source_balance := none, source_pre_balance := none
        destination_balance := none, destination_pre_balance := none }
    idx := idx, timestamp := 0, signature := "", is_fee := none }

/-- The trade reconciled from the two-transfer list used in the C2
witness. -/
def tradeC2 : TradeInfo :=
  { user := ""
    trade_type := TradeType.Sell
    pool := []
    input_token :=
      { mint := "AAA", amount := UiAmt.ofNat 5, amount_raw := "5", decimals := 0
        authority := none, destination := none, destination_owner := none
        source := none }
    output_token :=
      { mint := "BBB", amount := UiAmt.ofNat 6, amount_raw := "6", decimals := 0
        authority := none, destination := none, destination_owner := none
        source := none }
    slippage_bps := none, fee := none, fees := none
    program_id := none, amm := none, amms := none, route := none
    slot := 0, timestamp := 0, signature := "", idx := "0-0"
    signer := some [] }

/-- C2 witness: the theorem applied to a one-transfer list (no trade) and
to a concrete two-mint transfer list, whose trade is `tradeC2`. -/
theorem process_swap_data_unique_mints_witness :
    TransactionUtils.process_swap_data dummyAdapter
      [sampleTransfer "AAA" "5" "0-0" "D1"] {} true = none ∧
    TransactionUtils.process_swap_data dummyAdapter
      [sampleTransfer "AAA" "5" "0-0" "D1", sampleTransfer "BBB" "6" "0-1" "D2"]
      {} true = some tradeC2 ∧
    (TransactionUtils.uniqueMints
      [sampleTransfer "AAA" "5" "0-0" "D1", sampleTransfer "BBB" "6" "0-1" "D2"]
      true).head? = some tradeC2.input_token.mint ∧
    (TransactionUtils.uniqueMints
      [sampleTransfer "AAA" "5" "0-0" "D1", sampleTransfer "BBB" "6" "0-1" "D2"]
      true).getLast? = some tradeC2.output_token.mint ∧
    tradeC2.input_token.mint ≠ tradeC2.output_token.mint := by
  have h1 := (process_swap_data_unique_mints dummyAdapter
    [sampleTransfer "AAA" "5" "0-0" "D1"] {} true).1 (by decide)
  have hres : TransactionUtils.process_swap_data dummyAdapter
      [sampleTransfer "AAA" "5" "0-0" "D1", sampleTransfer "BBB" "6" "0-1" "D2"]
      {} true = some tradeC2 := by decide
  have h2 := (process_swap_data_unique_mints dummyAdapter
    [sampleTransfer "AAA" "5" "0-0" "D1", sampleTransfer "BBB" "6" "0-1" "D2"]
    {} true).2 tradeC2 hres
  exact ⟨h1, hres, h2.1, h2.2.1, h2.2.2.1⟩

end SolTx

namespace SolTx

/-! ## C3: amount summation — fee exclusion and `(amountRaw, mint)` dedup -/

/-- A transfer whose destination account or destination owner is a
fee recipient (the test inside `sum_token_amounts`). -/
def isFeeDest (t : TransferData) : Bool :=
  FEE_ACCOUNTS.contains t.info.destination ||
  FEE_ACCOUNTS.contains ((t.info.destination_owner).getD "")

/-- First-occurrence deduplication by the `(raw amount, mint)` pair,
relative to the already-seen pairs. -/
def dedupPairFirst : List TransferData → List (String × String) →
    List TransferData
  | [], _ => []
  | t :: ts, seen =>
      let p := (t.info.token_amount.amount, t.info.mint)
      if seen.contains p then dedupPairFirst ts seen
      else t :: dedupPairFirst ts (seen ++ [p])

/-- Sum of the raw amounts of the transfers with the given mint. -/
def sumMatching (l : List TransferData) (m : String) : Nat :=
  (l.map (fun t =>
    if t.info.mint = m then parseU128OrZero t.info.token_amount.amount
    else 0)).sum

/-- The string key `"<amount>-<mint>"` of a pair. -/
def pairKey (p : String × String) : String := p.1 ++ "-" ++ p.2

theorem append_dash_inj (a : List Char) :
    ∀ (b m1 m2 : List Char), '-' ∉ a → '-' ∉ b →
      a ++ '-' :: m1 = b ++ '-' :: m2 → a = b ∧ m1 = m2 := by
  induction a with
  | nil =>
      intro b m1 m2 _ hb h
      cases b with
      | nil => simpa using h
      | cons b0 bs =>
          simp only [List.nil_append, List.cons_append, List.cons.injEq] at h
          have hmem : ('-' : Char) ∈ b0 :: bs := by
            rw [h.1]
            exact List.mem_cons_self b0 bs
          exact absurd hmem hb
  | cons a0 as ih =>
      intro b m1 m2 ha hb h
      cases b with
      | nil =>
          simp only [List.cons_append, List.nil_append, List.cons.injEq] at h
          have hmem : ('-' : Char) ∈ a0 :: as := by
            rw [← h.1]
            exact List.mem_cons_self a0 as
          exact absurd hmem ha
      | cons b0 bs =>
          simp only [List.cons_append, List.cons.injEq] at h
          obtain ⟨h0, h1⟩ := h
          have := ih bs m1 m2 (by simp at ha; exact ha.2) (by simp at hb; exact hb.2) h1
          exact ⟨by rw [h0, this.1], this.2⟩

theorem pairKey_inj (p q : String × String) (hp : '-' ∉ p.1.data)
    (hq : '-' ∉ q.1.data) (h : pairKey p = pairKey q) : p = q := by
  obtain ⟨⟨s1⟩, ⟨m1⟩⟩ := p
  obtain ⟨⟨s2⟩, ⟨m2⟩⟩ := q
  simp only [pairKey] at h
  have hdata : s1 ++ '-' :: m1 = s2 ++ '-' :: m2 := by
    have := congrArg String.data h
    simpa [String.data_append] using this
  have := append_dash_inj s1 s2 m1 m2 hp hq hdata
  simp [this.1, this.2]

theorem mem_map_pairKey (seen : List (String × String)) (p : String × String)
    (hp : '-' ∉ p.1.data) (hseen : ∀ q ∈ seen, '-' ∉ q.1.data) :
    (pairKey p ∈ seen.map pairKey) ↔ p ∈ seen := by
  constructor
  · intro h
    obtain ⟨q, hq, hkey⟩ := List.mem_map.mp h
    exact (pairKey_inj q p (hseen q hq) hp hkey) ▸ hq
  · intro h
    exact List.mem_map.mpr ⟨p, h, rfl⟩

end SolTx

namespace SolTx

theorem getLast?_cons_or {α : Type} (a : α) (l : List α) :
    (a :: l).getLast? = l.getLast?.or (some a) := by
  induction l generalizing a with
  | nil => simp
  | cons b bs ih =>
      rw [List.getLast?_cons_cons, ih b, Option.or_assoc]
      simp

theorem sum_fold_spec (im om : String) (l : List TransferData) :
    ∀ (in0 out0 : Nat) (fee0 : Option TransferData)
      (seenP : List (String × String)),
    (∀ t ∈ l, '-' ∉ t.info.token_amount.amount.data) →
    (∀ q ∈ seenP, '-' ∉ q.1.data) →
    in0 < 2 ^ 128 → out0 < 2 ^ 128 →
    l.foldl
      (fun (st : Nat × Nat × Option TransferData × List String) t =>
        let input_raw := st.1
        let output_raw := st.2.1
        let fee_transfer := st.2.2.1
        let seen := st.2.2.2
        let dest_owner := (t.info.destination_owner).getD ""
        if FEE_ACCOUNTS.contains t.info.destination ||
            FEE_ACCOUNTS.contains dest_owner then
          (input_raw, output_raw, some t, seen)
        else
          let key := t.info.token_amount.amount ++ "-" ++ t.info.mint
          if seen.contains key then (input_raw, output_raw, fee_transfer, seen)
          else
            let amount := parseU128OrZero t.info.token_amount.amount
            let input_raw' :=
              if t.info.mint = im then (input_raw + amount) % 2 ^ 128
              else input_raw
            let output_raw' :=
              if t.info.mint = om then (output_raw + amount) % 2 ^ 128
              else output_raw
            (input_raw', output_raw', fee_transfer, seen ++ [key]))
      (in0, out0, fee0, seenP.map pairKey) =
    ((in0 + sumMatching (dedupPairFirst (l.filter (fun t => !isFeeDest t)) seenP) im) % 2 ^ 128,
     (out0 + sumMatching (dedupPairFirst (l.filter (fun t => !isFeeDest t)) seenP) om) % 2 ^ 128,
     ((l.filter isFeeDest).getLast?).or fee0,
     (seenP ++ (dedupPairFirst (l.filter (fun t => !isFeeDest t)) seenP).map
        (fun t => (t.info.token_amount.amount, t.info.mint))).map pairKey) := by
  induction l with
  | nil =>
      intro in0 out0 fee0 seenP hnd hseen hin hout
      simp only [List.foldl_nil, List.filter_nil, dedupPairFirst, sumMatching,
        List.map_nil, List.sum_nil, Nat.add_zero, List.getLast?_nil,
        Option.none_or, List.append_nil]
      rw [Nat.mod_eq_of_lt hin, Nat.mod_eq_of_lt hout]
  | cons t ts ih =>
      intro in0 out0 fee0 seenP hnd hseen hin hout
      have hndt : '-' ∉ t.info.token_amount.amount.data :=
        hnd t (List.mem_cons_self _ _)
      have hndts : ∀ u ∈ ts, '-' ∉ u.info.token_amount.amount.data :=
        fun u hu => hnd u (List.mem_cons_of_mem _ hu)
      simp only [List.foldl_cons]
      by_cases hf : isFeeDest t
      · have hf' : (FEE_ACCOUNTS.contains t.info.destination ||
            FEE_ACCOUNTS.contains ((t.info.destination_owner).getD "")) = true := by
          simpa [isFeeDest] using hf
        rw [show (t.info.destination_owner).getD "" =
          (t.info.destination_owner).getD "" from rfl]
        simp only [hf', if_true]
        rw [ih in0 out0 (some t) seenP hndts hseen hin hout]
        have hfilter : (t :: ts).filter (fun u => !isFeeDest u) =
            ts.filter (fun u => !isFeeDest u) := by
          simp [List.filter, hf]
        have hfilter2 : (t :: ts).filter isFeeDest = t :: ts.filter isFeeDest := by
          simp [List.filter, hf]
        rw [hfilter, hfilter2, getLast?_cons_or, Option.or_assoc]
        have : (some t).or fee0 = some t := by simp
        rw [this]
      · have hf' : (FEE_ACCOUNTS.contains t.info.destination ||
            FEE_ACCOUNTS.contains ((t.info.destination_owner).getD "")) = false := by
          simpa [isFeeDest] using hf
        simp only [hf', if_false, Bool.false_eq_true]
        have hfilter : (t :: ts).filter (fun u => !isFeeDest u) =
            t :: ts.filter (fun u => !isFeeDest u) := by
          simp [List.filter, hf]
        have hfilter2 : (t :: ts).filter isFeeDest = ts.filter isFeeDest := by
          simp [List.filter, hf]
        have hkey : t.info.token_amount.amount ++ "-" ++ t.info.mint =
            pairKey (t.info.token_amount.amount, t.info.mint) := rfl
        by_cases hk : (t.info.token_amount.amount, t.info.mint) ∈ seenP
        · have hmem : ((seenP.map pairKey).contains
              (t.info.token_amount.amount ++ "-" ++ t.info.mint)) = true := by
            rw [hkey]
            simp only [List.elem_iff]
            exact (mem_map_pairKey seenP _ hndt hseen).mpr hk
          simp only [hmem, if_true]
          rw [ih in0 out0 fee0 seenP hndts hseen hin hout]
          have hded : dedupPairFirst ((t :: ts).filter (fun u => !isFeeDest u)) seenP =
              dedupPairFirst (ts.filter (fun u => !isFeeDest u)) seenP := by
            rw [hfilter]
            simp [dedupPairFirst, List.elem_iff, hk]
          rw [hded, hfilter2]
        · have hnotmem : pairKey (t.info.token_amount.amount, t.info.mint) ∉
              seenP.map pairKey :=
            fun habs => hk ((mem_map_pairKey seenP _ hndt hseen).mp habs)
          have hmem : ((seenP.map pairKey).contains
              (t.info.token_amount.amount ++ "-" ++ t.info.mint)) = false := by
            rw [hkey]
            simpa using hnotmem
          simp only [hmem, if_false, Bool.false_eq_true]
          have hseen' : ∀ q ∈ seenP ++ [(t.info.token_amount.amount, t.info.mint)],
              '-' ∉ q.1.data := by
            intro q hq
            rcases List.mem_append.mp hq with h | h
            · exact hseen q h
            · rw [List.mem_singleton.mp h]
              exact hndt
          have hin' : (if t.info.mint = im then
              (in0 + parseU128OrZero t.info.token_amount.amount) % 2 ^ 128
              else in0) < 2 ^ 128 := by
            by_cases him : t.info.mint = im
            · simp only [him, if_true]
              exact Nat.mod_lt _ (by norm_num)
            · simpa [him] using hin
          have hout' : (if t.info.mint = om then
              (out0 + parseU128OrZero t.info.token_amount.amount) % 2 ^ 128
              else out0) < 2 ^ 128 := by
            by_cases hom : t.info.mint = om
            · simp only [hom, if_true]
              exact Nat.mod_lt _ (by norm_num)
            · simpa [hom] using hout
          have hmapseen : (seenP.map pairKey) ++
              [t.info.token_amount.amount ++ "-" ++ t.info.mint] =
              (seenP ++ [(t.info.token_amount.amount, t.info.mint)]).map pairKey := by
            simp [pairKey]
          rw [hmapseen]
          rw [ih _ _ fee0 (seenP ++ [(t.info.token_amount.amount, t.info.mint)])
            hndts hseen' hin' hout']
          have hded : dedupPairFirst ((t :: ts).filter (fun u => !isFeeDest u)) seenP =
              t :: dedupPairFirst (ts.filter (fun u => !isFeeDest u))
                (seenP ++ [(t.info.token_amount.amount, t.info.mint)]) := by
            rw [hfilter]
            simp [dedupPairFirst, List.elem_iff, hk]
          rw [hded, hfilter2]
          have hsum_cons : ∀ m : String,
              sumMatching (t :: dedupPairFirst (ts.filter (fun u => !isFeeDest u))
                (seenP ++ [(t.info.token_amount.amount, t.info.mint)])) m =
              (if t.info.mint = m then parseU128OrZero t.info.token_amount.amount
               else 0) +
              sumMatching (dedupPairFirst (ts.filter (fun u => !isFeeDest u))
                (seenP ++ [(t.info.token_amount.amount, t.info.mint)])) m := by
            intro m
            simp [sumMatching]
          rw [hsum_cons im, hsum_cons om]
          refine congrArg₂ _ ?_ (congrArg₂ _ ?_ (congrArg₂ _ rfl ?_))
          · by_cases him : t.info.mint = im
            · simp only [him, if_true]
              rw [Nat.mod_add_mod, Nat.add_assoc]
            · simp [him]
          · by_cases hom : t.info.mint = om
            · simp only [hom, if_true]
              rw [Nat.mod_add_mod, Nat.add_assoc]
            · simp [hom]
          · simp [List.append_assoc]

end SolTx

namespace SolTx

/-- C3 (amended): in `sum_token_amounts`, every fee-recipient transfer is
excluded from the sums and the *last* such transfer is the one recorded
as the fee; the remaining transfers are summed with `(raw amount, mint)`
duplicates counted once, in 128-bit arithmetic.  The hypothesis pins the
raw amount strings as dash-free (they are decimal renderings of `u64`
values in every record the transfer index produces), which makes the
source's string key `"<amount>-<mint>"` faithful to the pair. -/
theorem sum_token_amounts_fee_dedup (a : TransactionAdapter)
    (transfers : List TransferData) (im om s : String)
    (hnd : ∀ t ∈ transfers, '-' ∉ t.info.token_amount.amount.data) :
    TransactionUtils.sum_token_amounts a transfers im om s =
      some (im, om,
        sumMatching (dedupPairFirst
          (transfers.filter (fun t => !isFeeDest t)) []) im % 2 ^ 128,
        sumMatching (dedupPairFirst
          (transfers.filter (fun t => !isFeeDest t)) []) om % 2 ^ 128,
        (transfers.filter isFeeDest).getLast?) := by
  unfold TransactionUtils.sum_token_amounts
  have h := sum_fold_spec im om transfers 0 0 none [] hnd (by simp)
    (by norm_num) (by norm_num)
  simp only [List.map_nil] at h
  rw [h]
  simp

/-- C3 counterexample: with two fee-recipient transfers in the list, only
the second is recorded as the fee, so the claim that *every* fee-recipient
transfer "is recorded as the trade's fee" fails at the first one (both are
still excluded from the sums). -/
theorem sum_token_amounts_two_fees_cex :
    isFeeDest (sampleTransfer "AAA" "5" "0-0"
      "96gYZGLnJYVFmbjzopPSU6QiEV5fGqZNyN9nmNhvrZU5") = true ∧
    TransactionUtils.sum_token_amounts dummyAdapter
      [sampleTransfer "AAA" "5" "0-0"
        "96gYZGLnJYVFmbjzopPSU6QiEV5fGqZNyN9nmNhvrZU5",
       sampleTransfer "BBB" "6" "0-1"
        "96gYZGLnJYVFmbjzopPSU6QiEV5fGqZNyN9nmNhvrZU5"]
      "AAA" "BBB" "" =
      some ("AAA", "BBB", 0, 0,
        some (sampleTransfer "BBB" "6" "0-1"
          "96gYZGLnJYVFmbjzopPSU6QiEV5fGqZNyN9nmNhvrZU5")) ∧
    some (sampleTransfer "BBB" "6" "0-1"
        "96gYZGLnJYVFmbjzopPSU6QiEV5fGqZNyN9nmNhvrZU5") ≠
      some (sampleTransfer "AAA" "5" "0-0"
        "96gYZGLnJYVFmbjzopPSU6QiEV5fGqZNyN9nmNhvrZU5") := by
  refine ⟨by decide, by decide, by decide⟩

/-- C3 witness: the amended theorem at a concrete list — a duplicated
`(amount, mint)` pair counted once, a fee transfer excluded from the sums
and recorded as the fee. -/
theorem sum_token_amounts_fee_dedup_witness :
    TransactionUtils.sum_token_amounts dummyAdapter
      [sampleTransfer "AAA" "5" "0-0" "D1",
       sampleTransfer "AAA" "5" "0-1" "D2",
       sampleTransfer "BBB" "6" "0-2" "D3",
       sampleTransfer "CCC" "7" "0-3"
        "96gYZGLnJYVFmbjzopPSU6QiEV5fGqZNyN9nmNhvrZU5"]
      "AAA" "BBB" "" =
      some ("AAA", "BBB", 5, 6,
        some (sampleTransfer "CCC" "7" "0-3"
          "96gYZGLnJYVFmbjzopPSU6QiEV5fGqZNyN9nmNhvrZU5")) := by
  have h := sum_token_amounts_fee_dedup dummyAdapter
    [sampleTransfer "AAA" "5" "0-0" "D1",
     sampleTransfer "AAA" "5" "0-1" "D2",
     sampleTransfer "BBB" "6" "0-2" "D3",
     sampleTransfer "CCC" "7" "0-3"
      "96gYZGLnJYVFmbjzopPSU6QiEV5fGqZNyN9nmNhvrZU5"]
    "AAA" "BBB" "" (by decide)
  rw [h]
  decide

end SolTx

namespace SolTx

/-! ## C4: aggregation consistency of `get_final_swap` -/

/-- First-occurrence deduplication of strings (encounter order), the shape
of the pool fold in `get_final_swap`. -/
def dedupStringsFirst (l : List String) : List String :=
  l.foldl (fun acc p => if acc.contains p then acc else acc ++ [p]) []

/-- u128 sum of input-side `amount_raw` over the trades with the given
input mint. -/
def sumInput (trades : List TradeInfo) (m : String) : Nat :=
  (trades.map (fun t =>
    if t.input_token.mint = m then parseU128OrZero t.input_token.amount_raw
    else 0)).sum

/-- u128 sum of output-side `amount_raw` over the trades with the given
output mint. -/
def sumOutput (trades : List TradeInfo) (m : String) : Nat :=
  (trades.map (fun t =>
    if t.output_token.mint = m then parseU128OrZero t.output_token.amount_raw
    else 0)).sum

theorem foldl_mod_add {α : Type} (p : α → Prop) [DecidablePred p]
    (f : α → Nat) (M : Nat) (hM : 0 < M) (l : List α) :
    ∀ acc, acc < M →
      l.foldl (fun acc x => if p x then (acc + f x) % M else acc) acc =
      (acc + (l.map fun x => if p x then f x else 0).sum) % M := by
  induction l with
  | nil => intro acc hacc; simp [Nat.mod_eq_of_lt hacc]
  | cons x xs ih =>
      intro acc hacc
      simp only [List.foldl_cons, List.map_cons, List.sum_cons]
      by_cases hp : p x
      · rw [if_pos hp, if_pos hp, ih _ (Nat.mod_lt _ hM), Nat.mod_add_mod,
          Nat.add_assoc]
      · rw [if_neg hp, if_neg hp, ih _ hacc, Nat.zero_add]

theorem foldl_match_filterMap {α : Type} (g : α → Option String) (l : List α) :
    ∀ init : List String,
      l.foldl
        (fun acc t =>
          match g t with
          | some p => if acc.contains p then acc else acc ++ [p]
          | none => acc) init =
      (l.filterMap g).foldl
        (fun acc p => if acc.contains p then acc else acc ++ [p]) init := by
  induction l with
  | nil => intro init; rfl
  | cons x xs ih =>
      intro init
      rw [List.foldl_cons, List.filterMap_cons]
      cases hx : g x with
      | none => exact ih init
      | some p =>
          rw [List.foldl_cons]
          exact ih _

theorem map_pair_fst (trades : List TradeInfo) :
    (trades.map (fun t => (t, t.idx))).map Prod.fst = trades := by
  induction trades with
  | nil => rfl
  | cons t ts ih => simp only [List.map_cons, ih]

/-- C4: for a non-empty trade list whose raw amounts are canonical u128
decimal strings, whose per-trade pool lists hold at most one address, and
whose mint-matched sums stay below `2 ^ 128`, `get_final_swap` produces a
trade whose input amount is the sum over all trades with the sorted-first
trade's input mint, whose output amount is the sum over all trades with
the sorted-last trade's output mint, and whose pools are the unique pool
addresses in encounter order. -/
theorem get_final_swap_aggregate (trades : List TradeInfo)
    (dex_amm dex_route : Option String)
    (hne : trades ≠ [])
    (hamt : ∀ t ∈ trades,
      (∃ v, v < 2 ^ 128 ∧ t.input_token.amount_raw = toString v ∧
        parseU128OrZero t.input_token.amount_raw = v) ∧
      (∃ v, v < 2 ^ 128 ∧ t.output_token.amount_raw = toString v ∧
        parseU128OrZero t.output_token.amount_raw = v))
    (hpool : ∀ t ∈ trades, t.pool.length ≤ 1)
    (first last : TradeInfo)
    (hf : (sort_by_idx (trades.map (fun t => (t, t.idx)))).head? = some first)
    (hl : (sort_by_idx (trades.map (fun t => (t, t.idx)))).getLast? = some last)
    (hsin : sumInput trades first.input_token.mint < 2 ^ 128)
    (hsout : sumOutput trades last.output_token.mint < 2 ^ 128) :
    ∃ T, get_final_swap trades dex_amm dex_route = some T ∧
      T.input_token.mint = first.input_token.mint ∧
      T.output_token.mint = last.output_token.mint ∧
      T.input_token.amount_raw =
        toString (sumInput trades first.input_token.mint) ∧
      T.output_token.amount_raw =
        toString (sumOutput trades last.output_token.mint) ∧
      T.pool = dedupStringsFirst
        ((sort_by_idx (trades.map (fun t => (t, t.idx)))).filterMap
          (fun t => t.pool.head?)) := by
  have hperm : List.Perm (sort_by_idx (trades.map (fun t => (t, t.idx)))) trades := by
    have := sort_by_idx_perm (trades.map (fun t => (t, t.idx)))
    rwa [map_pair_fst] at this
  cases htr : trades with
  | nil => exact absurd htr hne
  | cons t0 rest =>
    subst htr
    by_cases hrest : rest.isEmpty
    · have hrest' : rest = [] := List.isEmpty_iff.mp hrest
      subst hrest'
      have hsorted : sort_by_idx ([t0].map (fun t => (t, t.idx))) = [t0] := by
        simp [sort_by_idx]
      rw [hsorted] at hf hl
      have hfeq : t0 = first := by simpa using hf
      have hleq : t0 = last := by simpa using hl
      refine ⟨t0, ?_, ?_, ?_, ?_, ?_, ?_⟩
      · simp [get_final_swap]
      · rw [← hfeq]
      · rw [← hleq]
      · obtain ⟨⟨v, hv, hrepr, hparse⟩, _⟩ := hamt t0 (List.mem_cons_self _ _)
        rw [← hfeq, hrepr]
        simp [sumInput, hparse]
      · obtain ⟨_, v, hv, hrepr, hparse⟩ := hamt t0 (List.mem_cons_self _ _)
        rw [← hleq, hrepr]
        simp [sumOutput, hparse]
      · rw [hsorted]
        have hp1 := hpool t0 (List.mem_cons_self _ _)
        cases hp : t0.pool with
        | nil => simp [dedupStringsFirst, hp]
        | cons p ps =>
            cases ps with
            | nil => simp [dedupStringsFirst, hp]
            | cons q qs =>
                rw [hp] at hp1
                simp at hp1
    · simp only [get_final_swap]
      rw [if_neg (by simpa using hrest)]
      simp only [hf, hl]
      refine ⟨_, rfl, rfl, rfl, ?_, ?_, ?_⟩
      · have hfold := foldl_mod_add
          (fun t : TradeInfo => t.input_token.mint = first.input_token.mint)
          (fun t => parseU128OrZero t.input_token.amount_raw)
          (2 ^ 128) (by norm_num)
          (sort_by_idx ((t0 :: rest).map (fun t => (t, t.idx)))) 0 (by norm_num)
        rw [Nat.zero_add] at hfold
        have hsum_eq : ((sort_by_idx ((t0 :: rest).map (fun t => (t, t.idx)))).map
            (fun t => if t.input_token.mint = first.input_token.mint then
              parseU128OrZero t.input_token.amount_raw else 0)).sum =
            sumInput (t0 :: rest) first.input_token.mint :=
          (hperm.map _).sum_eq
        rw [hfold, hsum_eq, Nat.mod_eq_of_lt hsin]
      · have hfold := foldl_mod_add
          (fun t : TradeInfo => t.output_token.mint = last.output_token.mint)
          (fun t => parseU128OrZero t.output_token.amount_raw)
          (2 ^ 128) (by norm_num)
          (sort_by_idx ((t0 :: rest).map (fun t => (t, t.idx)))) 0 (by norm_num)
        rw [Nat.zero_add] at hfold
        have hsum_eq : ((sort_by_idx ((t0 :: rest).map (fun t => (t, t.idx)))).map
            (fun t => if t.output_token.mint = last.output_token.mint then
              parseU128OrZero t.output_token.amount_raw else 0)).sum =
            sumOutput (t0 :: rest) last.output_token.mint :=
          (hperm.map _).sum_eq
        rw [hfold, hsum_eq, Nat.mod_eq_of_lt hsout]
      · exact foldl_match_filterMap (fun t => t.pool.head?)
          (sort_by_idx ((t0 :: rest).map (fun t => (t, t.idx)))) []

end SolTx

namespace SolTx

/-- A minimal token side for witness trades. -/
def mkTok (m raw : String) : TokenInfo :=
  { mint := m, amount := 0, amount_raw := raw, decimals := 0
    authority := none, destination := none, destination_owner := none
    source := none }

def tradeW1 : TradeInfo :=
  { user := "U", trade_type := TradeType.Sell, pool := ["P1"]
    input_token := mkTok "X" "10", output_token := mkTok "Y" "20"
    slippage_bps := none, fee := none, fees := none, program_id := none
    amm := none, amms := none, route := none, slot := 0, timestamp := 0
    signature := "", idx := "1", signer := none }

def tradeW2 : TradeInfo :=
  { user := "U", trade_type := TradeType.Sell, pool := ["P2"]
    input_token := mkTok "Y" "30", output_token := mkTok "Z" "40"
    slippage_bps := none, fee := none, fees := none, program_id := none
    amm := none, amms := none, route := none, slot := 0, timestamp := 0
    signature := "", idx := "2-0", signer := none }

/-- C4 witness: the aggregation theorem applied to a concrete two-hop
route `X → Y → Z`; the aggregate takes input total 10 on mint `X`, output
total 40 on mint `Z`, and both pools in order. -/
theorem get_final_swap_aggregate_witness :
    ∃ T, get_final_swap [tradeW1, tradeW2] none none = some T ∧
      T.input_token.mint = "X" ∧
      T.output_token.mint = "Z" ∧
      T.input_token.amount_raw = toString (sumInput [tradeW1, tradeW2] "X") ∧
      T.output_token.amount_raw = toString (sumOutput [tradeW1, tradeW2] "Z") ∧
      T.pool = ["P1", "P2"] := by
  have hamt : ∀ t ∈ [tradeW1, tradeW2],
      (∃ v, v < 2 ^ 128 ∧ t.input_token.amount_raw = toString v ∧
        parseU128OrZero t.input_token.amount_raw = v) ∧
      (∃ v, v < 2 ^ 128 ∧ t.output_token.amount_raw = toString v ∧
        parseU128OrZero t.output_token.amount_raw = v) := by
    intro t ht
    rcases List.mem_cons.mp ht with h | h
    · subst h
      exact ⟨⟨10, by norm_num, by decide, by decide⟩,
        ⟨20, by norm_num, by decide, by decide⟩⟩
    · have h' : t = tradeW2 := by simpa using h
      subst h'
      exact ⟨⟨30, by norm_num, by decide, by decide⟩,
        ⟨40, by norm_num, by decide, by decide⟩⟩
  obtain ⟨T, hT, h1, h2, h3, h4, h5⟩ :=
    get_final_swap_aggregate [tradeW1, tradeW2] none none (by decide) hamt
      (by decide) tradeW1 tradeW2 (by decide) (by decide)
      (by decide) (by decide)
  refine ⟨T, hT, h1, h2, h3, h4, ?_⟩
  rw [h5]
  decide

end SolTx

namespace SolTx

/-! ## C1: the transfer-action index -/

theorem mem_enumFrom_of_get? {α : Type} :
    ∀ (l : List α) (n j : Nat) (x : α), l.get? j = some x →
      (n + j, x) ∈ List.enumFrom n l := by
  intro l
  induction l with
  | nil => intro n j x h; simp at h
  | cons y ys ih =>
      intro n j x h
      cases j with
      | zero =>
          simp only [List.get?] at h
          injection h with h
          subst h
          simp [List.enumFrom]
      | succ m =>
          simp only [List.get?] at h
          have := ih (n + 1) m x h
          have harith : n + (m + 1) = n + 1 + m := by omega
          rw [harith]
          exact List.mem_cons_of_mem _ this

theorem mem_enum_of_get? {α : Type} (l : List α) (j : Nat) (x : α)
    (h : l.get? j = some x) : (j, x) ∈ l.enum := by
  have := mem_enumFrom_of_get? l 0 j x h
  simpa using this

theorem mem_bucketM_pushEntryM {γ : Type} (m : List (String × List γ))
    (k k' : String) (v' v : γ) (h : v ∈ bucketM m k) :
    v ∈ bucketM (pushEntryM m k' v') k := by
  rw [bucketM_pushEntryM]
  by_cases hk : k' = k
  · rw [if_pos hk]
    exact List.mem_append_left _ h
  · rwa [if_neg hk]

/-- The conditions under which `parse_compiled_action` decodes a compiled
instruction: the Token program with opcode Transfer (enough accounts and
data, resolvable mint), or Token/Token-2022 with opcode TransferChecked
(enough accounts and data). -/
def decodable_compiled_transfer (a : TransactionAdapter)
    (raw : RawInstruction) : Prop :=
  (a.get_instruction_program_id raw = TOKEN_PROGRAM_ID ∧
    raw.data.head? = some spl_token_instruction.TRANSFER ∧
    2 ≤ (raw.account_key_indexes.filterMap (fun i => a.get_account_key i)).length ∧
    9 ≤ raw.data.length ∧
    (get_transfer_token_mint
      ((lookupM a.spl_token_map
        ((raw.account_key_indexes.filterMap (fun i => a.get_account_key i)).getD 1 "")).map
        TokenInfo.mint)
      ((lookupM a.spl_token_map
        ((raw.account_key_indexes.filterMap (fun i => a.get_account_key i)).getD 0 "")).map
        TokenInfo.mint)).isSome) ∨
  ((a.get_instruction_program_id raw = TOKEN_PROGRAM_ID ∨
    a.get_instruction_program_id raw = TOKEN_2022_PROGRAM_ID) ∧
    raw.data.head? = some spl_token_instruction.TRANSFER_CHECKED ∧
    3 ≤ (raw.account_key_indexes.filterMap (fun i => a.get_account_key i)).length ∧
    10 ≤ raw.data.length)

/-- C1 (amended): for an inner compiled instruction that satisfies the
decode conditions — Token-program Transfer or Token/Token-2022
TransferChecked with enough accounts and data and a resolvable mint —
`parse_compiled_action` produces a transfer record, and
`get_transfer_actions` indexes every record it produces for that
instruction under `"<outer instruction's programID>:<outer>-<inner>"`.
(A plain Transfer compiled against the Token-2022 program decodes to
nothing — see the counterexample — and outer token-program instructions
are excluded entirely as system programs.) -/
theorem get_transfer_actions_indexes_inner (tx : SolanaTransactionInput)
    (cfg : Option ParseConfig) (extra : List String)
    (sets : List InnerInstructionSet)
    (hsets : tx.inner_instructions = some sets)
    (s : InnerInstructionSet) (hs : s ∈ sets)
    (j : Nat) (raw : RawInstruction)
    (hj : s.instructions.get? j = some raw) :
    (decodable_compiled_transfer (TransactionAdapter.new tx cfg) raw →
      (TransactionUtils.parse_compiled_action (TransactionAdapter.new tx cfg)
        raw (toString s.index ++ "-" ++ toString j)).isSome) ∧
    (∀ rec,
      TransactionUtils.parse_compiled_action (TransactionAdapter.new tx cfg)
        raw (toString s.index ++ "-" ++ toString j) = some rec →
      TransactionUtils.tagFee rec ∈ bucketM
        (TransactionUtils.get_transfer_actions (TransactionAdapter.new tx cfg) extra)
        ((match (TransactionAdapter.new tx cfg).raw_instructions.get? s.index with
          | some r => (TransactionAdapter.new tx cfg).get_instruction_program_id r
          | none => "") ++ ":" ++ toString s.index ++ "-" ++ toString j)) := by
  constructor
  · intro hd
    unfold TransactionUtils.parse_compiled_action
    rcases hd with ⟨hpid, hd0, hacc, hdata, hmint⟩ |
        ⟨hpid, hd0, hacc, hdata⟩
    · cases hraw : raw.data with
      | nil => rw [hraw] at hd0; simp at hd0
      | cons d0 dtl =>
          rw [hraw] at hd0
          simp only [List.head?_cons, Option.some.injEq] at hd0
          subst hd0
          have hacc' : ¬ ((raw.account_key_indexes.filterMap
              (fun i => (TransactionAdapter.new tx cfg).get_account_key i)).length < 2) := by
            omega
          have hdata' : ¬ ((spl_token_instruction.TRANSFER :: dtl).length < 9) := by
            rw [← hraw]
            omega
          cases hm : get_transfer_token_mint
              ((lookupM (TransactionAdapter.new tx cfg).spl_token_map
                ((raw.account_key_indexes.filterMap
                  (fun i => (TransactionAdapter.new tx cfg).get_account_key i)).getD 1 "")).map
                TokenInfo.mint)
              ((lookupM (TransactionAdapter.new tx cfg).spl_token_map
                ((raw.account_key_indexes.filterMap
                  (fun i => (TransactionAdapter.new tx cfg).get_account_key i)).getD 0 "")).map
                TokenInfo.mint) with
          | none => rw [hm] at hmint; simp at hmint
          | some mint =>
              rw [hraw] at hdata
              simp only [List.length_cons] at hdata
              have h9 : ¬ (dtl.length + 1 < 9) := by omega
              simp at hm
              simp [hpid, hacc', h9, hm]
    · cases hraw : raw.data with
      | nil => rw [hraw] at hd0; simp at hd0
      | cons d0 dtl =>
          rw [hraw] at hd0
          simp only [List.head?_cons, Option.some.injEq] at hd0
          subst hd0
          have hacc' : ¬ ((raw.account_key_indexes.filterMap
              (fun i => (TransactionAdapter.new tx cfg).get_account_key i)).length < 3) := by
            omega
          rw [hraw] at hdata
          simp only [List.length_cons] at hdata
          have h10 : ¬ (dtl.length + 1 < 10) := by omega
          rcases hpid with hpid | hpid <;>
            simp [hpid, hacc', h10, spl_token_instruction.TRANSFER_CHECKED,
              spl_token_instruction.TRANSFER, TOKEN_PROGRAM_ID, TOKEN_2022_PROGRAM_ID]
  · intro rec hparse
    unfold TransactionUtils.get_transfer_actions
    have hinner : (TransactionAdapter.new tx cfg).raw_inner_instructions = some sets :=
      hsets
    rw [hinner]
    apply mem_bucketM_foldl_of_mem _ ?hstep sets s hs _ _ ?hins
    case hstep =>
      intro m y v k hv
      apply mem_bucketM_foldl _ ?_ _ _ _ _ hv
      intro m' y' v' k' hv'
      cases hp : TransactionUtils.parse_compiled_action (TransactionAdapter.new tx cfg)
          y'.2 (toString y.index ++ "-" ++ toString y'.1) with
      | none => simpa [hp] using hv'
      | some t => simpa [hp] using mem_bucketM_pushEntryM _ _ _ _ _ hv'
    case hins =>
      intro m
      apply mem_bucketM_foldl_of_mem _ ?_ _ (j, raw) (mem_enum_of_get? _ _ _ hj) _ _ ?_
      · intro m' y' v' k' hv'
        cases hp : TransactionUtils.parse_compiled_action (TransactionAdapter.new tx cfg)
            y'.2 (toString s.index ++ "-" ++ toString y'.1) with
        | none => simpa [hp] using hv'
        | some t => simpa [hp] using mem_bucketM_pushEntryM _ _ _ _ _ hv'
      · intro m'
        simp only [hparse]
        rw [bucketM_pushEntryM, if_pos rfl]
        exact List.mem_append_right _ (List.mem_singleton.mpr rfl)

end SolTx

namespace SolTx

/-- Little-endian `u64` byte rendering (for concrete instruction data). -/
def u64le (n : Nat) : List Nat :=
  [n % 256, n / 2 ^ 8 % 256, n / 2 ^ 16 % 256, n / 2 ^ 24 % 256,
   n / 2 ^ 32 % 256, n / 2 ^ 40 % 256, n / 2 ^ 48 % 256, n / 2 ^ 56 % 256]

def zeros32 : List Nat := List.replicate 32 0

/-- A plain SPL `Transfer` (opcode 3, amount 500) compiled against the
Token-2022 program (account index 3 in `exTxC1`). -/
def rawC1 : RawInstruction :=
  { program_id_index := 3, data := 3 :: u64le 500, account_key_indexes := [1, 2, 0] }

/-- The same transfer compiled against the Token program (index 5). -/
def rawC1b : RawInstruction :=
  { program_id_index := 5, data := 3 :: u64le 500, account_key_indexes := [1, 2, 0] }

/-- A transaction whose only inner instruction is `rawC1`, nested under an
outer instruction of program `PROGX`; the destination token account `DST`
carries mint `MINTA` in the post-token-balances, so the transfer's mint is
resolvable. -/
def exTxC1 : SolanaTransactionInput :=
  { slot := 1
    account_keys := ["SIGNER", "SRC", "DST", TOKEN_2022_PROGRAM_ID, "PROGX",
      TOKEN_PROGRAM_ID]
    instructions := [{ program_id_index := 4, data := [9], account_key_indexes := [] }]
    inner_instructions := some [{ index := 0, instructions := [rawC1] }]
    meta := some
      { post_token_balances := some
          [{ account_index := 2, mint := some "MINTA", owner := some "OWN"
             ui_token_amount :=
               { amount := "500", decimals := 4, ui_amount := some ⟨1, 20⟩
                 ui_amount_string := none } }] } }

def exTxC1b : SolanaTransactionInput :=
  { exTxC1 with inner_instructions := some [{ index := 0, instructions := [rawC1b] }] }

/-- The transfer record decoded from `rawC1b` in `exTxC1b`. -/
def recC1b : TransferData :=
  { transfer_type := "transfer"
    program_id := TOKEN_PROGRAM_ID
    info :=
      { authority := some "SIGNER", destination := "DST"
        destination_owner := some "OWN", mint := "MINTA", source := "SRC"
        token_amount := { amount := "500", ui_amount := some ⟨1, 20⟩, decimals := 4 }
        source_balance := none, source_pre_balance := none
        destination_balance :=
          some { amount := "500", ui_amount := some ⟨1, 20⟩, decimals := 4 }
        destination_pre_balance := none }
    idx := "0-0", timestamp := 0, signature := "", is_fee := none }

/-- C1 counterexample: `rawC1` is a compiled instruction whose program ID
is the Token-2022 program, whose first data byte is the Transfer opcode 3,
with enough accounts and data bytes and a resolvable mint — yet
`parse_compiled_action` decodes nothing and `get_transfer_actions` leaves
the composite key `"PROGX:0-0"` empty, contrary to the claim's "in
particular" case. -/
theorem token2022_plain_transfer_not_indexed :
    (TransactionAdapter.new exTxC1 none).get_instruction_program_id rawC1 =
      TOKEN_2022_PROGRAM_ID ∧
    rawC1.data.head? = some spl_token_instruction.TRANSFER ∧
    2 ≤ (rawC1.account_key_indexes.filterMap
      (fun i => (TransactionAdapter.new exTxC1 none).get_account_key i)).length ∧
    9 ≤ rawC1.data.length ∧
    (get_transfer_token_mint
      ((lookupM (TransactionAdapter.new exTxC1 none).spl_token_map "DST").map
        TokenInfo.mint)
      ((lookupM (TransactionAdapter.new exTxC1 none).spl_token_map "SRC").map
        TokenInfo.mint)).isSome ∧
    TransactionUtils.parse_compiled_action (TransactionAdapter.new exTxC1 none)
      rawC1 "0-0" = none ∧
    bucketM (TransactionUtils.get_transfer_actions (TransactionAdapter.new exTxC1 none)
      ["mintTo", "burn", "mintToChecked", "burnChecked"]) "PROGX:0-0" = [] := by
  refine ⟨by decide, by decide, by decide, by decide, by decide, by decide, by decide⟩

/-- C1 witness: the amended theorem applied to `exTxC1b`, where the same
plain transfer is compiled against the Token program: it decodes to
`recC1b` and is indexed under `"PROGX:0-0"`. -/
theorem get_transfer_actions_indexes_inner_witness :
    (TransactionUtils.parse_compiled_action (TransactionAdapter.new exTxC1b none)
      rawC1b (toString (0 : Nat) ++ "-" ++ toString (0 : Nat))).isSome ∧
    TransactionUtils.tagFee recC1b ∈ bucketM
      (TransactionUtils.get_transfer_actions (TransactionAdapter.new exTxC1b none)
        ["mintTo", "burn", "mintToChecked", "burnChecked"])
      ("PROGX" ++ ":" ++ toString (0 : Nat) ++ "-" ++ toString (0 : Nat)) := by
  have h := get_transfer_actions_indexes_inner exTxC1b none
    ["mintTo", "burn", "mintToChecked", "burnChecked"]
    [{ index := 0, instructions := [rawC1b] }] rfl
    { index := 0, instructions := [rawC1b] } (List.mem_singleton.mpr rfl)
    0 rawC1b rfl
  refine ⟨h.1 ?_, ?_⟩
  · unfold decodable_compiled_transfer
    left
    refine ⟨by decide, by decide, by decide, by decide, by decide⟩
  · have hparse : TransactionUtils.parse_compiled_action
        (TransactionAdapter.new exTxC1b none) rawC1b
        (toString (0 : Nat) ++ "-" ++ toString (0 : Nat)) = some recC1b := by decide
    exact h.2 recC1b hparse

end SolTx

namespace SolTx

/-! ## C8: Pumpswap decoding — unresolved mints and the fee fields -/

/-- C8 (amended): for a decoded Pumpswap buy or sell event, if any of the
input-side, output-side or protocol-fee-recipient token accounts has no
recorded mint, the instruction contributes no trade; when all three
resolve, the produced trade's fee mint is the protocol-fee-recipient
token account's mint and its fee amount is computed from
`protocolFee + coinCreatorFee` in both branches, but the *raw* fee amount
is `protocolFee + coinCreatorFee` only in the buy branch — the sell
branch records `protocolFee` alone. -/
theorem pumpswap_fee_and_skip (a : TransactionAdapter) (dex_info : DexInfo)
    (ci : ClassifiedInstruction)
    (hprog : ci.program_id = dex_programs.PUMP_SWAP.id)
    (hlen : ¬ ci.instruction.data.length < 16) :
    (∀ evt, ci.instruction.data.take 16 = discriminators.PUMPSWAP_BUY_EVENT →
      PumpswapParser.decode_buy_event (ci.instruction.data.drop 16) = some evt →
      (((PumpswapParser.mintOf a evt.user_quote_token_account).isNone ∨
        (PumpswapParser.mintOf a evt.user_base_token_account).isNone ∨
        (PumpswapParser.mintOf a evt.protocol_fee_recipient_token_account).isNone) →
        PumpswapParser.trade_for_instruction a dex_info ci = []) ∧
      (∀ in_m out_m fee_m,
        PumpswapParser.mintOf a evt.user_quote_token_account = some in_m →
        PumpswapParser.mintOf a evt.user_base_token_account = some out_m →
        PumpswapParser.mintOf a evt.protocol_fee_recipient_token_account = some fee_m →
        ∃ t, PumpswapParser.trade_for_instruction a dex_info ci = [t] ∧
          t.fee = some
            { mint := fee_m
              amount := convert_to_ui_amount
                ((evt.protocol_fee + evt.coin_creator_fee) % 2 ^ 64)
                (a.get_token_decimals fee_m)
              amount_raw := toString
                ((evt.protocol_fee + evt.coin_creator_fee) % 2 ^ 64)
              decimals := a.get_token_decimals fee_m
              dex := some dex_programs.PUMP_SWAP.name
              type_ := some "protocol"
              recipient := some evt.protocol_fee_recipient })) ∧
    (∀ evt, ci.instruction.data.take 16 = discriminators.PUMPSWAP_SELL_EVENT →
      PumpswapParser.decode_sell_event (ci.instruction.data.drop 16) = some evt →
      (((PumpswapParser.mintOf a evt.user_base_token_account).isNone ∨
        (PumpswapParser.mintOf a evt.user_quote_token_account).isNone ∨
        (PumpswapParser.mintOf a evt.protocol_fee_recipient_token_account).isNone) →
        PumpswapParser.trade_for_instruction a dex_info ci = []) ∧
      (∀ in_m out_m fee_m,
        PumpswapParser.mintOf a evt.user_base_token_account = some in_m →
        PumpswapParser.mintOf a evt.user_quote_token_account = some out_m →
        PumpswapParser.mintOf a evt.protocol_fee_recipient_token_account = some fee_m →
        ∃ t, PumpswapParser.trade_for_instruction a dex_info ci = [t] ∧
          t.fee = some
            { mint := fee_m
              amount := convert_to_ui_amount
                ((evt.protocol_fee + evt.coin_creator_fee) % 2 ^ 64)
                (a.get_token_decimals fee_m)
              amount_raw := toString evt.protocol_fee
              decimals := a.get_token_decimals fee_m
              dex := some dex_programs.PUMP_SWAP.name
              type_ := none
              recipient := some evt.protocol_fee_recipient })) := by
  have hBuySell : discriminators.PUMPSWAP_SELL_EVENT ≠
      discriminators.PUMPSWAP_BUY_EVENT := by decide
  constructor
  · intro evt hdisc hdec
    constructor
    · intro hnone
      unfold PumpswapParser.trade_for_instruction
      rw [if_neg (by simp [hprog]), if_neg hlen, if_pos hdisc, hdec]
      cases hq : PumpswapParser.mintOf a evt.user_quote_token_account <;>
        cases hb : PumpswapParser.mintOf a evt.user_base_token_account <;>
        cases hf : PumpswapParser.mintOf a evt.protocol_fee_recipient_token_account <;>
        simp_all
    · intro in_m out_m fee_m hin hout hfee
      unfold PumpswapParser.trade_for_instruction
      rw [if_neg (by simp [hprog]), if_neg hlen, if_pos hdisc, hdec]
      simp only [hin, hout, hfee]
      exact ⟨_, rfl, rfl⟩
  · intro evt hdisc hdec
    have hnotbuy : ci.instruction.data.take 16 ≠ discriminators.PUMPSWAP_BUY_EVENT := by
      rw [hdisc]
      exact hBuySell
    constructor
    · intro hnone
      unfold PumpswapParser.trade_for_instruction
      rw [if_neg (by simp [hprog]), if_neg hlen, if_neg hnotbuy, if_pos hdisc, hdec]
      cases hb : PumpswapParser.mintOf a evt.user_base_token_account <;>
        cases hq : PumpswapParser.mintOf a evt.user_quote_token_account <;>
        cases hf : PumpswapParser.mintOf a evt.protocol_fee_recipient_token_account <;>
        simp_all
    · intro in_m out_m fee_m hin hout hfee
      unfold PumpswapParser.trade_for_instruction
      rw [if_neg (by simp [hprog]), if_neg hlen, if_neg hnotbuy, if_pos hdisc, hdec]
      simp only [hin, hout, hfee]
      exact ⟨_, rfl, rfl⟩

end SolTx

namespace SolTx

/-- Concrete Pumpswap *sell* instruction data: `SELL_EVENT` discriminator,
`baseAmountIn = 13`, `protocolFee = 7`, `userQuoteAmountOut = 11`,
six all-zero pubkeys (each base58-encoding to 32 ones), and a 48-byte
trailer with `coinCreatorFee = 5`. -/
def sellData : List Nat :=
  discriminators.PUMPSWAP_SELL_EVENT ++ u64le 1700000000 ++ u64le 13 ++
    u64le 0 ++ u64le 0 ++ u64le 0 ++ u64le 0 ++ u64le 0 ++ u64le 0 ++
    u64le 0 ++ u64le 0 ++ u64le 0 ++ u64le 7 ++ u64le 0 ++ u64le 11 ++
    zeros32 ++ zeros32 ++ zeros32 ++ zeros32 ++ zeros32 ++ zeros32 ++
    zeros32 ++ u64le 30 ++ u64le 5

/-- Concrete Pumpswap *buy* instruction data: `BUY_EVENT` discriminator,
`baseAmountOut = 11`, `protocolFee = 7`, `quoteAmountInWithLpFee = 13`,
six all-zero pubkeys, and a 48-byte trailer with `coinCreatorFee = 5`. -/
def buyData : List Nat :=
  discriminators.PUMPSWAP_BUY_EVENT ++ u64le 1700000000 ++ u64le 11 ++
    u64le 0 ++ u64le 0 ++ u64le 0 ++ u64le 0 ++ u64le 0 ++ u64le 0 ++
    u64le 0 ++ u64le 0 ++ u64le 0 ++ u64le 7 ++ u64le 13 ++ u64le 0 ++
    zeros32 ++ zeros32 ++ zeros32 ++ zeros32 ++ zeros32 ++ zeros32 ++
    zeros32 ++ u64le 30 ++ u64le 5

/-- A transaction whose post token balances map the account that the
all-zero pubkey encodes to (`tokens.NATIVE`, 32 ones) to mint `MINTB`
with 6 decimals, so every token account in the Pumpswap events above
resolves to `MINTB`. -/
def exTxC8 : SolanaTransactionInput :=
  { slot := 8
    account_keys := ["SIGNER", dex_programs.PUMP_SWAP.id, tokens.NATIVE]
    instructions := [{ program_id_index := 1, data := sellData,
                       account_key_indexes := [] }]
    meta := some
      { post_token_balances := some
          [{ account_index := 2, mint := some "MINTB", owner := none
             ui_token_amount := { amount := "0", decimals := 6,
                                  ui_amount := some 0,
                                  ui_amount_string := none } }] } }

def aC8 : TransactionAdapter := TransactionAdapter.new exTxC8 none

/-- The sell instruction, classified. -/
def ciC8 : ClassifiedInstruction :=
  { instruction := { program_id := dex_programs.PUMP_SWAP.id,
                     accounts := [], data := sellData }
    program_id := dex_programs.PUMP_SWAP.id
    outer_index := 0, inner_index := none }

/-- The buy instruction, classified. -/
def ciC8buy : ClassifiedInstruction :=
  { instruction := { program_id := dex_programs.PUMP_SWAP.id,
                     accounts := [], data := buyData }
    program_id := dex_programs.PUMP_SWAP.id
    outer_index := 0, inner_index := none }

/-- The buy event that `buyData` decodes to. -/
def evtC8buy : PumpswapParser.PumpswapBuyEvent :=
  { base_amount_out := 11, protocol_fee := 7,
    quote_amount_in_with_lp_fee := 13, coin_creator_fee := 5
    pool := tokens.NATIVE, user := tokens.NATIVE
    user_base_token_account := tokens.NATIVE
    user_quote_token_account := tokens.NATIVE
    protocol_fee_recipient := tokens.NATIVE
    protocol_fee_recipient_token_account := tokens.NATIVE }

/-- C8 counterexample: the concrete sell event decodes with
`protocolFee = 7` and `coinCreatorFee = 5`, yet the produced trade's raw
fee amount is `"7"` — not `protocolFee + coinCreatorFee = 12` as the
claim states for the sell branch. -/
theorem pumpswap_sell_fee_raw_cex :
    (PumpswapParser.decode_sell_event (sellData.drop 16)).map
        (fun e => (e.protocol_fee, e.coin_creator_fee)) = some (7, 5) ∧
    (PumpswapParser.trade_for_instruction aC8 { } ciC8).map
        (fun t => t.fee.map (fun f => f.amount_raw)) = [some "7"] ∧
    toString ((7 + 5) % 2 ^ 64) = "12" :=
  ⟨by decide, by decide, by decide⟩

/-- Witness for `pumpswap_fee_and_skip`: on the concrete buy
instruction every token account resolves to mint `MINTB` and the trade's
raw fee amount is `protocolFee + coinCreatorFee = 12`. -/
theorem pumpswap_fee_and_skip_witness :
    (PumpswapParser.trade_for_instruction aC8 { } ciC8buy).map
        (fun t => t.fee.map (fun f => f.amount_raw)) = [some "12"] := by
  obtain ⟨t, ht, hfee⟩ :=
    ((pumpswap_fee_and_skip aC8 { } ciC8buy (by decide) (by decide)).1
        evtC8buy (by decide) (by decide)).2
      "MINTB" "MINTB" "MINTB" (by decide) (by decide) (by decide)
  rw [ht]
  simp only [List.map_cons, List.map_nil, hfee, Option.map_some]
  decide

end SolTx

namespace SolTx

/-! ## C9: the token-balance-change map -/

/-- The (account key, mint) pair a token-balance entry resolves to. -/
def tbPair (keys : List String) (b : TokenBalanceInput) : String × String :=
  ((keys.get? b.account_index).getD "", b.mint.getD "")

/-- Two-level lookup in the nested change map (`changes[key][mint]`,
with `entry().or_default()` semantics for a missing outer key). -/
def lookup2 (m : List (String × List (String × BalanceChange)))
    (k mm : String) : Option BalanceChange :=
  lookupM ((lookupM m k).getD []) mm

/-- The record the pre-pass seeds for a pre token balance. -/
def tbSeed (b : TokenBalanceInput) : BalanceChange :=
  { pre :=
      { amount := b.ui_token_amount.amount
        ui_amount := b.ui_token_amount.ui_amount
        decimals := b.ui_token_amount.decimals }
    post :=
      { amount := "0", ui_amount := some 0
        decimals := b.ui_token_amount.decimals }
    change :=
      { amount := "0", ui_amount := some 0
        decimals := b.ui_token_amount.decimals } }

/-- The record the post-pass inserts when the pair was not seeded. -/
def tbPostOnly (b : TokenBalanceInput) : BalanceChange :=
  { pre :=
      { amount := "0", ui_amount := some 0
        decimals := b.ui_token_amount.decimals }
    post :=
      { amount := b.ui_token_amount.amount
        ui_amount := b.ui_token_amount.ui_amount
        decimals := b.ui_token_amount.decimals }
    change :=
      { amount := b.ui_token_amount.amount
        ui_amount := b.ui_token_amount.ui_amount
        decimals := b.ui_token_amount.decimals } }

/-- The signed raw change the post-pass computes against an existing
record (`post as i128 - pre as i128`). -/
def tbChangeEx (ex : BalanceChange) (b : TokenBalanceInput) : Int :=
  i128wrap ((parseU128OrZero b.ui_token_amount.amount : Int) -
    (parseU128OrZero ex.pre.amount : Int))

/-- The record the post-pass writes over an existing one. -/
def updatedRec (ex : BalanceChange) (b : TokenBalanceInput) : BalanceChange :=
  { ex with
    post :=
      { amount := b.ui_token_amount.amount
        ui_amount := b.ui_token_amount.ui_amount
        decimals := b.ui_token_amount.decimals }
    change :=
      { amount := toString (tbChangeEx ex b).natAbs
        ui_amount :=
          some (UiAmt.sub (b.ui_token_amount.ui_amount.getD 0)
            (ex.pre.ui_amount.getD 0))
        decimals := b.ui_token_amount.decimals } }

theorem lookup2_insertM (m : List (String × List (String × BalanceChange)))
    (k' : String) (inner' : List (String × BalanceChange)) (k mm : String) :
    lookup2 (insertM m k' inner') k mm =
      if k' = k then lookupM inner' mm else lookup2 m k mm := by
  unfold lookup2
  rw [lookupM_insertM]
  by_cases h : k' = k <;> simp [h]

theorem lookup2_preStep_untouched (keys : List String)
    (m : List (String × List (String × BalanceChange)))
    (b : TokenBalanceInput) (k mm : String)
    (h : tbPair keys b ≠ (k, mm)) :
    lookup2 (TransactionAdapter.tokenChangePreStep keys m b) k mm =
      lookup2 m k mm := by
  simp only [TransactionAdapter.tokenChangePreStep]
  by_cases hm0 : b.mint.getD "" = ""
  · rw [if_pos hm0]
  · rw [if_neg hm0, lookup2_insertM]
    by_cases hk : (keys.get? b.account_index).getD "" = k
    · have hmne : b.mint.getD "" ≠ mm := by
        intro hc
        apply h
        show ((keys.get? b.account_index).getD "", b.mint.getD "") = (k, mm)
        rw [hk, hc]
      rw [if_pos hk, lookupM_insertM, if_neg hmne, hk]
      rfl
    · rw [if_neg hk]

theorem lookup2_postStep_untouched (keys : List String)
    (m : List (String × List (String × BalanceChange)))
    (b : TokenBalanceInput) (k mm : String)
    (h : tbPair keys b ≠ (k, mm)) :
    lookup2 (TransactionAdapter.tokenChangePostStep keys m b) k mm =
      lookup2 m k mm := by
  simp only [TransactionAdapter.tokenChangePostStep]
  by_cases hm0 : b.mint.getD "" = ""
  · rw [if_pos hm0]
  · rw [if_neg hm0]
    by_cases hk : (keys.get? b.account_index).getD "" = k
    · have hmne : b.mint.getD "" ≠ mm := by
        intro hc
        apply h
        show ((keys.get? b.account_index).getD "", b.mint.getD "") = (k, mm)
        rw [hk, hc]
      cases hml :
          lookupM ((lookupM m ((keys.get? b.account_index).getD "")).getD [])
            (b.mint.getD "") with
      | none =>
          rw [lookup2_insertM, if_pos hk, lookupM_insertM, if_neg hmne, hk]
          rfl
      | some ex =>
          dsimp only
          by_cases hch :
              i128wrap
                ((parseU128OrZero b.ui_token_amount.amount : Int) -
                  (parseU128OrZero ex.pre.amount : Int)) = 0
          · rw [if_pos hch, lookup2_insertM, if_pos hk, lookupM_removeM,
              if_neg hmne, hk]
            rfl
          · rw [if_neg hch, lookup2_insertM, if_pos hk, lookupM_insertM,
              if_neg hmne, hk]
            rfl
    · cases hml :
          lookupM ((lookupM m ((keys.get? b.account_index).getD "")).getD [])
            (b.mint.getD "") with
      | none => rw [lookup2_insertM, if_neg hk]
      | some ex =>
          dsimp only
          by_cases hch :
              i128wrap
                ((parseU128OrZero b.ui_token_amount.amount : Int) -
                  (parseU128OrZero ex.pre.amount : Int)) = 0
          · rw [if_pos hch, lookup2_insertM, if_neg hk]
          · rw [if_neg hch, lookup2_insertM, if_neg hk]

end SolTx

namespace SolTx

theorem lookup2_preStep_self (keys : List String)
    (m : List (String × List (String × BalanceChange)))
    (b : TokenBalanceInput) (hm0 : b.mint.getD "" ≠ "") :
    lookup2 (TransactionAdapter.tokenChangePreStep keys m b)
      ((keys.get? b.account_index).getD "") (b.mint.getD "") =
      some (tbSeed b) := by
  simp only [TransactionAdapter.tokenChangePreStep]
  rw [if_neg hm0, lookup2_insertM, if_pos rfl, lookupM_insertM, if_pos rfl]
  rfl

theorem lookup2_postStep_self_none (keys : List String)
    (m : List (String × List (String × BalanceChange)))
    (b : TokenBalanceInput) (hm0 : b.mint.getD "" ≠ "")
    (hnone :
      lookup2 m ((keys.get? b.account_index).getD "") (b.mint.getD "") = none) :
    lookup2 (TransactionAdapter.tokenChangePostStep keys m b)
      ((keys.get? b.account_index).getD "") (b.mint.getD "") =
      some (tbPostOnly b) := by
  simp only [TransactionAdapter.tokenChangePostStep]
  rw [if_neg hm0]
  have hml :
      lookupM ((lookupM m ((keys.get? b.account_index).getD "")).getD [])
        (b.mint.getD "") = none := hnone
  rw [hml, lookup2_insertM, if_pos rfl, lookupM_insertM, if_pos rfl]
  rfl

theorem lookup2_postStep_self_some (keys : List String)
    (m : List (String × List (String × BalanceChange)))
    (b : TokenBalanceInput) (ex : BalanceChange) (hm0 : b.mint.getD "" ≠ "")
    (hsome :
      lookup2 m ((keys.get? b.account_index).getD "") (b.mint.getD "") =
        some ex) :
    lookup2 (TransactionAdapter.tokenChangePostStep keys m b)
      ((keys.get? b.account_index).getD "") (b.mint.getD "") =
      (if tbChangeEx ex b = 0 then none else some (updatedRec ex b)) := by
  simp only [TransactionAdapter.tokenChangePostStep]
  rw [if_neg hm0]
  have hml :
      lookupM ((lookupM m ((keys.get? b.account_index).getD "")).getD [])
        (b.mint.getD "") = some ex := hsome
  rw [hml]
  dsimp only
  by_cases hch :
      i128wrap
        ((parseU128OrZero b.ui_token_amount.amount : Int) -
          (parseU128OrZero ex.pre.amount : Int)) = 0
  · rw [if_pos hch, lookup2_insertM, if_pos rfl, lookupM_removeM, if_pos rfl,
      if_pos (show tbChangeEx ex b = 0 from hch)]
  · rw [if_neg hch, lookup2_insertM, if_pos rfl, lookupM_insertM, if_pos rfl,
      if_neg (show ¬ tbChangeEx ex b = 0 from hch)]
    rfl

theorem lookup2_preFold_untouched (keys : List String)
    (l : List TokenBalanceInput)
    (m : List (String × List (String × BalanceChange))) (k mm : String)
    (h : ∀ b ∈ l, tbPair keys b ≠ (k, mm)) :
    lookup2 (l.foldl (TransactionAdapter.tokenChangePreStep keys) m) k mm =
      lookup2 m k mm := by
  induction l generalizing m with
  | nil => rfl
  | cons b t ih =>
      rw [List.foldl_cons, ih _ (fun r hr => h r (List.mem_cons_of_mem b hr)),
        lookup2_preStep_untouched keys m b k mm (h b (List.mem_cons_self b t))]

theorem lookup2_postFold_untouched (keys : List String)
    (l : List TokenBalanceInput)
    (m : List (String × List (String × BalanceChange))) (k mm : String)
    (h : ∀ b ∈ l, tbPair keys b ≠ (k, mm)) :
    lookup2 (l.foldl (TransactionAdapter.tokenChangePostStep keys) m) k mm =
      lookup2 m k mm := by
  induction l generalizing m with
  | nil => rfl
  | cons b t ih =>
      rw [List.foldl_cons, ih _ (fun r hr => h r (List.mem_cons_of_mem b hr)),
        lookup2_postStep_untouched keys m b k mm (h b (List.mem_cons_self b t))]

end SolTx

namespace SolTx

theorem exists_split_of_nodup_map {α β : Type} (l : List α) (q : α)
    (f : α → β) (hq : q ∈ l) (hN : (l.map f).Nodup) :
    ∃ l1 l2, l = l1 ++ q :: l2 ∧ (∀ r ∈ l1, f r ≠ f q) ∧
      ∀ r ∈ l2, f r ≠ f q := by
  obtain ⟨l1, l2, rfl⟩ := List.append_of_mem hq
  rw [List.map_append, List.map_cons, List.nodup_append] at hN
  obtain ⟨h1, h2, hdisj⟩ := hN
  refine ⟨l1, l2, rfl, ?_, ?_⟩
  · intro r hr hc
    exact hdisj (List.mem_map_of_mem f hr)
      (by rw [hc]; exact List.mem_cons_self _ _)
  · intro r hr hc
    exact (List.nodup_cons.mp h2).1 (hc ▸ List.mem_map_of_mem f hr)

/-- C9 (amended): the map seeds each pre-token-balance entry with
`{pre = value, post = 0, change = 0}`; a post balance matched to a
seeded entry overwrites `post` and sets the raw change to the *absolute
value* `|post − pre|` (removing the entry when the change is zero); a
post balance with no seeded entry is inserted with `change = post`.
Entries touched only by the pre pass survive in the final map with
`change = "0"` — zero-change entries are *not* pruned in general. -/
theorem token_balance_changes_characterized
    (a : TransactionAdapter) (io : Bool) (k mm : String) (hmm : mm ≠ "")
    (pre post : List TokenBalanceInput)
    (hpre : a.pre_token_balances.getD [] = pre)
    (hpost : a.post_token_balances.getD [] = post)
    (hNpre : (pre.map (tbPair a.account_keys)).Nodup)
    (hNpost : (post.map (tbPair a.account_keys)).Nodup) :
    (∀ p ∈ pre, tbPair a.account_keys p = (k, mm) →
      (∀ q ∈ post, tbPair a.account_keys q ≠ (k, mm)) →
      lookup2 (a.get_account_token_balance_changes io) k mm =
        some (tbSeed p)) ∧
    (∀ q ∈ post, tbPair a.account_keys q = (k, mm) →
      (∀ p ∈ pre, tbPair a.account_keys p ≠ (k, mm)) →
      lookup2 (a.get_account_token_balance_changes io) k mm =
        some (tbPostOnly q)) ∧
    (∀ p ∈ pre, ∀ q ∈ post, tbPair a.account_keys p = (k, mm) →
      tbPair a.account_keys q = (k, mm) →
      lookup2 (a.get_account_token_balance_changes io) k mm =
        (if tbChangeEx (tbSeed p) q = 0 then none
         else some (updatedRec (tbSeed p) q))) := by
  have hfin : a.get_account_token_balance_changes io =
      post.foldl (TransactionAdapter.tokenChangePostStep a.account_keys)
        (pre.foldl (TransactionAdapter.tokenChangePreStep a.account_keys)
          []) := by
    unfold TransactionAdapter.get_account_token_balance_changes
    rw [hpre, hpost]
  refine ⟨?_, ?_, ?_⟩
  · intro p hp hpair hnopost
    rw [hfin, lookup2_postFold_untouched _ _ _ _ _ hnopost]
    obtain ⟨l1, l2, rfl, h1, h2⟩ :=
      exists_split_of_nodup_map pre p (tbPair a.account_keys) hp hNpre
    rw [List.foldl_append, List.foldl_cons,
      lookup2_preFold_untouched _ l2 _ _ _
        (fun r hr hc => h2 r hr (by rw [hc, hpair]))]
    have hk : (a.account_keys.get? p.account_index).getD "" = k :=
      congrArg Prod.fst hpair
    have hm2 : p.mint.getD "" = mm := congrArg Prod.snd hpair
    subst hk
    subst hm2
    exact lookup2_preStep_self _ _ _ hmm
  · intro q hq hpair hnopre
    rw [hfin]
    obtain ⟨l1, l2, rfl, h1, h2⟩ :=
      exists_split_of_nodup_map post q (tbPair a.account_keys) hq hNpost
    rw [List.foldl_append, List.foldl_cons,
      lookup2_postFold_untouched _ l2 _ _ _
        (fun r hr hc => h2 r hr (by rw [hc, hpair]))]
    have hmid :
        lookup2
          (l1.foldl (TransactionAdapter.tokenChangePostStep a.account_keys)
            (pre.foldl
              (TransactionAdapter.tokenChangePreStep a.account_keys) []))
          k mm = none := by
      rw [lookup2_postFold_untouched _ l1 _ _ _
          (fun r hr hc => h1 r hr (by rw [hc, hpair])),
        lookup2_preFold_untouched _ pre _ _ _ hnopre]
      rfl
    have hk : (a.account_keys.get? q.account_index).getD "" = k :=
      congrArg Prod.fst hpair
    have hm2 : q.mint.getD "" = mm := congrArg Prod.snd hpair
    subst hk
    subst hm2
    exact lookup2_postStep_self_none _ _ _ hmm hmid
  · intro p hp q hq hpairp hpairq
    rw [hfin]
    have hseed :
        lookup2
          (pre.foldl (TransactionAdapter.tokenChangePreStep a.account_keys)
            []) k mm = some (tbSeed p) := by
      obtain ⟨l1, l2, rfl, h1, h2⟩ :=
        exists_split_of_nodup_map pre p (tbPair a.account_keys) hp hNpre
      rw [List.foldl_append, List.foldl_cons,
        lookup2_preFold_untouched _ l2 _ _ _
          (fun r hr hc => h2 r hr (by rw [hc, hpairp]))]
      have hk : (a.account_keys.get? p.account_index).getD "" = k :=
        congrArg Prod.fst hpairp
      have hm2 : p.mint.getD "" = mm := congrArg Prod.snd hpairp
      rw [← hk, ← hm2]
      exact lookup2_preStep_self _ _ _ (by rw [hm2]; exact hmm)
    obtain ⟨l1, l2, rfl, h1, h2⟩ :=
      exists_split_of_nodup_map post q (tbPair a.account_keys) hq hNpost
    rw [List.foldl_append, List.foldl_cons,
      lookup2_postFold_untouched _ l2 _ _ _
        (fun r hr hc => h2 r hr (by rw [hc, hpairq]))]
    have hmid :
        lookup2
          (l1.foldl (TransactionAdapter.tokenChangePostStep a.account_keys)
            (pre.foldl
              (TransactionAdapter.tokenChangePreStep a.account_keys) []))
          k mm = some (tbSeed p) := by
      rw [lookup2_postFold_untouched _ l1 _ _ _
          (fun r hr hc => h1 r hr (by rw [hc, hpairq])), hseed]
    have hk : (a.account_keys.get? q.account_index).getD "" = k :=
      congrArg Prod.fst hpairq
    have hm2 : q.mint.getD "" = mm := congrArg Prod.snd hpairq
    subst hk
    subst hm2
    exact lookup2_postStep_self_some _ _ _ _ hmm hmid

end SolTx

namespace SolTx

/-- A balance entry present only in the pre token balances. -/
def preBalC9 : TokenBalanceInput :=
  { account_index := 0, mint := some "M", owner := none
    ui_token_amount :=
      { amount := "5", decimals := 2, ui_amount := some ⟨1, 20⟩
        ui_amount_string := none } }

/-- A transaction whose meta has only that pre token balance. -/
def exTxC9 : SolanaTransactionInput :=
  { slot := 9, account_keys := ["A"], instructions := []
    meta := some { pre_token_balances := some [preBalC9] } }

/-- C9 counterexample: on `exTxC9` the final token-balance-change map
still holds the pre-only entry `("A", "M")`, with `change = "0"` and
`post = "0"` — the claim says no zero-change entry survives. -/
theorem token_balance_pre_only_zero_cex :
    (lookup2
        ((TransactionAdapter.new exTxC9 none).get_account_token_balance_changes
          true) "A" "M").map
        (fun bc => (bc.change.amount, bc.post.amount)) =
      some ("0", "0") := by
  decide

/-- The same pre entry together with a matching post entry of amount 9. -/
def postBalC9 : TokenBalanceInput :=
  { account_index := 0, mint := some "M", owner := none
    ui_token_amount :=
      { amount := "9", decimals := 2, ui_amount := some ⟨9, 100⟩
        ui_amount_string := none } }

def exTxC9w : SolanaTransactionInput :=
  { slot := 9, account_keys := ["A"], instructions := []
    meta := some
      { pre_token_balances := some [preBalC9]
        post_token_balances := some [postBalC9] } }

/-- Witness for `token_balance_changes_characterized`: the matched
`("A", "M")` pair of `exTxC9w` ends as the post-updated record. -/
theorem token_balance_changes_characterized_witness :
    lookup2
        ((TransactionAdapter.new exTxC9w none).get_account_token_balance_changes
          true) "A" "M" =
      some (updatedRec (tbSeed preBalC9) postBalC9) := by
  have h :=
    (token_balance_changes_characterized (TransactionAdapter.new exTxC9w none)
        true "A" "M" (by decide) [preBalC9] [postBalC9] rfl rfl (by decide)
        (by decide)).2.2
      preBalC9 (by decide) postBalC9 (by decide) (by decide) (by decide)
  rw [h, if_neg (by decide)]

end SolTx

namespace SolTx

/-! ## C5: balance attachment and the Jupiter fast path -/

/-- C5 (amended): when the program-id filter matches (no early
`state = false` return) and the Jupiter fast path does not return, the
parse result carries the signer's SOL- and token-balance changes looked
up in the adapter's change maps; but when the Jupiter fast path returns
early, the result keeps its trades or aggregate while both balance-change
fields stay `none`. -/
theorem parse_balance_change_attachment (tx : SolanaTransactionInput)
    (config : ParseConfig) (ord : List String)
    (hnf : (match config.program_ids with
            | some filter_ids =>
                !((InstructionClassifier.get_all_program_ids ord).any
                  (fun id => filter_ids.contains id))
            | none => false) = false) :
    (DexParser.fast_path_outcome (TransactionAdapter.new tx (some config))
        (InstructionClassifier.new (TransactionAdapter.new tx (some config)))
        (TransactionUtils.get_dex_info ord) config = none →
      (DexParser.parse_with_classifier tx config ord).sol_balance_change =
        lookupM
          ((TransactionAdapter.new tx
            (some config)).get_account_sol_balance_changes false)
          (TransactionAdapter.new tx (some config)).signer ∧
      (DexParser.parse_with_classifier tx config ord).token_balance_change =
        lookupM
          ((TransactionAdapter.new tx
            (some config)).get_account_token_balance_changes true)
          (TransactionAdapter.new tx (some config)).signer) ∧
    (∀ tr_agg,
      DexParser.fast_path_outcome (TransactionAdapter.new tx (some config))
        (InstructionClassifier.new (TransactionAdapter.new tx (some config)))
        (TransactionUtils.get_dex_info ord) config = some tr_agg →
      (DexParser.parse_with_classifier tx config ord).sol_balance_change =
          none ∧
      (DexParser.parse_with_classifier tx config ord).token_balance_change =
          none ∧
      (DexParser.parse_with_classifier tx config ord).trades = tr_agg.1 ∧
      (DexParser.parse_with_classifier tx config ord).aggregate_trade =
          tr_agg.2) := by
  have hcond : ¬((match config.program_ids with
      | some filter_ids =>
          !((InstructionClassifier.get_all_program_ids ord).any
            (fun id => filter_ids.contains id))
      | none => false) = true) := by
    rw [hnf]
    exact Bool.false_ne_true
  constructor
  · intro hfp
    simp only [DexParser.parse_with_classifier]
    rw [if_neg hcond, hfp]
    exact ⟨rfl, rfl⟩
  · intro tr_agg hfp
    simp only [DexParser.parse_with_classifier]
    rw [if_neg hcond, hfp]
    exact ⟨rfl, rfl, rfl, rfl⟩

end SolTx

namespace SolTx

/-- A Jupiter route-event instruction payload: discriminator, then the
Borsh layout `amm:32, inputMint:32, inputAmount:u64, outputMint:32,
outputAmount:u64` (112 bytes exactly). -/
def jupData : List Nat :=
  discriminators.JUPITER_ROUTE_EVENT ++ zeros32 ++ zeros32 ++
    u64le 1000000000 ++ zeros32 ++ u64le 150

/-- A Pump.fun trade-event instruction payload (121 bytes): mint,
`solAmount = 2000000000`, `tokenAmount = 10000`, `isBuy = 1`, user,
timestamp, and two trailing `u64` zeros. -/
def pumpfunData : List Nat :=
  discriminators.PUMPFUN_TRADE_EVENT ++ zeros32 ++ u64le 2000000000 ++
    u64le 10000 ++ [1] ++ zeros32 ++ u64le 1700000000 ++ u64le 0 ++ u64le 0

/-- A Jupiter-only transaction whose meta records a SOL balance change
for the signer (pre 100 → post 40). -/
def exTxC5 : SolanaTransactionInput :=
  { slot := 5
    account_keys := ["SIGNER", dex_programs.JUPITER.id]
    instructions :=
      [{ program_id_index := 1, data := jupData, account_key_indexes := [] }]
    meta := some
      { pre_balances := some [100, 0], post_balances := some [40, 0] } }

/-- The same signer balance change on a Pump.fun-only transaction (no
Jupiter fast path). -/
def exTxC5w : SolanaTransactionInput :=
  { slot := 5
    account_keys := ["SIGNER", dex_programs.PUMP_FUN.id]
    instructions :=
      [{ program_id_index := 1, data := pumpfunData,
         account_key_indexes := [] }]
    meta := some
      { pre_balances := some [100, 0], post_balances := some [40, 0] } }

/-- C5 counterexample: parsing `exTxC5` takes the Jupiter fast path
(state stays `true`, one trade), yet `sol_balance_change` is `none`
although the adapter's SOL change map has an entry for the signer. -/
theorem parse_fast_path_drops_balances_cex :
    (DexParser.parse_with_classifier exTxC5 {}
        [dex_programs.JUPITER.id]).state = true ∧
    (DexParser.parse_with_classifier exTxC5 {}
        [dex_programs.JUPITER.id]).trades.length = 1 ∧
    (DexParser.parse_with_classifier exTxC5 {}
        [dex_programs.JUPITER.id]).sol_balance_change = none ∧
    (lookupM
        ((TransactionAdapter.new exTxC5
          (some {})).get_account_sol_balance_changes false)
        (TransactionAdapter.new exTxC5 (some {})).signer).isSome = true := by
  refine ⟨by decide, by decide, by decide, by decide⟩

/-- Witness for `parse_balance_change_attachment`: the Pump.fun
transaction walks the decoders, and its result carries the signer's
SOL-balance change. -/
theorem parse_balance_change_attachment_witness :
    (DexParser.parse_with_classifier exTxC5w {}
        [dex_programs.PUMP_FUN.id]).sol_balance_change =
      lookupM
        ((TransactionAdapter.new exTxC5w
          (some {})).get_account_sol_balance_changes false)
        (TransactionAdapter.new exTxC5w (some {})).signer :=
  ((parse_balance_change_attachment exTxC5w {} [dex_programs.PUMP_FUN.id]
      (by decide)).1 (by decide)).1

end SolTx

namespace SolTx

/-! ## C6: deduplication and aggregation after the decoder walk -/

/-- The orchestrator's local `trades` list as produced by the decoder
walk, before deduplication (the `trades` variable of
`parse_with_classifier` on the non-fast-path branch). -/
def walkedOf (tx : SolanaTransactionInput) (config : ParseConfig)
    (ord : List String) : List TradeInfo :=
  DexParser.decoder_walk (TransactionAdapter.new tx (some config))
    (InstructionClassifier.new (TransactionAdapter.new tx (some config)))
    (TransactionUtils.get_transfer_actions
      (TransactionAdapter.new tx (some config))
      ["mintTo", "burn", "mintToChecked", "burnChecked"])
    config (TransactionUtils.get_dex_info ord).route ord

/-- C6 (amended): on the non-fast-path branch, only when the decoder
walk produces *more than one* trade does the orchestrator deduplicate by
`"<idx>-<signature>"` keeping the first occurrence and (with
`aggregate_trades` enabled) set the aggregate trade; when the walk
produces at most one trade the list is returned as is and the aggregate
trade stays `none`, even with `aggregate_trades` enabled. -/
theorem parse_dedup_aggregate (tx : SolanaTransactionInput)
    (config : ParseConfig) (ord : List String)
    (hnf : (match config.program_ids with
            | some filter_ids =>
                !((InstructionClassifier.get_all_program_ids ord).any
                  (fun id => filter_ids.contains id))
            | none => false) = false)
    (hfp : DexParser.fast_path_outcome (TransactionAdapter.new tx (some config))
        (InstructionClassifier.new (TransactionAdapter.new tx (some config)))
        (TransactionUtils.get_dex_info ord) config = none) :
    ((walkedOf tx config ord).length > 1 →
      (DexParser.parse_with_classifier tx config ord).trades =
        DexParser.retain_first_by_key (walkedOf tx config ord) [] ∧
      (DexParser.parse_with_classifier tx config ord).aggregate_trade =
        (if config.aggregate_trades then
          get_final_swap
            (DexParser.retain_first_by_key (walkedOf tx config ord) [])
            (TransactionUtils.get_dex_info ord).amm
            (TransactionUtils.get_dex_info ord).route
         else none)) ∧
    (¬ (walkedOf tx config ord).length > 1 →
      (DexParser.parse_with_classifier tx config ord).trades =
        walkedOf tx config ord ∧
      (DexParser.parse_with_classifier tx config ord).aggregate_trade =
        none) := by
  have hcond : ¬((match config.program_ids with
      | some filter_ids =>
          !((InstructionClassifier.get_all_program_ids ord).any
            (fun id => filter_ids.contains id))
      | none => false) = true) := by
    rw [hnf]
    exact Bool.false_ne_true
  have hw : walkedOf tx config ord =
      DexParser.decoder_walk (TransactionAdapter.new tx (some config))
        (InstructionClassifier.new (TransactionAdapter.new tx (some config)))
        (TransactionUtils.get_transfer_actions
          (TransactionAdapter.new tx (some config))
          ["mintTo", "burn", "mintToChecked", "burnChecked"])
        config (TransactionUtils.get_dex_info ord).route ord := rfl
  constructor
  · intro hgt
    simp only [DexParser.parse_with_classifier]
    rw [if_neg hcond, hfp, ← hw, if_pos hgt]
    exact ⟨rfl, rfl⟩
  · intro hle
    simp only [DexParser.parse_with_classifier]
    rw [if_neg hcond, hfp, ← hw, if_neg hle]
    exact ⟨rfl, rfl⟩

/-- A single Pump.fun trade with aggregation enabled. -/
def exTxC6 : SolanaTransactionInput :=
  { slot := 6
    account_keys := ["SIGNER", dex_programs.PUMP_FUN.id]
    instructions :=
      [{ program_id_index := 1, data := pumpfunData,
         account_key_indexes := [] }] }

/-- C6 counterexample: with `aggregate_trades := true` and exactly one
walked trade, the aggregate trade is `none` — aggregation of a single
trade does not yield that trade. -/
theorem parse_single_trade_no_aggregate_cex :
    (DexParser.parse_with_classifier exTxC6 { aggregate_trades := true }
        [dex_programs.PUMP_FUN.id]).trades.length = 1 ∧
    (DexParser.parse_with_classifier exTxC6 { aggregate_trades := true }
        [dex_programs.PUMP_FUN.id]).aggregate_trade = none :=
  ⟨by decide, by decide⟩

/-- Witness for `parse_dedup_aggregate` on the at-most-one-trade
branch. -/
theorem parse_dedup_aggregate_witness :
    (DexParser.parse_with_classifier exTxC6 { aggregate_trades := true }
        [dex_programs.PUMP_FUN.id]).trades =
      walkedOf exTxC6 { aggregate_trades := true }
        [dex_programs.PUMP_FUN.id] :=
  ((parse_dedup_aggregate exTxC6 { aggregate_trades := true }
      [dex_programs.PUMP_FUN.id] (by decide) (by decide)).2 (by decide)).1

end SolTx

namespace SolTx

/-! ## C10: iteration order and determinism -/

/-- C10 (amended): the decoder walk is iteration-order-invariant only up
to permutation — for two hash-map iteration orders that are permutations
of each other, walking with the same adapter, classifier, transfer
actions, configuration and route yields permuted trade lists.  The full
parse is *not* deterministic across iteration orders: the first dex
program discovered decides both the `DexInfo` and whether the Jupiter
fast path runs, so two orders can produce different results. -/
theorem decoder_walk_perm (a : TransactionAdapter)
    (c : InstructionClassifier)
    (transfer_actions : List (String × List TransferData))
    (config : ParseConfig) (route : Option String) (ord1 ord2 : List String)
    (hperm : List.Perm ord1 ord2) :
    List.Perm (DexParser.decoder_walk a c transfer_actions config route ord1)
      (DexParser.decoder_walk a c transfer_actions config route ord2) := by
  have hbody : ∀ ord : List String,
      DexParser.decoder_walk a c transfer_actions config route ord =
        ((InstructionClassifier.get_all_program_ids ord).map
          (fun pid =>
            if DexParser.program_pass config pid then
              DexParser.walk_program_trades a c transfer_actions route pid
            else [])).flatten := by
    intro ord
    unfold DexParser.decoder_walk
    have hsplit :
        (fun (acc : List TradeInfo) (program_id : String) =>
            if DexParser.program_pass config program_id then
              acc ++
                DexParser.walk_program_trades a c transfer_actions route
                  program_id
            else acc) =
          fun (acc : List TradeInfo) (program_id : String) =>
            acc ++
              (if DexParser.program_pass config program_id then
                DexParser.walk_program_trades a c transfer_actions route
                  program_id
              else []) := by
      funext acc program_id
      by_cases h : DexParser.program_pass config program_id <;> simp [h]
    rw [hsplit, foldl_append_eq_flatten]
    rfl
  rw [hbody ord1, hbody ord2]
  exact List.Perm.flatten
    (List.Perm.map _ (List.Perm.filter _ hperm))

/-- A transaction holding a Jupiter route event and a Pump.fun trade
event: which program the classifier map yields first decides whether the
Jupiter fast path runs. -/
def exTxC10 : SolanaTransactionInput :=
  { slot := 10
    account_keys :=
      ["SIGNER", dex_programs.JUPITER.id, dex_programs.PUMP_FUN.id]
    instructions :=
      [{ program_id_index := 1, data := jupData, account_key_indexes := [] },
       { program_id_index := 2, data := pumpfunData,
         account_key_indexes := [] }]
    meta := some
      { pre_balances := some [100, 0, 0], post_balances := some [40, 0, 0] } }

/-- C10 counterexample: both iteration orders below are permutations of
the classifier's keys, yet one order takes the Jupiter fast path (one
trade, no balance changes) and the other walks the decoders (two trades,
balance changes attached) — the parse results differ. -/
theorem parse_iteration_order_cex :
    List.Perm [dex_programs.JUPITER.id, dex_programs.PUMP_FUN.id]
      (InstructionClassifier.map_keys
        (InstructionClassifier.new
          (TransactionAdapter.new exTxC10 (some {})))) ∧
    List.Perm [dex_programs.PUMP_FUN.id, dex_programs.JUPITER.id]
      (InstructionClassifier.map_keys
        (InstructionClassifier.new
          (TransactionAdapter.new exTxC10 (some {})))) ∧
    (DexParser.parse_with_classifier exTxC10 {}
        [dex_programs.JUPITER.id, dex_programs.PUMP_FUN.id]).trades.length =
      1 ∧
    (DexParser.parse_with_classifier exTxC10 {}
        [dex_programs.PUMP_FUN.id, dex_programs.JUPITER.id]).trades.length =
      2 ∧
    DexParser.parse_with_classifier exTxC10 {}
        [dex_programs.JUPITER.id, dex_programs.PUMP_FUN.id] ≠
      DexParser.parse_with_classifier exTxC10 {}
        [dex_programs.PUMP_FUN.id, dex_programs.JUPITER.id] := by
  refine ⟨?_, ?_, by decide, by decide, by decide⟩
  · have h : InstructionClassifier.map_keys
        (InstructionClassifier.new
          (TransactionAdapter.new exTxC10 (some {}))) =
        [dex_programs.JUPITER.id, dex_programs.PUMP_FUN.id] := by decide
    rw [h]
  · have h : InstructionClassifier.map_keys
        (InstructionClassifier.new
          (TransactionAdapter.new exTxC10 (some {}))) =
        [dex_programs.JUPITER.id, dex_programs.PUMP_FUN.id] := by decide
    rw [h]
    exact List.Perm.swap _ _ []

/-- Witness for `decoder_walk_perm`: the two orders above produce
permuted (here: reversed) walk results on `exTxC10`. -/
theorem decoder_walk_perm_witness :
    List.Perm
      (DexParser.decoder_walk (TransactionAdapter.new exTxC10 (some {}))
        (InstructionClassifier.new (TransactionAdapter.new exTxC10 (some {})))
        [] {} none
        [dex_programs.JUPITER.id, dex_programs.PUMP_FUN.id])
      (DexParser.decoder_walk (TransactionAdapter.new exTxC10 (some {}))
        (InstructionClassifier.new (TransactionAdapter.new exTxC10 (some {})))
        [] {} none
        [dex_programs.PUMP_FUN.id, dex_programs.JUPITER.id]) :=
  decoder_walk_perm _ _ [] {} none _ _ (List.Perm.swap _ _ [])

end SolTx
